import Mathlib

/-! # NetworkManager: credential codec and script dispatcher

A shallow embedding of `libnm-util/dbus-helpers.c` (the WEP / WPA-PSK wire codec)
and of `src/nm-dispatcher.c` (the dispatcher request bookkeeping and the monitors of
the script directories), followed by the properties established about them.

Conventions of the embedding.

* A D-Bus message is the sequence of its typed fields.  An append iterator is the
  field sequence written so far; a read iterator is the sequence of fields from the
  current one onwards.  The D-Bus library itself is taken as ideal: appending never
  runs out of memory and the library imposes no size limit of its own.
* A C string is the list of bytes stored at the pointer; a terminating NUL follows
  the last listed byte, so `strlen` is the length of the prefix before the first
  zero byte.  A nullable pointer is an `Option`.
* A C `int` is an `Int`; a size converted to `int` goes through `toInt32`.
* The `IW_AUTH_*` macros come from the wireless-extensions header, which is not part
  of the sources; their values are a parameter (`IwAuth`).
* The file system is an input (`FsEnv`): what listing a directory yields and whether a
  file monitor can be created for it.
-/

namespace NetworkManager

/-! ## D-Bus messages -/

/-- A byte of key material. -/
abbrev Byte := Fin 256

/-- Conversion of a size to a 32-bit two's complement C `int`. -/
def toInt32 (n : Nat) : Int :=
  if n % 2 ^ 32 < 2 ^ 31 then ((n % 2 ^ 32 : Nat) : Int) else ((n % 2 ^ 32 : Nat) : Int) - 2 ^ 32

/-- One field of a D-Bus message body. -/
inductive DBusField where
  | int32 (v : Int)
  | uint32 (v : Nat)
  | string (s : List Byte)
  | byteArray (bytes : List Byte)
  | stringArray (items : List (List Byte))
  deriving DecidableEq, Repr

def DBUS_TYPE_INVALID : Nat := 0
def DBUS_TYPE_ARRAY : Nat := 97
def DBUS_TYPE_BYTE : Nat := 121
def DBUS_TYPE_INT32 : Nat := 105
def DBUS_TYPE_UINT32 : Nat := 117
def DBUS_TYPE_STRING : Nat := 115

/-- Type code of the current field, `DBUS_TYPE_INVALID` past the last field. -/
def dbus_message_iter_get_arg_type : List DBusField → Nat
  | [] => DBUS_TYPE_INVALID
  | .int32 _ :: _ => DBUS_TYPE_INT32
  | .uint32 _ :: _ => DBUS_TYPE_UINT32
  | .string _ :: _ => DBUS_TYPE_STRING
  | .byteArray _ :: _ => DBUS_TYPE_ARRAY
  | .stringArray _ :: _ => DBUS_TYPE_ARRAY

/-- Element type code of the current field when it is an array. -/
def dbus_message_iter_get_element_type : List DBusField → Nat
  | .byteArray _ :: _ => DBUS_TYPE_BYTE
  | .stringArray _ :: _ => DBUS_TYPE_STRING
  | _ => DBUS_TYPE_INVALID

/-- Moves to the next field; the result is FALSE when there is no next field. -/
def dbus_message_iter_next : List DBusField → Bool × List DBusField
  | [] => (false, [])
  | _ :: rest => (!rest.isEmpty, rest)

/-- Recursing into the current array and reading it as a fixed array: the bytes and
the element count as a C `int`. -/
def dbus_message_iter_get_fixed_array : List DBusField → List Byte × Int
  | .byteArray bytes :: _ => (bytes, toInt32 bytes.length)
  | _ => ([], 0)

/-- Reading the current field as an int32. -/
def dbus_message_iter_get_basic : List DBusField → Int
  | .int32 v :: _ => v
  | _ => 0

/-- Appending a basic int32 field. -/
def dbus_message_iter_append_basic (iter : List DBusField) (v : Int) : List DBusField :=
  iter ++ [.int32 v]

/-- Length of a C string: the number of bytes before the first zero byte. -/
def strlen (s : List Byte) : Nat :=
  (s.takeWhile (fun b => decide (b ≠ 0))).length

/-- Values of the wireless-extensions macros used by the codec. -/
structure IwAuth where
  IW_AUTH_ALG_OPEN_SYSTEM : Int
  IW_AUTH_ALG_SHARED_KEY : Int
  IW_AUTH_WPA_VERSION_WPA : Int
  IW_AUTH_WPA_VERSION_WPA2 : Int
  IW_AUTH_KEY_MGMT_802_1X : Int
  IW_AUTH_KEY_MGMT_PSK : Int

/-- Modelled from the spec: the values of the `IW_AUTH_*` macros, whose header is
missing from the sources.  The spec gives each selector the domain 1, 2 and names
version 1 as WPA and key management 2 as PSK. -/
def specIwAuth : IwAuth :=
  { IW_AUTH_ALG_OPEN_SYSTEM := 1
    IW_AUTH_ALG_SHARED_KEY := 2
    IW_AUTH_WPA_VERSION_WPA := 1
    IW_AUTH_WPA_VERSION_WPA2 := 2
    IW_AUTH_KEY_MGMT_802_1X := 1
    IW_AUTH_KEY_MGMT_PSK := 2 }

/-! ## `dbus-helpers.c` -/

/-- Source `key_append_helper`: appends the C string `key` as a byte array. -/
def key_append_helper (iter : Option (List DBusField)) (key : Option (List Byte)) :
    Bool × Option (List DBusField) :=
  match iter with
  | none => (false, none)
  | some fields =>
    match key with
    | none => (false, some fields)
    | some k =>
      let key_len : Int := toInt32 (strlen k)
      if key_len > 0 then
        (true, some (fields ++ [.byteArray (k.take key_len.toNat)]))
      else
        (false, some fields)

/-- Source `we_cipher_append_helper`. -/
def we_cipher_append_helper (iter : Option (List DBusField)) (we_cipher : Int) :
    Option (List DBusField) :=
  match iter with
  | none => none
  | some fields => some (dbus_message_iter_append_basic fields we_cipher)

/-- Source `nmu_security_serialize_wep`. -/
def nmu_security_serialize_wep (iw : IwAuth) (iter : Option (List DBusField))
    (key : Option (List Byte)) (auth_alg : Int) : Bool × Option (List DBusField) :=
  match iter with
  | none => (false, none)
  | some fields =>
    match key with
    | none => (false, some fields)
    | some k =>
      if auth_alg = iw.IW_AUTH_ALG_OPEN_SYSTEM ∨ auth_alg = iw.IW_AUTH_ALG_SHARED_KEY then
        match key_append_helper (some fields) (some k) with
        | (true, some fields1) => (true, some (dbus_message_iter_append_basic fields1 auth_alg))
        | (_, it) => (false, it)
      else
        (false, some fields)

/-- Output locations of `nmu_security_deserialize_wep`: each is `none` for a NULL
pointer, otherwise the value currently stored there. -/
structure WepOut where
  key : Option (Option (List Byte))
  key_len : Option Int
  auth_alg : Option Int
  deriving DecidableEq, Repr

/-- Source `nmu_security_deserialize_wep`: the return value, the iterator after the
call and the output locations after the call. -/
def nmu_security_deserialize_wep (iw : IwAuth) (iter : Option (List DBusField))
    (out : WepOut) : Bool × Option (List DBusField) × WepOut :=
  match iter with
  | none => (false, none, out)
  | some it =>
    if out.key = none then (false, some it, out)
    else if out.key ≠ some none then (false, some it, out)
    else if out.key_len = none then (false, some it, out)
    else if out.auth_alg = none then (false, some it, out)
    else if ¬ (dbus_message_iter_get_arg_type it = DBUS_TYPE_ARRAY
        ∧ dbus_message_iter_get_element_type it = DBUS_TYPE_BYTE) then (false, some it, out)
    else
      let (dbus_key, dbus_key_len) := dbus_message_iter_get_fixed_array it
      if ¬ (dbus_key_len > 0) then (false, some it, out)
      else
        let (has_next, it1) := dbus_message_iter_next it
        if ¬ has_next then (false, some it1, out)
        else if ¬ (dbus_message_iter_get_arg_type it1 = DBUS_TYPE_INT32) then
          (false, some it1, out)
        else
          let dbus_auth_alg := dbus_message_iter_get_basic it1
          if ¬ (dbus_auth_alg = iw.IW_AUTH_ALG_OPEN_SYSTEM
              ∨ dbus_auth_alg = iw.IW_AUTH_ALG_SHARED_KEY) then (false, some it1, out)
          else
            (true, some it1,
              { key := some (some dbus_key), key_len := some dbus_key_len,
                auth_alg := some dbus_auth_alg })

/-- The cipher collaborator `IEEE_802_11_Cipher` (declared in `cipher.h`): its
wireless-extensions identifier and its hash function, which returns a C string or
NULL. -/
structure IEEE_802_11_Cipher where
  we_cipher : Int
  hash : List Byte → List Byte → Option (List Byte)

/-- Source `nmu_security_serialize_wep_with_cipher`; `message` is the message body
the fields are appended to. -/
def nmu_security_serialize_wep_with_cipher (iw : IwAuth) (message : Option (List DBusField))
    (cipher : Option IEEE_802_11_Cipher) (ssid input : List Byte) (auth_alg : Int) :
    Bool × Option (List DBusField) :=
  match message, cipher with
  | some body, some c =>
    if auth_alg = iw.IW_AUTH_ALG_OPEN_SYSTEM ∨ auth_alg = iw.IW_AUTH_ALG_SHARED_KEY then
      let iter := we_cipher_append_helper (some body) c.we_cipher
      let key := c.hash ssid input
      nmu_security_serialize_wep iw iter key auth_alg
    else (false, some body)
  | _, _ => (false, message)

/-- Source `nmu_security_serialize_wpa_psk`. -/
def nmu_security_serialize_wpa_psk (iw : IwAuth) (iter : Option (List DBusField))
    (key : Option (List Byte)) (wpa_version key_mgt : Int) : Bool × Option (List DBusField) :=
  match iter with
  | none => (false, none)
  | some fields =>
    match key with
    | none => (false, some fields)
    | some k =>
      if wpa_version = iw.IW_AUTH_WPA_VERSION_WPA ∨ wpa_version = iw.IW_AUTH_WPA_VERSION_WPA2 then
        if key_mgt = iw.IW_AUTH_KEY_MGMT_802_1X ∨ key_mgt = iw.IW_AUTH_KEY_MGMT_PSK then
          match key_append_helper (some fields) (some k) with
          | (true, some fields1) =>
            (true, some (dbus_message_iter_append_basic
              (dbus_message_iter_append_basic fields1 wpa_version) key_mgt))
          | (_, it) => (false, it)
        else (false, some fields)
      else (false, some fields)

/-- Output locations of `nmu_security_deserialize_wpa_psk`. -/
structure WpaPskOut where
  key : Option (Option (List Byte))
  key_len : Option Int
  wpa_version : Option Int
  key_mgt : Option Int
  deriving DecidableEq, Repr

/-- Source `nmu_security_deserialize_wpa_psk`. -/
def nmu_security_deserialize_wpa_psk (iw : IwAuth) (iter : Option (List DBusField))
    (out : WpaPskOut) : Bool × Option (List DBusField) × WpaPskOut :=
  match iter with
  | none => (false, none, out)
  | some it =>
    if out.key = none then (false, some it, out)
    else if out.key ≠ some none then (false, some it, out)
    else if out.key_len = none then (false, some it, out)
    else if out.wpa_version = none then (false, some it, out)
    else if out.key_mgt = none then (false, some it, out)
    else if ¬ (dbus_message_iter_get_arg_type it = DBUS_TYPE_ARRAY
        ∧ dbus_message_iter_get_element_type it = DBUS_TYPE_BYTE) then (false, some it, out)
    else
      let (dbus_key, dbus_key_len) := dbus_message_iter_get_fixed_array it
      if ¬ (dbus_key_len > 0) then (false, some it, out)
      else
        let (has_next, it1) := dbus_message_iter_next it
        if ¬ has_next then (false, some it1, out)
        else if ¬ (dbus_message_iter_get_arg_type it1 = DBUS_TYPE_INT32) then
          (false, some it1, out)
        else
          let dbus_wpa_version := dbus_message_iter_get_basic it1
          if ¬ (dbus_wpa_version = iw.IW_AUTH_WPA_VERSION_WPA
              ∨ dbus_wpa_version = iw.IW_AUTH_WPA_VERSION_WPA2) then (false, some it1, out)
          else
            let (has_next2, it2) := dbus_message_iter_next it1
            if ¬ has_next2 then (false, some it2, out)
            else if ¬ (dbus_message_iter_get_arg_type it2 = DBUS_TYPE_INT32) then
              (false, some it2, out)
            else
              let dbus_key_mgt := dbus_message_iter_get_basic it2
              if ¬ (dbus_key_mgt = iw.IW_AUTH_KEY_MGMT_802_1X
                  ∨ dbus_key_mgt = iw.IW_AUTH_KEY_MGMT_PSK) then (false, some it2, out)
              else
                (true, some it2,
                  { key := some (some dbus_key), key_len := some dbus_key_len,
                    wpa_version := some dbus_wpa_version, key_mgt := some dbus_key_mgt })

/-- Source `nmu_security_serialize_wpa_psk_with_cipher`. -/
def nmu_security_serialize_wpa_psk_with_cipher (iw : IwAuth)
    (message : Option (List DBusField)) (cipher : Option IEEE_802_11_Cipher)
    (ssid input : List Byte) (wpa_version key_mgt : Int) : Bool × Option (List DBusField) :=
  match message, cipher with
  | some body, some c =>
    if wpa_version = iw.IW_AUTH_WPA_VERSION_WPA ∨ wpa_version = iw.IW_AUTH_WPA_VERSION_WPA2 then
      if key_mgt = iw.IW_AUTH_KEY_MGMT_802_1X ∨ key_mgt = iw.IW_AUTH_KEY_MGMT_PSK then
        let iter := we_cipher_append_helper (some body) c.we_cipher
        let key := c.hash ssid input
        nmu_security_serialize_wpa_psk iw iter key wpa_version key_mgt
      else (false, some body)
    else (false, some body)
  | _, _ => (false, message)


/-! ## `nm-dispatcher.c`

The dispatcher state is explicit: the file-level variables `do_dispatch`, `requests`
and the function-level `request_counter`, the heap of `DispatchInfo` records, the idle
sources of the main loop, the asynchronous proxy calls in flight, and the trace of
observable events (log entries, property-bag construction, transport calls, caller
callbacks).  A function yields `none` when the program does not return from it: an
assertion aborts, or a freed record is dereferenced.  A caller's callback is an event;
it does not re-enter the dispatcher.  A log call evaluates its arguments.  Addresses
are never reused. -/

/-- Source enum `DispatcherAction`. -/
inductive DispatcherAction where
  | DISPATCHER_ACTION_HOSTNAME
  | DISPATCHER_ACTION_PRE_UP
  | DISPATCHER_ACTION_UP
  | DISPATCHER_ACTION_PRE_DOWN
  | DISPATCHER_ACTION_DOWN
  | DISPATCHER_ACTION_VPN_PRE_UP
  | DISPATCHER_ACTION_VPN_UP
  | DISPATCHER_ACTION_VPN_PRE_DOWN
  | DISPATCHER_ACTION_VPN_DOWN
  | DISPATCHER_ACTION_DHCP4_CHANGE
  | DISPATCHER_ACTION_DHCP6_CHANGE
  deriving DecidableEq, Repr

open DispatcherAction

/-- Modelled from the spec: the `NMD_ACTION_*` strings of `nm-dispatcher-api.h`, which
is missing from the sources; the spec names the eleven actions. Source
`action_to_string` indexes `action_table` with the action. -/
def action_to_string : DispatcherAction → String
  | DISPATCHER_ACTION_HOSTNAME => "hostname"
  | DISPATCHER_ACTION_PRE_UP => "pre-up"
  | DISPATCHER_ACTION_UP => "up"
  | DISPATCHER_ACTION_PRE_DOWN => "pre-down"
  | DISPATCHER_ACTION_DOWN => "down"
  | DISPATCHER_ACTION_VPN_PRE_UP => "vpn-pre-up"
  | DISPATCHER_ACTION_VPN_UP => "vpn-up"
  | DISPATCHER_ACTION_VPN_PRE_DOWN => "vpn-pre-down"
  | DISPATCHER_ACTION_VPN_DOWN => "vpn-down"
  | DISPATCHER_ACTION_DHCP4_CHANGE => "dhcp4-change"
  | DISPATCHER_ACTION_DHCP6_CHANGE => "dhcp6-change"

/-- Modelled from the spec: the values of enum `DispatchResult` of
`nm-dispatcher-api.h`, which is missing from the sources; the five outcomes in the
order the spec lists them, numbered from 0. -/
def DISPATCH_RESULT_UNKNOWN : Nat := 0
/-- Modelled from the spec: second value of enum `DispatchResult`. -/
def DISPATCH_RESULT_SUCCESS : Nat := 1
/-- Modelled from the spec: third value of enum `DispatchResult`. -/
def DISPATCH_RESULT_EXEC_FAILED : Nat := 2
/-- Modelled from the spec: fourth value of enum `DispatchResult`. -/
def DISPATCH_RESULT_FAILED : Nat := 3
/-- Modelled from the spec: fifth value of enum `DispatchResult`. -/
def DISPATCH_RESULT_TIMEOUT : Nat := 4

/-- A `GValue` of a reply tuple: a string, an unsigned integer, or a value of another
type, given by its type name. -/
inductive GValue where
  | string (s : String)
  | uint (n : Nat)
  | other (type_name : String)
  deriving DecidableEq, Repr

/-- Result of `G_VALUE_TYPE_NAME`. -/
def GValue.type_name : GValue → String
  | .string _ => "gchararray"
  | .uint _ => "guint"
  | .other n => n

/-- Outcome of a proxy call: the result array of the reply, or a transport error. -/
inductive CallReply where
  | results (items : List (List GValue))
  | error (code : Int) (message : String)
  deriving DecidableEq, Repr

/-- Observable events, in the order the program produces them. -/
inductive Event where
  | critical (check : String)
  | log_dbg_dispatching (iface : Option String) (action : String)
  | log_dbg_ignoring
  | log_err_no_proxy
  | log_dbg_unexpected_count (n_values : Nat)
  | log_dbg_invalid_type (i : Nat) (element : Nat) (type_name : String)
  | log_dbg_succeeded (script : String)
  | log_warn_script_failed (script : String) (result : String) (err : String)
  | log_warn_dispatcher_failed (code : Int) (message : String)
  | connection_to_hash
  | value_hash_create
  | value_hash_add_object_path
  | fill_device_props
  | fill_vpn_props
  | proxy_call (action : String) (vpn_iface : String)
  | proxy_begin_call (action : String) (vpn_iface : String) (info : Nat)
  | callback (func : Nat) (call_id : Nat) (user_data : Nat)
  deriving DecidableEq, Repr

/-- The event is a call submitted to the transport. -/
def Event.is_transport : Event → Bool
  | .proxy_call _ _ => true
  | .proxy_begin_call _ _ _ => true
  | _ => false

/-- The event builds or fills a property bag. -/
def Event.is_property_bag : Event → Bool
  | .connection_to_hash => true
  | .value_hash_create => true
  | .value_hash_add_object_path => true
  | .fill_device_props => true
  | .fill_vpn_props => true
  | _ => false

/-- The event is an invocation of a caller's callback. -/
def Event.is_callback : Event → Bool
  | .callback _ _ _ => true
  | _ => false

/-- Source struct `DispatchInfo`; `callback` is `none` for a NULL function pointer. -/
structure DispatchInfo where
  request_id : Nat
  callback : Option Nat
  user_data : Nat
  idle_id : Nat
  deriving DecidableEq, Repr

/-- Modelled from the spec: the three watched script directories. Their paths are
macros of a header outside the sources; each macro name stands for its path. -/
def NMD_SCRIPT_DIR : String := "NMD_SCRIPT_DIR"

/-- Modelled from the spec: the directory of the scripts run before a device goes up. -/
def NMD_PRE_UP_DIR : String := "NMD_PRE_UP_DIR"

/-- Modelled from the spec: the directory of the scripts run before a device goes down. -/
def NMD_PRE_DOWN_DIR : String := "NMD_PRE_DOWN_DIR"

/-- Source `Monitor`: a watched directory, its file monitor (`none` while NULL) and
whether the directory had a script when it was last listed. -/
structure Monitor where
  dir : String
  monitor : Option Nat
  has_scripts : Bool
  deriving DecidableEq, Repr

/-- The initializer of the source array `monitors`. -/
def initial_monitors : List Monitor :=
  [⟨NMD_SCRIPT_DIR, none, true⟩, ⟨NMD_PRE_UP_DIR, none, true⟩, ⟨NMD_PRE_DOWN_DIR, none, true⟩]

/-- The dispatcher state: the flag `do_dispatch`; the hash table `requests` (`none`
while NULL) from request identifier to the address of its record; the 32-bit
`request_counter`; the allocated `DispatchInfo` records by address and the next fresh
address; the idle sources of the main loop, each with the address it passes to
`dispatcher_idle_cb`, and the next fresh source identifier; the addresses bound to the
asynchronous proxy calls in flight; the events so far; the array `monitors`. -/
structure World where
  do_dispatch : Bool := true
  requests : Option (List (Nat × Nat)) := none
  request_counter : Nat := 1
  heap : List (Nat × DispatchInfo) := []
  next_ptr : Nat := 1
  idle_sources : List (Nat × Nat) := []
  next_source : Nat := 1
  pending_calls : List Nat := []
  trace : List Event := []
  monitors : List Monitor := initial_monitors
  deriving DecidableEq, Repr

/-- Appends an event to the trace. -/
def World.emit (w : World) (e : Event) : World :=
  { w with trace := w.trace ++ [e] }

/-- Removes the entry of key `k` from an association list. -/
def remove_key (k : Nat) (l : List (Nat × Nat)) : List (Nat × Nat) :=
  l.filter (fun e => decide (e.1 ≠ k))

/-- The registry as a mapping: the entries of `requests`, none while it is NULL. -/
def World.registry (w : World) : List (Nat × Nat) :=
  w.requests.getD []

/-- Allocation of a zeroed `DispatchInfo` at a fresh address. -/
def g_malloc0 (w : World) : Nat × World :=
  (w.next_ptr,
    { w with
      heap := (w.next_ptr, { request_id := 0, callback := none, user_data := 0, idle_id := 0 })
        :: w.heap
      next_ptr := w.next_ptr + 1 })

/-- Replaces the record stored at address `p`. -/
def World.store (w : World) (p : Nat) (info : DispatchInfo) : World :=
  { w with heap := (p, info) :: w.heap.filter (fun e => decide (e.1 ≠ p)) }

/-- Release of the record at address `p`. -/
def g_free (w : World) (p : Nat) : World :=
  { w with heap := w.heap.filter (fun e => decide (e.1 ≠ p)) }

/-- Registration of an idle source for `dispatcher_idle_cb` with user data `info`;
the source identifier is fresh and nonzero. -/
def g_idle_add (w : World) (info : Nat) : Nat × World :=
  (w.next_source,
    { w with
      idle_sources := (w.next_source, info) :: w.idle_sources
      next_source := w.next_source + 1 })

/-- Removal of a main-loop source. -/
def g_source_remove (w : World) (id : Nat) : World :=
  { w with idle_sources := remove_key id w.idle_sources }

/-- Source `dispatcher_info_free`, the value destructor of `requests`. -/
def dispatcher_info_free (w : World) (info : Nat) : Option World :=
  match w.heap.lookup info with
  | none => none
  | some i =>
    let w1 := if i.idle_id ≠ 0 then g_source_remove w i.idle_id else w
    some (g_free w1 info)

/-- Source `_ensure_requests`. -/
def _ensure_requests (w : World) : World :=
  match w.requests with
  | none => { w with requests := some [] }
  | some _ => w

/-- Removal of a key of `requests`: the stored value, if any, goes through the value
destructor. -/
def g_hash_table_remove (w : World) (key : Nat) : Option World :=
  match w.requests with
  | none => some (w.emit (.critical "hash_table != NULL"))
  | some table =>
    match table.lookup key with
    | none => some w
    | some value =>
      match dispatcher_info_free w value with
      | none => none
      | some w1 => some { w1 with requests := some (remove_key key table) }

/-- Insertion into `requests`: a value already stored under the key is replaced and
goes through the value destructor. -/
def g_hash_table_insert (w : World) (key value : Nat) : Option World :=
  match w.requests with
  | none => some (w.emit (.critical "hash_table != NULL"))
  | some table =>
    match table.lookup key with
    | none => some { w with requests := some ((key, value) :: table) }
    | some old =>
      match dispatcher_info_free w old with
      | none => none
      | some w1 => some { w1 with requests := some ((key, value) :: remove_key key table) }

/-- Source `dispatcher_info_cleanup`. -/
def dispatcher_info_cleanup (w : World) (info : Nat) : Option World :=
  match w.heap.lookup info with
  | none => none
  | some i => g_hash_table_remove w i.request_id

/-- Source `dispatch_result_to_string`; `none` is the `g_assert_not_reached`. -/
def dispatch_result_to_string (result : Nat) : Option String :=
  if result = DISPATCH_RESULT_UNKNOWN then some "unknown"
  else if result = DISPATCH_RESULT_SUCCESS then some "success"
  else if result = DISPATCH_RESULT_EXEC_FAILED then some "exec failed"
  else if result = DISPATCH_RESULT_FAILED then some "failed"
  else if result = DISPATCH_RESULT_TIMEOUT then some "timed out"
  else none

/-- One iteration of the loop of `dispatcher_results_process`, for the item at index
`i`: the log entry it produces, or `none` when the program aborts. -/
def dispatcher_results_process_item (i : Nat) (item : List GValue) : Option Event :=
  match item with
  | [v0, v1, v2] =>
    match v0 with
    | .string script =>
      match v1 with
      | .uint result =>
        match v2 with
        | .string err =>
          if result = DISPATCH_RESULT_SUCCESS then some (.log_dbg_succeeded script)
          else
            match dispatch_result_to_string result with
            | some name => some (.log_warn_script_failed script name err)
            | none => none
        | _ => some (.log_dbg_invalid_type i 2 v2.type_name)
      | _ => some (.log_dbg_invalid_type i 1 v1.type_name)
    | _ => some (.log_dbg_invalid_type i 0 v0.type_name)
  | _ => some (.log_dbg_unexpected_count item.length)

/-- The loop of `dispatcher_results_process` from index `i` on. -/
def dispatcher_results_process_from (i : Nat) : List (List GValue) → Option (List Event)
  | [] => some []
  | item :: rest =>
    match dispatcher_results_process_item i item with
    | none => none
    | some e =>
      match dispatcher_results_process_from (i + 1) rest with
      | none => none
      | some es => some (e :: es)

/-- Source `dispatcher_results_process`: the log entries in order, or `none` when the
program aborts. -/
def dispatcher_results_process (results : List (List GValue)) : Option (List Event) :=
  dispatcher_results_process_from 0 results

/-- Appends the events to the trace. -/
def World.emit_all (w : World) (es : List Event) : World :=
  { w with trace := w.trace ++ es }

/-- Source `dispatcher_done_cb`, the completion handler of an asynchronous call, with
the outcome reported by `dbus_g_proxy_end_call`. -/
def dispatcher_done_cb (w : World) (info : Nat) (reply : CallReply) : Option World :=
  let processed : Option World :=
    match reply with
    | .results items =>
      match dispatcher_results_process items with
      | none => none
      | some es => some (w.emit_all es)
    | .error code message => some (w.emit (.log_warn_dispatcher_failed code message))
  match processed with
  | none => none
  | some w1 =>
    match w1.heap.lookup info with
    | none => none
    | some i =>
      match i.callback with
      | some func => some (w1.emit (.callback func i.request_id i.user_data))
      | none => some w1

/-- Source `dispatcher_idle_cb`: the return value (`false` is `G_SOURCE_REMOVE`) and
the state. -/
def dispatcher_idle_cb (w : World) (info : Nat) : Option (Bool × World) :=
  match w.heap.lookup info with
  | none => none
  | some i =>
    let w1 := w.store info { i with idle_id := 0 }
    let w2 :=
      match i.callback with
      | some func => w1.emit (.callback func i.request_id i.user_data)
      | none => w1
    match dispatcher_info_cleanup w2 info with
    | none => none
    | some w3 => some (false, w3)

/-- The main loop runs the idle source `source`: its function is called with its user
data, and the source is removed when the function returns `G_SOURCE_REMOVE`. -/
def idle_dispatch (w : World) (source : Nat) : Option World :=
  match w.idle_sources.lookup source with
  | none => some w
  | some info =>
    match dispatcher_idle_cb w info with
    | none => none
    | some (keep, w1) => some (if keep then w1 else g_source_remove w1 source)

/-- The transport signals completion of the asynchronous call bound to `info`: the
completion handler `dispatcher_done_cb` runs, then the destroy notification
`dispatcher_info_cleanup` of the call's user data. -/
def proxy_call_complete (w : World) (info : Nat) (reply : CallReply) : Option World :=
  if info ∈ w.pending_calls then
    match dispatcher_done_cb w info reply with
    | none => none
    | some w1 =>
      match dispatcher_info_cleanup w1 info with
      | none => none
      | some w2 => some { w2 with pending_calls := w2.pending_calls.filter (fun p => decide (p ≠ info)) }
  else some w

/-- Source `nm_dispatcher_call_cancel`. -/
def nm_dispatcher_call_cancel (w : World) (call_id : Nat) : Option World :=
  let w1 := _ensure_requests w
  match w1.registry.lookup call_id with
  | some info =>
    match w1.heap.lookup info with
    | some i => some (w1.store info { i with callback := none })
    | none => none
  | none => some (w1.emit (.critical "g_return_if_reached"))

/-- An `NMDevice`, reduced to what the dispatcher reads before it builds property bags:
the interface name. -/
structure NMDevice where
  iface : String
  deriving DecidableEq, Repr

/-- What the D-Bus layer answers during one call of `_dispatcher_call`: the proxy
returned by `dbus_g_proxy_new_for_name` (`none` for NULL) and the outcome of the
blocking call. -/
structure DBusEnv where
  proxy : Option Nat
  reply : CallReply
  deriving DecidableEq, Repr

/-- The code of `_dispatcher_call` from the label `done` on: the return value, the
value of `*out_call_id` (`none` for a NULL `out_call_id`) and the state. -/
def dispatcher_call_done (w : World) (success : Bool) (info : Option Nat)
    (out_call_id : Option Nat) : Option (Bool × Option Nat × World) :=
  match success, info with
  | true, some p =>
    match w.heap.lookup p with
    | none => none
    | some i =>
      match g_hash_table_insert w i.request_id p with
      | none => none
      | some w1 => some (true, out_call_id.map (fun _ => i.request_id), w1)
  | _, _ => some (success, out_call_id.map (fun _ => 0), w)

/-- The allocation of a `DispatchInfo` in `_dispatcher_call`: `g_malloc0`, the next
value of the 32-bit `request_counter`, the callback and the user data; `idle` tells
whether an idle source is added for the record. -/
def dispatch_info_new (w : World) (callback : Option Nat) (user_data : Nat) (idle : Bool) :
    Nat × World :=
  let (p, w1) := g_malloc0 w
  let id := w1.request_counter
  let w2 := { w1 with request_counter := (id + 1) % 2 ^ 32 }
  if idle then
    let (source, w3) := g_idle_add w2 p
    (p, w3.store p
      { request_id := id, callback := callback, user_data := user_data, idle_id := source })
  else
    (p, w2.store p
      { request_id := id, callback := callback, user_data := user_data, idle_id := 0 })

/-- The property bags built by `_dispatcher_call` before the call is sent. -/
def property_bag_events (action : DispatcherAction) (connection : Option Nat)
    (vpn_ip4_config vpn_ip6_config : Option Nat) : List Event :=
  (match connection with
    | some _ => [.connection_to_hash, .value_hash_create, .value_hash_add_object_path]
    | none => [.value_hash_create, .value_hash_create])
  ++ [.value_hash_create, .value_hash_create, .value_hash_create, .value_hash_create,
      .value_hash_create, .value_hash_create, .value_hash_create]
  ++ (if action ≠ DISPATCHER_ACTION_HOSTNAME then
        [.fill_device_props]
          ++ (if vpn_ip4_config ≠ none ∨ vpn_ip6_config ≠ none then [.fill_vpn_props] else [])
      else [])

/-- Source `_dispatcher_call`: the return value, the value of `*out_call_id` after the
call (`none` for a NULL `out_call_id`, otherwise `out_call_id` holds the value before
the call) and the state after the call. -/
def _dispatcher_call (env : DBusEnv) (w : World) (action : DispatcherAction)
    (blocking : Bool) (connection : Option Nat) (device : Option NMDevice)
    (vpn_iface : Option String) (vpn_ip4_config vpn_ip6_config : Option Nat)
    (callback : Option Nat) (user_data : Nat) (out_call_id : Option Nat) :
    Option (Bool × Option Nat × World) :=
  if blocking = true ∧ (callback ≠ none ∨ user_data ≠ 0) then none
  else
    let w := _ensure_requests w
    if action ≠ DISPATCHER_ACTION_HOSTNAME ∧ device = none then
      some (false, out_call_id, w.emit (.critical "NM_IS_DEVICE (device)"))
    else
      let w := w.emit (.log_dbg_dispatching
        (if action = DISPATCHER_ACTION_HOSTNAME then none else device.map (fun d => d.iface))
        (action_to_string action))
      if action = DISPATCHER_ACTION_VPN_UP ∧ vpn_ip4_config = none then
        some (false, out_call_id, w.emit (.critical "vpn_ip4_config != NULL"))
      else if w.do_dispatch = false then
        if blocking = false ∧ (out_call_id ≠ none ∨ callback ≠ none) then
          let (p, w1) := dispatch_info_new w callback user_data true
          dispatcher_call_done (w1.emit .log_dbg_ignoring) true (some p) out_call_id
        else
          dispatcher_call_done (w.emit .log_dbg_ignoring) true none out_call_id
      else
        match env.proxy with
        | none => some (false, out_call_id, w.emit .log_err_no_proxy)
        | some _ =>
          let w := w.emit_all
            (property_bag_events action connection vpn_ip4_config vpn_ip6_config)
          if blocking = true then
            let w := w.emit (.proxy_call (action_to_string action) (vpn_iface.getD ""))
            match env.reply with
            | .results items =>
              match dispatcher_results_process items with
              | none => none
              | some es => dispatcher_call_done (w.emit_all es) true none out_call_id
            | .error code message =>
              dispatcher_call_done (w.emit (.log_warn_dispatcher_failed code message))
                false none out_call_id
          else
            let (p, w1) := dispatch_info_new w callback user_data false
            let w2 := w1.emit
              (.proxy_begin_call (action_to_string action) (vpn_iface.getD "") p)
            dispatcher_call_done { w2 with pending_calls := p :: w2.pending_calls }
              true (some p) out_call_id

/-- Source `nm_dispatcher_call`. -/
def nm_dispatcher_call (env : DBusEnv) (w : World) (action : DispatcherAction)
    (connection : Option Nat) (device : Option NMDevice) (callback : Option Nat)
    (user_data : Nat) (out_call_id : Option Nat) : Option (Bool × Option Nat × World) :=
  _dispatcher_call env w action false connection device none none none callback user_data
    out_call_id

/-- Source `nm_dispatcher_call_sync`. -/
def nm_dispatcher_call_sync (env : DBusEnv) (w : World) (action : DispatcherAction)
    (connection : Option Nat) (device : Option NMDevice) :
    Option (Bool × Option Nat × World) :=
  _dispatcher_call env w action true connection device none none none none 0 none

/-- Source `nm_dispatcher_call_vpn`. -/
def nm_dispatcher_call_vpn (env : DBusEnv) (w : World) (action : DispatcherAction)
    (connection : Option Nat) (parent_device : Option NMDevice) (vpn_iface : Option String)
    (vpn_ip4_config vpn_ip6_config : Option Nat) (callback : Option Nat) (user_data : Nat)
    (out_call_id : Option Nat) : Option (Bool × Option Nat × World) :=
  _dispatcher_call env w action false connection parent_device vpn_iface vpn_ip4_config
    vpn_ip6_config callback user_data out_call_id

/-- Source `nm_dispatcher_call_vpn_sync`. -/
def nm_dispatcher_call_vpn_sync (env : DBusEnv) (w : World) (action : DispatcherAction)
    (connection : Option Nat) (parent_device : Option NMDevice) (vpn_iface : Option String)
    (vpn_ip4_config vpn_ip6_config : Option Nat) : Option (Bool × Option Nat × World) :=
  _dispatcher_call env w action true connection parent_device vpn_iface vpn_ip4_config
    vpn_ip6_config none 0 none

/-- The callback event of a record, if it has a callback. -/
def callback_events (i : DispatchInfo) : List Event :=
  match i.callback with
  | some func => [.callback func i.request_id i.user_data]
  | none => []

/-- The log entries of a reply, when its processing returns: the entries of the result
list, or the warning for a transport error. -/
def reply_events : CallReply → Option (List Event)
  | .results items => dispatcher_results_process items
  | .error code message => some [.log_warn_dispatcher_failed code message]

/-- The file system as the dispatcher sees it: `list_dir d` is the listing of the
directory `d` by `g_dir_open` and `g_dir_read_name` (`none` when the directory cannot be
opened, otherwise its entries), and `file_monitor d` is the result of
`g_file_monitor_directory` for `d` (`none` for NULL). -/
structure FsEnv where
  list_dir : String → Option (List String)
  file_monitor : String → Option Nat

/-- Source `dispatcher_dir_changed` with `item = &monitors[i]`: the flag of the
directory becomes TRUE, then, when the directory can be opened, whether a first entry
can be read; `do_dispatch` is recomputed as the disjunction over the array. -/
def dispatcher_dir_changed (fs : FsEnv) (w : World) (i : Nat) : World :=
  match w.monitors.get? i with
  | none => w
  | some item =>
    let item := { item with has_scripts := true }
    let item :=
      match fs.list_dir item.dir with
      | some names => { item with has_scripts := !names.isEmpty }
      | none => item
    let monitors := w.monitors.set i item
    { w with
      monitors := monitors
      do_dispatch := monitors.foldl (fun acc m => acc || m.has_scripts) false }

/-- The body of the loop of `nm_dispatcher_init` for the index `i`: the monitor of the
directory is created and stored, and the directory is listed when the monitor is not
NULL. -/
def nm_dispatcher_init_step (fs : FsEnv) (w : World) (i : Nat) : World :=
  match w.monitors.get? i with
  | none => w
  | some item =>
    let w := { w with monitors := w.monitors.set i { item with monitor := fs.file_monitor item.dir } }
    match fs.file_monitor item.dir with
    | some _ => dispatcher_dir_changed fs w i
    | none => w

/-- Source `nm_dispatcher_init`: the loop over the indices of `monitors`. -/
def nm_dispatcher_init (fs : FsEnv) (w : World) : World :=
  (List.range w.monitors.length).foldl (nm_dispatcher_init_step fs) w

/-- The arguments of one asynchronous dispatch call, as `nm_dispatcher_call_vpn` takes
them, with the D-Bus environment the call runs in. -/
structure DispatchArgs where
  env : DBusEnv
  action : DispatcherAction
  connection : Option Nat
  parent_device : Option NMDevice
  vpn_iface : Option String
  vpn_ip4_config : Option Nat
  vpn_ip6_config : Option Nat
  callback : Option Nat
  user_data : Nat
  out_call_id : Option Nat

/-- An asynchronous up request for a connection on the device `eth0`, with a callback
and a non-NULL `out_call_id`, while the dispatcher proxy is available. -/
def up_request : DispatchArgs :=
  { env := { proxy := some 1, reply := .results [] }
    action := DISPATCHER_ACTION_UP
    connection := some 1
    parent_device := some { iface := "eth0" }
    vpn_iface := none
    vpn_ip4_config := none
    vpn_ip6_config := none
    callback := some 7
    user_data := 9
    out_call_id := some 0 }

/-- The identifier a call allocated, read from the record at the address the call
allocated: `w` is the state before the call and `w1` the state after it. -/
def allocated_id (w w1 : World) : Option Nat :=
  (w1.heap.lookup w.next_ptr).map (fun i => i.request_id)

/-- A sequence of asynchronous dispatch calls, one after the other: the identifiers
allocated, in the order of their allocation, and the state after the last call. -/
def dispatch_all : World → List DispatchArgs → Option (List Nat × World)
  | w, [] => some ([], w)
  | w, a :: rest =>
    match nm_dispatcher_call_vpn a.env w a.action a.connection a.parent_device a.vpn_iface
        a.vpn_ip4_config a.vpn_ip6_config a.callback a.user_data a.out_call_id with
    | none => none
    | some (_, _, w1) =>
      match dispatch_all w1 rest with
      | none => none
      | some (ids, w2) => some ((allocated_id w w1).toList ++ ids, w2)

/-- The state `w1` differs from `w` at most in the array `monitors` and the flag
`do_dispatch`. -/
def World.same_requests (w w1 : World) : Prop :=
  w1.requests = w.requests ∧ w1.request_counter = w.request_counter ∧ w1.heap = w.heap
  ∧ w1.next_ptr = w.next_ptr ∧ w1.idle_sources = w.idle_sources
  ∧ w1.next_source = w.next_source ∧ w1.pending_calls = w.pending_calls
  ∧ w1.trace = w.trace

/-- The state `w1` has the counter, the next fresh address, the flag `do_dispatch` and
the array `monitors` of `w`. -/
def World.same_counter (w w1 : World) : Prop :=
  w1.request_counter = w.request_counter ∧ w1.next_ptr = w.next_ptr
  ∧ w1.do_dispatch = w.do_dispatch ∧ w1.monitors = w.monitors

/-- Well-formed states: every entry of the registry points to an allocated record
that carries the entry's key as its `request_id`, every allocated address is below the
next fresh address, and every idle-source identifier held by a record is below the next
fresh source identifier, which is nonzero. -/
def World.wf (w : World) : Prop :=
  (∀ e ∈ w.registry, (w.heap.lookup e.2).map (fun i => i.request_id) = some e.1)
  ∧ (∀ e ∈ w.heap, e.1 < w.next_ptr ∧ e.2.idle_id < w.next_source)
  ∧ 0 < w.next_source

instance (w : World) : Decidable w.wf := by
  unfold World.wf
  infer_instance

/-- One step of the dispatcher: a dispatch call that returns, a cancellation that
returns, an idle turn, the completion of an asynchronous call, a directory-change
notification, or the initialization of the monitors. -/
inductive Step : World → World → Prop where
  | call (env : DBusEnv) (w : World) (action : DispatcherAction) (blocking : Bool)
      (connection : Option Nat) (device : Option NMDevice) (vpn_iface : Option String)
      (vpn_ip4_config vpn_ip6_config : Option Nat) (callback : Option Nat) (user_data : Nat)
      (out_call_id : Option Nat) (ret : Bool) (out : Option Nat) (w' : World) :
      _dispatcher_call env w action blocking connection device vpn_iface vpn_ip4_config
        vpn_ip6_config callback user_data out_call_id = some (ret, out, w') → Step w w'
  | cancel (w : World) (call_id : Nat) (w' : World) :
      nm_dispatcher_call_cancel w call_id = some w' → Step w w'
  | idle (w : World) (source : Nat) (w' : World) :
      idle_dispatch w source = some w' → Step w w'
  | complete (w : World) (info : Nat) (reply : CallReply) (w' : World) :
      proxy_call_complete w info reply = some w' → Step w w'
  | dir_changed (fs : FsEnv) (w : World) (i : Nat) :
      Step w (dispatcher_dir_changed fs w i)
  | init (fs : FsEnv) (w : World) :
      Step w (nm_dispatcher_init fs w)

/-- A run of the dispatcher from a state, with the identifiers allocated by its steps
in the order of their allocation. -/
inductive Run (w0 : World) : List Nat → World → Prop where
  | init : Run w0 [] w0
  | step (ids : List Nat) (w w1 : World) :
      Run w0 ids w → Step w w1 → Run w0 (ids ++ (allocated_id w w1).toList) w1

/-- The states the dispatcher reaches from a state `w0`. -/
inductive Reachable (w0 : World) : World → Prop where
  | init : Reachable w0 w0
  | step (w w' : World) : Reachable w0 w → Step w w' → Reachable w0 w'

/-! ## Auxiliary facts -/

lemma toInt32_of_lt (n : Nat) (h : n < 2 ^ 31) : toInt32 n = (n : Int) := by
  have h1 : n % 2 ^ 32 = n := Nat.mod_eq_of_lt (by omega)
  unfold toInt32
  rw [h1, if_pos h]

lemma toInt32_zero : toInt32 0 = 0 := by
  unfold toInt32
  norm_num

lemma toInt32_two_pow_31 : toInt32 (2 ^ 31) = -(2 ^ 31) := by
  unfold toInt32
  norm_num

lemma strlen_eq_length (s : List Byte) (h : ∀ b ∈ s, b ≠ 0) : strlen s = s.length := by
  unfold strlen
  rw [List.takeWhile_eq_self_iff.mpr]
  intro b hb
  simpa using h b hb

lemma take_strlen (s : List Byte) :
    s.take (strlen s) = s.takeWhile (fun b => decide (b ≠ 0)) := by
  unfold strlen
  induction s with
  | nil => rfl
  | cons a t ih =>
    by_cases ha : a = 0
    · simp [List.takeWhile, ha]
    · simp only [ne_eq, decide_not] at ih
      simp [List.takeWhile, ha, ih]

lemma key_append_helper_ok (fields : List DBusField) (k : List Byte)
    (hpos : 0 < strlen k) (hlt : strlen k < 2 ^ 31) :
    key_append_helper (some fields) (some k)
      = (true, some (fields ++ [.byteArray (k.takeWhile (fun b => decide (b ≠ 0)))])) := by
  have h1 : toInt32 (strlen k) = (strlen k : Int) := toInt32_of_lt _ hlt
  have h2 : (0 : Int) < (strlen k : Int) := by exact_mod_cast hpos
  simp only [key_append_helper, h1, gt_iff_lt, h2, if_true, Int.toNat_ofNat, take_strlen]

lemma key_append_helper_fail (fields : List DBusField) (k : List Byte)
    (h : toInt32 (strlen k) ≤ 0) :
    key_append_helper (some fields) (some k) = (false, some fields) := by
  have h2 : ¬ (toInt32 (strlen k) > 0) := by omega
  simp only [key_append_helper, h2, if_false]


lemma deserialize_wpa_psk_ok (iw : IwAuth) (key : List Byte) (v k : Int)
    (rest : List DBusField) (l0 v0 k0 : Int)
    (hpos : 0 < toInt32 key.length)
    (hv : v = iw.IW_AUTH_WPA_VERSION_WPA ∨ v = iw.IW_AUTH_WPA_VERSION_WPA2)
    (hk : k = iw.IW_AUTH_KEY_MGMT_802_1X ∨ k = iw.IW_AUTH_KEY_MGMT_PSK) :
    nmu_security_deserialize_wpa_psk iw (some (.byteArray key :: .int32 v :: .int32 k :: rest))
        { key := some none, key_len := some l0, wpa_version := some v0, key_mgt := some k0 }
      = (true, some (.int32 k :: rest),
          { key := some (some key), key_len := some (toInt32 key.length),
            wpa_version := some v, key_mgt := some k }) := by
  simp [nmu_security_deserialize_wpa_psk, dbus_message_iter_get_arg_type,
    dbus_message_iter_get_element_type, dbus_message_iter_get_fixed_array,
    dbus_message_iter_next, dbus_message_iter_get_basic, hpos, hv, hk]

lemma deserialize_wep_ok (iw : IwAuth) (key : List Byte) (a : Int)
    (rest : List DBusField) (l0 a0 : Int)
    (hpos : 0 < toInt32 key.length)
    (ha : a = iw.IW_AUTH_ALG_OPEN_SYSTEM ∨ a = iw.IW_AUTH_ALG_SHARED_KEY) :
    nmu_security_deserialize_wep iw (some (.byteArray key :: .int32 a :: rest))
        { key := some none, key_len := some l0, auth_alg := some a0 }
      = (true, some (.int32 a :: rest),
          { key := some (some key), key_len := some (toInt32 key.length),
            auth_alg := some a }) := by
  simp [nmu_security_deserialize_wep, dbus_message_iter_get_arg_type,
    dbus_message_iter_get_element_type, dbus_message_iter_get_fixed_array,
    dbus_message_iter_next, dbus_message_iter_get_basic, hpos, ha]

lemma serialize_wpa_psk_ok (iw : IwAuth) (fields : List DBusField) (k : List Byte) (v m : Int)
    (hpos : 0 < strlen k) (hlt : strlen k < 2 ^ 31)
    (hv : v = iw.IW_AUTH_WPA_VERSION_WPA ∨ v = iw.IW_AUTH_WPA_VERSION_WPA2)
    (hm : m = iw.IW_AUTH_KEY_MGMT_802_1X ∨ m = iw.IW_AUTH_KEY_MGMT_PSK) :
    nmu_security_serialize_wpa_psk iw (some fields) (some k) v m
      = (true, some (fields ++ [.byteArray (k.takeWhile (fun b => decide (b ≠ 0))),
          .int32 v, .int32 m])) := by
  simp only [nmu_security_serialize_wpa_psk, hv, hm, if_true,
    key_append_helper_ok fields k hpos hlt, dbus_message_iter_append_basic,
    List.append_assoc, List.singleton_append, List.cons_append, List.nil_append]

lemma serialize_wep_ok (iw : IwAuth) (fields : List DBusField) (k : List Byte) (a : Int)
    (hpos : 0 < strlen k) (hlt : strlen k < 2 ^ 31)
    (ha : a = iw.IW_AUTH_ALG_OPEN_SYSTEM ∨ a = iw.IW_AUTH_ALG_SHARED_KEY) :
    nmu_security_serialize_wep iw (some fields) (some k) a
      = (true, some (fields ++ [.byteArray (k.takeWhile (fun b => decide (b ≠ 0))),
          .int32 a])) := by
  simp only [nmu_security_serialize_wep, ha, if_true,
    key_append_helper_ok fields k hpos hlt, dbus_message_iter_append_basic,
    List.append_assoc, List.singleton_append, List.cons_append, List.nil_append]

lemma serialize_wpa_psk_fail (iw : IwAuth) (fields : List DBusField) (k : List Byte) (v m : Int)
    (h : toInt32 (strlen k) ≤ 0) :
    nmu_security_serialize_wpa_psk iw (some fields) (some k) v m = (false, some fields) := by
  simp only [nmu_security_serialize_wpa_psk, key_append_helper_fail fields k h]
  split_ifs <;> rfl

lemma serialize_wep_fail (iw : IwAuth) (fields : List DBusField) (k : List Byte) (a : Int)
    (h : toInt32 (strlen k) ≤ 0) :
    nmu_security_serialize_wep iw (some fields) (some k) a = (false, some fields) := by
  simp only [nmu_security_serialize_wep, key_append_helper_fail fields k h]
  split_ifs <;> rfl

lemma takeWhile_nonzero_self (s : List Byte) (h : ∀ b ∈ s, b ≠ 0) :
    s.takeWhile (fun b => decide (b ≠ 0)) = s := by
  rw [List.takeWhile_eq_self_iff]
  intro b hb
  simpa using h b hb

lemma length_pos_of_ne_nil (s : List Byte) (h : s ≠ []) : 0 < s.length :=
  List.length_pos.mpr h


/-! ## Properties of the credential codec -/

/-- C1 (amended): for every non-empty key without a zero byte whose length fits a C
`int`, every `wpa_version` among WPA, WPA2 and every `key_mgt` among 802.1X, PSK,
`nmu_security_serialize_wpa_psk` returns TRUE and appends the key and the two
selectors, and `nmu_security_deserialize_wpa_psk` run on those fields returns TRUE
with the same key bytes, key length, version and key management. -/
theorem wpa_psk_decode_undoes_encode (iw : IwAuth) (fields rest : List DBusField)
    (key : List Byte) (wpa_version key_mgt l0 v0 m0 : Int)
    (hne : key ≠ []) (hz : ∀ b ∈ key, b ≠ 0) (hlen : key.length < 2 ^ 31)
    (hv : wpa_version = iw.IW_AUTH_WPA_VERSION_WPA ∨ wpa_version = iw.IW_AUTH_WPA_VERSION_WPA2)
    (hm : key_mgt = iw.IW_AUTH_KEY_MGMT_802_1X ∨ key_mgt = iw.IW_AUTH_KEY_MGMT_PSK) :
    nmu_security_serialize_wpa_psk iw (some fields) (some key) wpa_version key_mgt
        = (true, some (fields ++ [.byteArray key, .int32 wpa_version, .int32 key_mgt]))
    ∧ nmu_security_deserialize_wpa_psk iw
          (some ([.byteArray key, .int32 wpa_version, .int32 key_mgt] ++ rest))
          { key := some none, key_len := some l0, wpa_version := some v0, key_mgt := some m0 }
        = (true, some (.int32 key_mgt :: rest),
            { key := some (some key), key_len := some (key.length : Int),
              wpa_version := some wpa_version, key_mgt := some key_mgt }) := by
  have hs : strlen key = key.length := strlen_eq_length key hz
  have hpos : 0 < key.length := length_pos_of_ne_nil key hne
  constructor
  · have h := serialize_wpa_psk_ok iw fields key wpa_version key_mgt
      (by rw [hs]; exact hpos) (by rw [hs]; exact hlen) hv hm
    rw [takeWhile_nonzero_self key hz] at h
    exact h
  · have hi : toInt32 key.length = (key.length : Int) := toInt32_of_lt _ hlen
    have h := deserialize_wpa_psk_ok iw key wpa_version key_mgt rest l0 v0 m0
      (by rw [hi]; exact_mod_cast hpos) hv hm
    rw [hi] at h
    exact h

/-- The spec's own instance of C1: version 1, key management 2, key "secret". -/
theorem wpa_psk_decode_undoes_encode_witness :
    nmu_security_serialize_wpa_psk specIwAuth (some []) (some [115, 101, 99, 114, 101, 116]) 1 2
        = (true, some ([] ++ [.byteArray [115, 101, 99, 114, 101, 116], .int32 1, .int32 2]))
    ∧ nmu_security_deserialize_wpa_psk specIwAuth
          (some ([.byteArray [115, 101, 99, 114, 101, 116], .int32 1, .int32 2] ++ []))
          { key := some none, key_len := some 0, wpa_version := some 0, key_mgt := some 0 }
        = (true, some (.int32 2 :: []),
            { key := some (some [115, 101, 99, 114, 101, 116]),
              key_len := some (([115, 101, 99, 114, 101, 116] : List Byte).length : Int),
              wpa_version := some 1, key_mgt := some 2 }) :=
  wpa_psk_decode_undoes_encode specIwAuth [] [] [115, 101, 99, 114, 101, 116] 1 2 0 0 0
    (by simp) (by simp) (by norm_num) (Or.inl rfl) (Or.inr rfl)

/-- C1 as stated fails: a key of 2^31 non-zero bytes is a non-empty C string, yet its
length converted to `int` is negative and `nmu_security_serialize_wpa_psk` returns
FALSE without appending anything. -/
theorem wpa_psk_encode_rejects_int_overflow_length :
    List.replicate (2 ^ 31) (65 : Byte) ≠ []
    ∧ (∀ b ∈ List.replicate (2 ^ 31) (65 : Byte), b ≠ 0)
    ∧ nmu_security_serialize_wpa_psk specIwAuth (some [])
        (some (List.replicate (2 ^ 31) (65 : Byte))) 1 2 = (false, some []) := by
  have hz : ∀ b ∈ List.replicate (2 ^ 31) (65 : Byte), b ≠ 0 := by
    intro b hb
    rw [List.eq_of_mem_replicate hb]
    decide
  refine ⟨?_, hz, ?_⟩
  · apply List.ne_nil_of_length_pos
    rw [List.length_replicate]
    exact Nat.two_pow_pos 31
  · apply serialize_wpa_psk_fail
    rw [strlen_eq_length _ hz, List.length_replicate, toInt32_two_pow_31]
    norm_num


/-- C2 (amended): for every well-formed WEP or WPA-PSK field sequence whose key has
no zero byte and whose length fits a C `int`, deserializing it and then serializing
the returned key (as a NUL-terminated string) and selectors appends exactly the
fields of the sequence. -/
theorem encode_undoes_decode_of_c_string_key (iw : IwAuth) (fields rest : List DBusField)
    (key : List Byte) (auth_alg wpa_version key_mgt l0 a0 v0 m0 : Int)
    (hne : key ≠ []) (hz : ∀ b ∈ key, b ≠ 0) (hlen : key.length < 2 ^ 31)
    (ha : auth_alg = iw.IW_AUTH_ALG_OPEN_SYSTEM ∨ auth_alg = iw.IW_AUTH_ALG_SHARED_KEY)
    (hv : wpa_version = iw.IW_AUTH_WPA_VERSION_WPA ∨ wpa_version = iw.IW_AUTH_WPA_VERSION_WPA2)
    (hm : key_mgt = iw.IW_AUTH_KEY_MGMT_802_1X ∨ key_mgt = iw.IW_AUTH_KEY_MGMT_PSK) :
    ((nmu_security_deserialize_wep iw (some (.byteArray key :: .int32 auth_alg :: rest))
          { key := some none, key_len := some l0, auth_alg := some a0 }).1 = true
      ∧ nmu_security_serialize_wep iw (some fields)
          (nmu_security_deserialize_wep iw (some (.byteArray key :: .int32 auth_alg :: rest))
            { key := some none, key_len := some l0, auth_alg := some a0 }).2.2.key.join
          ((nmu_security_deserialize_wep iw (some (.byteArray key :: .int32 auth_alg :: rest))
            { key := some none, key_len := some l0, auth_alg := some a0 }).2.2.auth_alg.getD 0)
        = (true, some (fields ++ [.byteArray key, .int32 auth_alg])))
    ∧ ((nmu_security_deserialize_wpa_psk iw
          (some (.byteArray key :: .int32 wpa_version :: .int32 key_mgt :: rest))
          { key := some none, key_len := some l0, wpa_version := some v0,
            key_mgt := some m0 }).1 = true
      ∧ nmu_security_serialize_wpa_psk iw (some fields)
          (nmu_security_deserialize_wpa_psk iw
            (some (.byteArray key :: .int32 wpa_version :: .int32 key_mgt :: rest))
            { key := some none, key_len := some l0, wpa_version := some v0,
              key_mgt := some m0 }).2.2.key.join
          ((nmu_security_deserialize_wpa_psk iw
            (some (.byteArray key :: .int32 wpa_version :: .int32 key_mgt :: rest))
            { key := some none, key_len := some l0, wpa_version := some v0,
              key_mgt := some m0 }).2.2.wpa_version.getD 0)
          ((nmu_security_deserialize_wpa_psk iw
            (some (.byteArray key :: .int32 wpa_version :: .int32 key_mgt :: rest))
            { key := some none, key_len := some l0, wpa_version := some v0,
              key_mgt := some m0 }).2.2.key_mgt.getD 0)
        = (true, some (fields ++ [.byteArray key, .int32 wpa_version, .int32 key_mgt]))) := by
  have hs : strlen key = key.length := strlen_eq_length key hz
  have hpos : 0 < key.length := length_pos_of_ne_nil key hne
  have hi : toInt32 key.length = (key.length : Int) := toInt32_of_lt _ hlen
  have hip : 0 < toInt32 key.length := by rw [hi]; exact_mod_cast hpos
  have hwep := serialize_wep_ok iw fields key auth_alg
    (by rw [hs]; exact hpos) (by rw [hs]; exact hlen) ha
  have hwpa := serialize_wpa_psk_ok iw fields key wpa_version key_mgt
    (by rw [hs]; exact hpos) (by rw [hs]; exact hlen) hv hm
  rw [takeWhile_nonzero_self key hz] at hwep hwpa
  rw [deserialize_wep_ok iw key auth_alg rest l0 a0 hip ha,
    deserialize_wpa_psk_ok iw key wpa_version key_mgt rest l0 v0 m0 hip hv hm]
  exact ⟨⟨rfl, hwep⟩, ⟨rfl, hwpa⟩⟩

/-- Instance of C2 (amended): the key 0x41 0x42 with auth_alg 2, and with version 1 and
key management 2. -/
theorem encode_undoes_decode_of_c_string_key_witness :
    ((nmu_security_deserialize_wep specIwAuth (some (.byteArray [65, 66] :: .int32 2 :: []))
          { key := some none, key_len := some 0, auth_alg := some 0 }).1 = true
      ∧ nmu_security_serialize_wep specIwAuth (some [])
          (nmu_security_deserialize_wep specIwAuth (some (.byteArray [65, 66] :: .int32 2 :: []))
            { key := some none, key_len := some 0, auth_alg := some 0 }).2.2.key.join
          ((nmu_security_deserialize_wep specIwAuth (some (.byteArray [65, 66] :: .int32 2 :: []))
            { key := some none, key_len := some 0, auth_alg := some 0 }).2.2.auth_alg.getD 0)
        = (true, some ([] ++ [.byteArray [65, 66], .int32 2])))
    ∧ ((nmu_security_deserialize_wpa_psk specIwAuth
          (some (.byteArray [65, 66] :: .int32 1 :: .int32 2 :: []))
          { key := some none, key_len := some 0, wpa_version := some 0,
            key_mgt := some 0 }).1 = true
      ∧ nmu_security_serialize_wpa_psk specIwAuth (some [])
          (nmu_security_deserialize_wpa_psk specIwAuth
            (some (.byteArray [65, 66] :: .int32 1 :: .int32 2 :: []))
            { key := some none, key_len := some 0, wpa_version := some 0,
              key_mgt := some 0 }).2.2.key.join
          ((nmu_security_deserialize_wpa_psk specIwAuth
            (some (.byteArray [65, 66] :: .int32 1 :: .int32 2 :: []))
            { key := some none, key_len := some 0, wpa_version := some 0,
              key_mgt := some 0 }).2.2.wpa_version.getD 0)
          ((nmu_security_deserialize_wpa_psk specIwAuth
            (some (.byteArray [65, 66] :: .int32 1 :: .int32 2 :: []))
            { key := some none, key_len := some 0, wpa_version := some 0,
              key_mgt := some 0 }).2.2.key_mgt.getD 0)
        = (true, some ([] ++ [.byteArray [65, 66], .int32 1, .int32 2]))) :=
  encode_undoes_decode_of_c_string_key specIwAuth [] [] [65, 66] 2 1 2 0 0 0 0
    (by simp) (by simp) (by norm_num) (Or.inr rfl) (Or.inl rfl) (Or.inr rfl)

/-- C2 as stated fails: the well-formed WEP sequence whose three-byte key is
0x41 0x00 0x42 decodes successfully, but serializing the returned key appends the
one-byte key 0x41, because the encoder measures the key with `strlen`. -/
theorem encode_after_decode_truncates_at_zero_byte :
    (nmu_security_deserialize_wep specIwAuth (some [.byteArray [65, 0, 66], .int32 1])
        { key := some none, key_len := some 0, auth_alg := some 0 })
      = (true, some [.int32 1],
          { key := some (some [65, 0, 66]), key_len := some 3, auth_alg := some 1 })
    ∧ nmu_security_serialize_wep specIwAuth (some []) (some [65, 0, 66]) 1
      = (true, some [.byteArray [65], .int32 1])
    ∧ (some [DBusField.byteArray [65], .int32 1] : Option (List DBusField))
      ≠ some [.byteArray [65, 0, 66], .int32 1] := by
  refine ⟨by rfl, by rfl, by decide⟩

/-- C3: when the current field is a byte array of length zero, whatever fields
follow, both decoders return FALSE, leave the iterator on that field and leave every
output location as it was, so no key bytes are yielded. -/
theorem deserialize_rejects_empty_key (iw : IwAuth) (rest : List DBusField)
    (out : WepOut) (out2 : WpaPskOut) :
    nmu_security_deserialize_wep iw (some (.byteArray [] :: rest)) out
        = (false, some (.byteArray [] :: rest), out)
    ∧ nmu_security_deserialize_wpa_psk iw (some (.byteArray [] :: rest)) out2
        = (false, some (.byteArray [] :: rest), out2) := by
  constructor
  · simp [nmu_security_deserialize_wep, dbus_message_iter_get_fixed_array, toInt32_zero]
  · simp [nmu_security_deserialize_wpa_psk, dbus_message_iter_get_fixed_array, toInt32_zero]

lemma arg_type_byte_array (it : List DBusField)
    (h : dbus_message_iter_get_arg_type it = DBUS_TYPE_ARRAY
      ∧ dbus_message_iter_get_element_type it = DBUS_TYPE_BYTE) :
    ∃ key rest, it = .byteArray key :: rest := by
  rcases it with _ | ⟨f, rest⟩
  · exact absurd (show (0 : Nat) = 97 from h.1) (by decide)
  · cases f with
    | byteArray key => exact ⟨key, rest, rfl⟩
    | int32 v => exact absurd (show (105 : Nat) = 97 from h.1) (by decide)
    | uint32 v => exact absurd (show (117 : Nat) = 97 from h.1) (by decide)
    | string v => exact absurd (show (115 : Nat) = 97 from h.1) (by decide)
    | stringArray v => exact absurd (show (115 : Nat) = 121 from h.2) (by decide)

lemma arg_type_int32 (it : List DBusField)
    (h : dbus_message_iter_get_arg_type it = DBUS_TYPE_INT32) :
    ∃ v rest, it = .int32 v :: rest := by
  rcases it with _ | ⟨f, rest⟩
  · exact absurd (show (0 : Nat) = 105 from h) (by decide)
  · cases f with
    | int32 v => exact ⟨v, rest, rfl⟩
    | byteArray key => exact absurd (show (97 : Nat) = 105 from h) (by decide)
    | uint32 v => exact absurd (show (117 : Nat) = 105 from h) (by decide)
    | string v => exact absurd (show (115 : Nat) = 105 from h) (by decide)
    | stringArray v => exact absurd (show (97 : Nat) = 105 from h) (by decide)

/-- Every run of the WEP decoder either fails leaving the outputs untouched, or
succeeds on a sequence of the accepted shape and writes all outputs. -/
lemma deserialize_wep_cases (iw : IwAuth) (iter : Option (List DBusField)) (out : WepOut) :
    (∃ it', nmu_security_deserialize_wep iw iter out = (false, it', out))
    ∨ (out.key = some none ∧ ∃ key a rest,
        iter = some (.byteArray key :: .int32 a :: rest)
        ∧ 0 < toInt32 key.length
        ∧ (a = iw.IW_AUTH_ALG_OPEN_SYSTEM ∨ a = iw.IW_AUTH_ALG_SHARED_KEY)
        ∧ nmu_security_deserialize_wep iw iter out
          = (true, some (.int32 a :: rest),
              { key := some (some key), key_len := some (toInt32 key.length),
                auth_alg := some a })) := by
  rcases iter with _ | it
  · exact Or.inl ⟨_, rfl⟩
  simp only [nmu_security_deserialize_wep]
  by_cases c1 : out.key = none
  · rw [if_pos c1]; exact Or.inl ⟨_, rfl⟩
  rw [if_neg c1]
  by_cases c2 : out.key ≠ some none
  · rw [if_pos c2]; exact Or.inl ⟨_, rfl⟩
  rw [if_neg c2]
  by_cases c3 : out.key_len = none
  · rw [if_pos c3]; exact Or.inl ⟨_, rfl⟩
  rw [if_neg c3]
  by_cases c4 : out.auth_alg = none
  · rw [if_pos c4]; exact Or.inl ⟨_, rfl⟩
  rw [if_neg c4]
  by_cases c5 : ¬ (dbus_message_iter_get_arg_type it = DBUS_TYPE_ARRAY
      ∧ dbus_message_iter_get_element_type it = DBUS_TYPE_BYTE)
  · rw [if_pos c5]; exact Or.inl ⟨_, rfl⟩
  rw [if_neg c5]
  by_cases c6 : ¬ ((dbus_message_iter_get_fixed_array it).2 > 0)
  · rw [if_pos c6]; exact Or.inl ⟨_, rfl⟩
  rw [if_neg c6]
  by_cases c7 : ¬ ((dbus_message_iter_next it).1 = true)
  · rw [if_pos c7]; exact Or.inl ⟨_, rfl⟩
  rw [if_neg c7]
  by_cases c8 : ¬ (dbus_message_iter_get_arg_type (dbus_message_iter_next it).2 = DBUS_TYPE_INT32)
  · rw [if_pos c8]; exact Or.inl ⟨_, rfl⟩
  rw [if_neg c8]
  by_cases c9 : ¬ (dbus_message_iter_get_basic (dbus_message_iter_next it).2
        = iw.IW_AUTH_ALG_OPEN_SYSTEM
      ∨ dbus_message_iter_get_basic (dbus_message_iter_next it).2 = iw.IW_AUTH_ALG_SHARED_KEY)
  · rw [if_pos c9]; exact Or.inl ⟨_, rfl⟩
  rw [if_neg c9]
  obtain ⟨key, rest, rfl⟩ := arg_type_byte_array it (not_not.mp c5)
  obtain ⟨a, tail, hrest⟩ := arg_type_int32 _ (not_not.mp c8)
  have hrest2 : rest = .int32 a :: tail := hrest
  subst hrest2
  exact Or.inr ⟨not_not.mp c2, key, a, tail, rfl, not_not.mp c6, not_not.mp c9, rfl⟩

/-- Every run of the WPA-PSK decoder either fails leaving the outputs untouched, or
succeeds on a sequence of the accepted shape and writes all outputs. -/
lemma deserialize_wpa_psk_cases (iw : IwAuth) (iter : Option (List DBusField))
    (out : WpaPskOut) :
    (∃ it', nmu_security_deserialize_wpa_psk iw iter out = (false, it', out))
    ∨ (out.key = some none ∧ ∃ key v m rest,
        iter = some (.byteArray key :: .int32 v :: .int32 m :: rest)
        ∧ 0 < toInt32 key.length
        ∧ (v = iw.IW_AUTH_WPA_VERSION_WPA ∨ v = iw.IW_AUTH_WPA_VERSION_WPA2)
        ∧ (m = iw.IW_AUTH_KEY_MGMT_802_1X ∨ m = iw.IW_AUTH_KEY_MGMT_PSK)
        ∧ nmu_security_deserialize_wpa_psk iw iter out
          = (true, some (.int32 m :: rest),
              { key := some (some key), key_len := some (toInt32 key.length),
                wpa_version := some v, key_mgt := some m })) := by
  rcases iter with _ | it
  · exact Or.inl ⟨_, rfl⟩
  simp only [nmu_security_deserialize_wpa_psk]
  by_cases c1 : out.key = none
  · rw [if_pos c1]; exact Or.inl ⟨_, rfl⟩
  rw [if_neg c1]
  by_cases c2 : out.key ≠ some none
  · rw [if_pos c2]; exact Or.inl ⟨_, rfl⟩
  rw [if_neg c2]
  by_cases c3 : out.key_len = none
  · rw [if_pos c3]; exact Or.inl ⟨_, rfl⟩
  rw [if_neg c3]
  by_cases c4 : out.wpa_version = none
  · rw [if_pos c4]; exact Or.inl ⟨_, rfl⟩
  rw [if_neg c4]
  by_cases c4' : out.key_mgt = none
  · rw [if_pos c4']; exact Or.inl ⟨_, rfl⟩
  rw [if_neg c4']
  by_cases c5 : ¬ (dbus_message_iter_get_arg_type it = DBUS_TYPE_ARRAY
      ∧ dbus_message_iter_get_element_type it = DBUS_TYPE_BYTE)
  · rw [if_pos c5]; exact Or.inl ⟨_, rfl⟩
  rw [if_neg c5]
  by_cases c6 : ¬ ((dbus_message_iter_get_fixed_array it).2 > 0)
  · rw [if_pos c6]; exact Or.inl ⟨_, rfl⟩
  rw [if_neg c6]
  by_cases c7 : ¬ ((dbus_message_iter_next it).1 = true)
  · rw [if_pos c7]; exact Or.inl ⟨_, rfl⟩
  rw [if_neg c7]
  by_cases c8 : ¬ (dbus_message_iter_get_arg_type (dbus_message_iter_next it).2 = DBUS_TYPE_INT32)
  · rw [if_pos c8]; exact Or.inl ⟨_, rfl⟩
  rw [if_neg c8]
  by_cases c9 : ¬ (dbus_message_iter_get_basic (dbus_message_iter_next it).2
        = iw.IW_AUTH_WPA_VERSION_WPA
      ∨ dbus_message_iter_get_basic (dbus_message_iter_next it).2
        = iw.IW_AUTH_WPA_VERSION_WPA2)
  · rw [if_pos c9]; exact Or.inl ⟨_, rfl⟩
  rw [if_neg c9]
  by_cases c10 : ¬ ((dbus_message_iter_next (dbus_message_iter_next it).2).1 = true)
  · rw [if_pos c10]; exact Or.inl ⟨_, rfl⟩
  rw [if_neg c10]
  by_cases c11 : ¬ (dbus_message_iter_get_arg_type
      (dbus_message_iter_next (dbus_message_iter_next it).2).2 = DBUS_TYPE_INT32)
  · rw [if_pos c11]; exact Or.inl ⟨_, rfl⟩
  rw [if_neg c11]
  by_cases c12 : ¬ (dbus_message_iter_get_basic
        (dbus_message_iter_next (dbus_message_iter_next it).2).2 = iw.IW_AUTH_KEY_MGMT_802_1X
      ∨ dbus_message_iter_get_basic
        (dbus_message_iter_next (dbus_message_iter_next it).2).2 = iw.IW_AUTH_KEY_MGMT_PSK)
  · rw [if_pos c12]; exact Or.inl ⟨_, rfl⟩
  rw [if_neg c12]
  obtain ⟨key, rest, rfl⟩ := arg_type_byte_array it (not_not.mp c5)
  obtain ⟨v, rest2, hrest⟩ := arg_type_int32 _ (not_not.mp c8)
  have hrest' : rest = .int32 v :: rest2 := hrest
  subst hrest'
  obtain ⟨m, tail, hrest2⟩ := arg_type_int32 _ (not_not.mp c11)
  have hrest2' : rest2 = .int32 m :: tail := hrest2
  subst hrest2'
  exact Or.inr ⟨not_not.mp c2, key, v, m, tail, rfl, not_not.mp c6, not_not.mp c9,
    not_not.mp c12, rfl⟩

/-- C4: with a byte-array key as current field, `nmu_security_deserialize_wep`
returns FALSE unless the next field exists, is an int32 and holds open-system or
shared-key; `nmu_security_deserialize_wpa_psk` returns FALSE unless the next two
fields exist, are int32 and hold a WPA version among WPA, WPA2 and a key management
among 802.1X, PSK.  A payload that ends after the key, or after a valid
`wpa_version`, is among the rejected ones. -/
theorem deserialize_rejects_bad_selector (iw : IwAuth) (key : List Byte)
    (rest1 rest2 : List DBusField) (out : WepOut) (out2 : WpaPskOut)
    (h1 : ∀ a tail, rest1 = .int32 a :: tail →
      ¬ (a = iw.IW_AUTH_ALG_OPEN_SYSTEM ∨ a = iw.IW_AUTH_ALG_SHARED_KEY))
    (h2 : ∀ v m tail, rest2 = .int32 v :: .int32 m :: tail →
      ¬ ((v = iw.IW_AUTH_WPA_VERSION_WPA ∨ v = iw.IW_AUTH_WPA_VERSION_WPA2)
        ∧ (m = iw.IW_AUTH_KEY_MGMT_802_1X ∨ m = iw.IW_AUTH_KEY_MGMT_PSK))) :
    (∃ it', nmu_security_deserialize_wep iw (some (.byteArray key :: rest1)) out
        = (false, it', out))
    ∧ (∃ it', nmu_security_deserialize_wpa_psk iw (some (.byteArray key :: rest2)) out2
        = (false, it', out2)) := by
  constructor
  · rcases deserialize_wep_cases iw (some (.byteArray key :: rest1)) out with h | h
    · exact h
    · obtain ⟨_, key', a, tail, hit, _, ha, _⟩ := h
      simp only [Option.some.injEq, List.cons.injEq, DBusField.byteArray.injEq] at hit
      exact absurd ha (h1 a tail hit.2)
  · rcases deserialize_wpa_psk_cases iw (some (.byteArray key :: rest2)) out2 with h | h
    · exact h
    · obtain ⟨_, key', v, m, tail, hit, _, hv, hm, _⟩ := h
      simp only [Option.some.injEq, List.cons.injEq, DBusField.byteArray.injEq] at hit
      exact absurd ⟨hv, hm⟩ (h2 v m tail hit.2)

/-- Instance of C4: a WEP payload that ends after the key, and a WPA-PSK payload that
ends after a valid `wpa_version`. -/
theorem deserialize_rejects_bad_selector_witness :
    (∃ it', nmu_security_deserialize_wep specIwAuth (some (.byteArray [65] :: []))
        { key := some none, key_len := some 0, auth_alg := some 0 }
        = (false, it', { key := some none, key_len := some 0, auth_alg := some 0 }))
    ∧ (∃ it', nmu_security_deserialize_wpa_psk specIwAuth
        (some (.byteArray [65] :: [.int32 1]))
        { key := some none, key_len := some 0, wpa_version := some 0, key_mgt := some 0 }
        = (false, it',
            { key := some none, key_len := some 0, wpa_version := some 0,
              key_mgt := some 0 })) :=
  deserialize_rejects_bad_selector specIwAuth [65] [] [.int32 1] _ _
    (by intro a tail h; cases h) (by intro v m tail h; cases h)

/-- C5: a decoder that returns FALSE has written none of its output locations (each
holds what it held before the call, so a NULL `*key` is still NULL); a decoder that
returns TRUE was called with `*key` NULL and has written every output location. -/
theorem deserialize_all_or_nothing (iw : IwAuth) (iter : Option (List DBusField))
    (out : WepOut) (out2 : WpaPskOut) :
    ((∃ it, nmu_security_deserialize_wep iw iter out = (false, it, out))
      ∨ (out.key = some none ∧ ∃ it key len a, nmu_security_deserialize_wep iw iter out
          = (true, it, { key := some (some key), key_len := some len, auth_alg := some a })))
    ∧ ((∃ it, nmu_security_deserialize_wpa_psk iw iter out2 = (false, it, out2))
      ∨ (out2.key = some none ∧ ∃ it key len v m, nmu_security_deserialize_wpa_psk iw iter out2
          = (true, it, { key := some (some key), key_len := some len, wpa_version := some v,
                         key_mgt := some m }))) := by
  constructor
  · rcases deserialize_wep_cases iw iter out with h | h
    · exact Or.inl h
    · obtain ⟨hk, key, a, tail, _, _, _, hr⟩ := h
      exact Or.inr ⟨hk, _, _, _, _, hr⟩
  · rcases deserialize_wpa_psk_cases iw iter out2 with h | h
    · exact Or.inl h
    · obtain ⟨hk, key, v, m, tail, _, _, _, _, hr⟩ := h
      exact Or.inr ⟨hk, _, _, _, _, _, hr⟩

/-- C6 (amended): for every cipher, ssid and passphrase whose hashed key is a
non-empty C string of length below 2^31 and every in-domain selector,
`nmu_security_serialize_wep_with_cipher` returns TRUE and appends exactly the cipher
identifier as int32, the bytes of the hashed key as a byte array and `auth_alg` as
int32, in this order; `nmu_security_serialize_wpa_psk_with_cipher` returns TRUE and
appends exactly the cipher identifier, the key byte array, `wpa_version` and
`key_mgt`, in this order. -/
theorem with_cipher_wire_layout (iw : IwAuth) (body : List DBusField)
    (cipher : IEEE_802_11_Cipher) (ssid input hashed : List Byte)
    (auth_alg wpa_version key_mgt : Int)
    (hhash : cipher.hash ssid input = some hashed)
    (hpos : 0 < strlen hashed) (hlt : strlen hashed < 2 ^ 31)
    (ha : auth_alg = iw.IW_AUTH_ALG_OPEN_SYSTEM ∨ auth_alg = iw.IW_AUTH_ALG_SHARED_KEY)
    (hv : wpa_version = iw.IW_AUTH_WPA_VERSION_WPA ∨ wpa_version = iw.IW_AUTH_WPA_VERSION_WPA2)
    (hm : key_mgt = iw.IW_AUTH_KEY_MGMT_802_1X ∨ key_mgt = iw.IW_AUTH_KEY_MGMT_PSK) :
    nmu_security_serialize_wep_with_cipher iw (some body) (some cipher) ssid input auth_alg
        = (true, some (body ++ [.int32 cipher.we_cipher,
            .byteArray (hashed.takeWhile (fun b => decide (b ≠ 0))), .int32 auth_alg]))
    ∧ nmu_security_serialize_wpa_psk_with_cipher iw (some body) (some cipher) ssid input
          wpa_version key_mgt
        = (true, some (body ++ [.int32 cipher.we_cipher,
            .byteArray (hashed.takeWhile (fun b => decide (b ≠ 0))), .int32 wpa_version,
            .int32 key_mgt])) := by
  constructor
  · simp only [nmu_security_serialize_wep_with_cipher, ha, if_true, we_cipher_append_helper,
      dbus_message_iter_append_basic, hhash,
      serialize_wep_ok iw _ hashed auth_alg hpos hlt ha, List.append_assoc,
      List.singleton_append]
  · simp only [nmu_security_serialize_wpa_psk_with_cipher, hv, hm, if_true,
      we_cipher_append_helper, dbus_message_iter_append_basic, hhash,
      serialize_wpa_psk_ok iw _ hashed wpa_version key_mgt hpos hlt hv hm, List.append_assoc,
      List.singleton_append]

/-- Instance of C6 (amended): a cipher with identifier 5 whose hashed key is the C
string 0x70 0x77. -/
theorem with_cipher_wire_layout_witness :
    nmu_security_serialize_wep_with_cipher specIwAuth (some [])
        (some { we_cipher := 5, hash := fun _ pass => some (pass ++ [0, 7]) }) [110, 101, 116]
        [112, 119] 2
        = (true, some ([] ++ [.int32 5,
            .byteArray (([112, 119, 0, 7] : List Byte).takeWhile (fun b => decide (b ≠ 0))),
            .int32 2]))
    ∧ nmu_security_serialize_wpa_psk_with_cipher specIwAuth (some [])
        (some { we_cipher := 5, hash := fun _ pass => some (pass ++ [0, 7]) }) [110, 101, 116]
        [112, 119] 1 2
        = (true, some ([] ++ [.int32 5,
            .byteArray (([112, 119, 0, 7] : List Byte).takeWhile (fun b => decide (b ≠ 0))),
            .int32 1, .int32 2])) :=
  with_cipher_wire_layout specIwAuth []
    { we_cipher := 5, hash := fun _ pass => some (pass ++ [0, 7]) } [110, 101, 116] [112, 119]
    [112, 119, 0, 7] 2 1 2 rfl (by decide) (by decide) (Or.inr rfl) (Or.inl rfl) (Or.inr rfl)

/-- C6 as stated fails: a cipher whose hashed key is a C string of 2^31 non-zero bytes
has a non-empty hashed key, yet `nmu_security_serialize_wep_with_cipher` returns FALSE
after appending the cipher identifier alone. -/
theorem with_cipher_rejects_int_overflow_length :
    0 < strlen (List.replicate (2 ^ 31) (65 : Byte))
    ∧ nmu_security_serialize_wep_with_cipher specIwAuth (some [])
        (some { we_cipher := 5, hash := fun _ _ => some (List.replicate (2 ^ 31) (65 : Byte)) })
        [] [] 1
      = (false, some [.int32 5]) := by
  have hz : ∀ b ∈ List.replicate (2 ^ 31) (65 : Byte), b ≠ 0 := by
    intro b hb
    rw [List.eq_of_mem_replicate hb]
    decide
  have hs : strlen (List.replicate (2 ^ 31) (65 : Byte)) = 2 ^ 31 := by
    rw [strlen_eq_length _ hz, List.length_replicate]
  constructor
  · rw [hs]
    exact Nat.two_pow_pos 31
  · have h1 : ((1 : Int) = specIwAuth.IW_AUTH_ALG_OPEN_SYSTEM
        ∨ (1 : Int) = specIwAuth.IW_AUTH_ALG_SHARED_KEY) := Or.inl rfl
    simp only [nmu_security_serialize_wep_with_cipher, h1, if_true, we_cipher_append_helper,
      dbus_message_iter_append_basic, List.nil_append]
    apply serialize_wep_fail
    rw [hs, toInt32_two_pow_31]
    norm_num

/-! ## Properties of the dispatcher -/

lemma registry_ensure_requests (w : World) : (_ensure_requests w).registry = w.registry := by
  unfold _ensure_requests World.registry
  cases h : w.requests <;> simp [h]

lemma ensure_requests_eq (w : World) :
    _ensure_requests w = { w with requests := some w.registry } := by
  unfold _ensure_requests World.registry
  cases h : w.requests with
  | none => simp
  | some t =>
    cases w
    simp_all

/-- C7: a call of `_dispatcher_call` that respects the function's own assertion
(blocking mode carries no callback and no user data, as in all four callers) and has
a null device for a non-hostname action, or no VPN IPv4 configuration for vpn-up,
returns FALSE whatever the mode and the script-enabled flag; it leaves `*out_call_id`
as it was, submits nothing to the transport, allocates no request identifier and
leaves the registry, the records, the idle sources and the calls in flight unchanged. -/
theorem dispatcher_call_precondition_failure (env : DBusEnv) (w : World)
    (action : DispatcherAction) (blocking : Bool) (connection : Option Nat)
    (device : Option NMDevice) (vpn_iface : Option String)
    (vpn_ip4_config vpn_ip6_config : Option Nat) (callback : Option Nat) (user_data : Nat)
    (out_call_id : Option Nat)
    (hassert : ¬ (blocking = true ∧ (callback ≠ none ∨ user_data ≠ 0)))
    (hpre : (action ≠ DISPATCHER_ACTION_HOSTNAME ∧ device = none)
      ∨ (action = DISPATCHER_ACTION_VPN_UP ∧ vpn_ip4_config = none)) :
    ∃ w', _dispatcher_call env w action blocking connection device vpn_iface vpn_ip4_config
          vpn_ip6_config callback user_data out_call_id = some (false, out_call_id, w')
      ∧ (∃ es, w'.trace = w.trace ++ es ∧ ∀ e ∈ es, e.is_transport = false)
      ∧ w'.request_counter = w.request_counter
      ∧ w'.registry = w.registry
      ∧ w'.heap = w.heap
      ∧ w'.idle_sources = w.idle_sources
      ∧ w'.pending_calls = w.pending_calls
      ∧ w'.do_dispatch = w.do_dispatch := by
  by_cases hdev : action ≠ DISPATCHER_ACTION_HOSTNAME ∧ device = none
  · refine ⟨(_ensure_requests w).emit (.critical "NM_IS_DEVICE (device)"), ?_, ?_⟩
    · simp only [_dispatcher_call, if_neg hassert, if_pos hdev]
    · refine ⟨⟨[.critical "NM_IS_DEVICE (device)"], ?_, ?_⟩, ?_, ?_, ?_, ?_, ?_, ?_⟩
      · cases h : w.requests <;> simp [World.emit, _ensure_requests, h]
      · simp [Event.is_transport]
      all_goals cases h : w.requests <;> simp [World.emit, _ensure_requests, h, World.registry]
  · have hvpn : action = DISPATCHER_ACTION_VPN_UP ∧ vpn_ip4_config = none := by
      rcases hpre with h | h
      · exact absurd h hdev
      · exact h
    refine ⟨((_ensure_requests w).emit (.log_dbg_dispatching
        (if action = DISPATCHER_ACTION_HOSTNAME then none else device.map (fun d => d.iface))
        (action_to_string action))).emit (.critical "vpn_ip4_config != NULL"), ?_, ?_⟩
    · simp only [_dispatcher_call, if_neg hassert, if_neg hdev, if_pos hvpn]
    · refine ⟨⟨[.log_dbg_dispatching
          (if action = DISPATCHER_ACTION_HOSTNAME then none else device.map (fun d => d.iface))
          (action_to_string action), .critical "vpn_ip4_config != NULL"], ?_, ?_⟩,
          ?_, ?_, ?_, ?_, ?_, ?_⟩
      · cases h : w.requests <;> simp [World.emit, _ensure_requests, h]
      · simp [Event.is_transport]
      all_goals cases h : w.requests <;> simp [World.emit, _ensure_requests, h, World.registry]

/-- Instance of C7: vpn-up without a VPN IPv4 configuration, in the initial state. -/
theorem dispatcher_call_precondition_failure_witness :
    ∃ w', _dispatcher_call { proxy := some 1, reply := .results [] } {}
          DISPATCHER_ACTION_VPN_UP false (some 1) (some { iface := "eth0" }) (some "tun0") none
          none (some 7) 9 (some 55) = some (false, some 55, w')
      ∧ (∃ es, w'.trace = ({} : World).trace ++ es ∧ ∀ e ∈ es, e.is_transport = false)
      ∧ w'.request_counter = ({} : World).request_counter
      ∧ w'.registry = ({} : World).registry
      ∧ w'.heap = ({} : World).heap
      ∧ w'.idle_sources = ({} : World).idle_sources
      ∧ w'.pending_calls = ({} : World).pending_calls
      ∧ w'.do_dispatch = ({} : World).do_dispatch :=
  dispatcher_call_precondition_failure { proxy := some 1, reply := .results [] } {}
    DISPATCHER_ACTION_VPN_UP false (some 1) (some { iface := "eth0" }) (some "tun0") none none
    (some 7) 9 (some 55) (by decide) (Or.inr ⟨rfl, rfl⟩)

/-! ### Association lists -/

lemma lookup_filter_self {β : Type} (k : Nat) (l : List (Nat × β)) :
    (l.filter (fun e => decide (e.1 ≠ k))).lookup k = none := by
  induction l with
  | nil => rfl
  | cons a t ih =>
    obtain ⟨a1, a2⟩ := a
    rw [List.filter_cons]
    by_cases h : a1 = k
    · have hd : decide ((a1, a2).1 ≠ k) = false := by simp [h]
      rw [hd]
      exact ih
    · have hd : decide ((a1, a2).1 ≠ k) = true := by simp [h]
      have hk : (k == a1) = false := beq_false_of_ne (fun h' => h h'.symm)
      rw [hd, if_pos rfl, List.lookup_cons, hk]
      exact ih

lemma lookup_filter_of_ne {β : Type} (k k' : Nat) (l : List (Nat × β)) (hne : k' ≠ k) :
    (l.filter (fun e => decide (e.1 ≠ k))).lookup k' = l.lookup k' := by
  induction l with
  | nil => rfl
  | cons a t ih =>
    obtain ⟨a1, a2⟩ := a
    rw [List.filter_cons]
    by_cases h : a1 = k
    · have hd : decide ((a1, a2).1 ≠ k) = false := by simp [h]
      have hk : (k' == a1) = false := beq_false_of_ne (by rw [h]; exact hne)
      rw [hd, List.lookup_cons, hk]
      exact ih
    · have hd : decide ((a1, a2).1 ≠ k) = true := by simp [h]
      rw [hd, if_pos rfl, List.lookup_cons, List.lookup_cons, ih]

lemma mem_of_lookup {β : Type} (k : Nat) (v : β) (l : List (Nat × β))
    (h : l.lookup k = some v) : (k, v) ∈ l := by
  induction l with
  | nil => simp [List.lookup] at h
  | cons a t ih =>
    obtain ⟨a1, a2⟩ := a
    by_cases hk : k = a1
    · subst hk
      simp [List.lookup] at h
      simp [h]
    · have hb : (k == a1) = false := by simpa using hk
      simp only [List.lookup, hb] at h
      exact List.mem_cons_of_mem _ (ih h)

lemma lookup_cons_self {β : Type} (k : Nat) (v : β) (l : List (Nat × β)) :
    ((k, v) :: l).lookup k = some v := by
  simp [List.lookup]

lemma lookup_cons_of_ne {β : Type} (k k' : Nat) (v : β) (l : List (Nat × β)) (h : k' ≠ k) :
    ((k, v) :: l).lookup k' = l.lookup k' := by
  have hb : (k' == k) = false := by simpa using h
  simp [List.lookup, hb]

/-! ### Completion of a request -/

/-- The idle turn of a registered record: `dispatcher_idle_cb` invokes the record's
callback, if any, once, removes the record from the registry and frees it, and the
idle source is gone afterwards. -/
lemma idle_dispatch_spec_aux (v : World) (s p : Nat) (i : DispatchInfo)
    (t : List (Nat × Nat))
    (hs : v.idle_sources.lookup s = some p)
    (hp : v.heap.lookup p = some i)
    (hr : v.requests = some t)
    (ht : t.lookup i.request_id = some p) :
    ∃ v', idle_dispatch v s = some v'
      ∧ v'.trace = v.trace ++ callback_events i
      ∧ v'.registry.lookup i.request_id = none
      ∧ v'.idle_sources.lookup s = none
      ∧ v'.heap.lookup p = none
      ∧ v'.pending_calls = v.pending_calls := by
  cases hc : i.callback with
  | none =>
    simp [idle_dispatch, hs, dispatcher_idle_cb, hp, hc, dispatcher_info_cleanup, World.store,
      g_hash_table_remove, hr, ht, dispatcher_info_free, g_free, g_source_remove,
      World.registry, callback_events, lookup_filter_self, remove_key, World.emit]
    refine ⟨?_, ?_, ?_⟩ <;> intro a b _ h1 h2 <;> exact h1 h2.symm
  | some f =>
    simp [idle_dispatch, hs, dispatcher_idle_cb, hp, hc, dispatcher_info_cleanup, World.store,
      g_hash_table_remove, hr, ht, dispatcher_info_free, g_free, g_source_remove,
      World.registry, callback_events, lookup_filter_self, remove_key, World.emit]
    refine ⟨?_, ?_, ?_⟩ <;> intro a b _ h1 h2 <;> exact h1 h2.symm

/-- Registration of a freshly allocated record `p` under `id`: the insertion returns,
the registry maps `id` to `p` afterwards, the record is untouched, and an idle source
that no other record holds is untouched; a record replaced under the same `id` is
freed. -/
lemma g_hash_table_insert_spec (v : World) (t : List (Nat × Nat)) (id p : Nat)
    (i : DispatchInfo)
    (hr : v.requests = some t)
    (hp : v.heap.lookup p = some i)
    (hlive : ∀ e ∈ t, e.2 ≠ p ∧ v.heap.lookup e.2 ≠ none) :
    ∃ v', g_hash_table_insert v id p = some v'
      ∧ v'.trace = v.trace
      ∧ v'.registry.lookup id = some p
      ∧ v'.heap.lookup p = some i
      ∧ (∀ s, (∀ e ∈ v.heap, e.1 ≠ p → e.2.idle_id ≠ s) →
          v'.idle_sources.lookup s = v.idle_sources.lookup s)
      ∧ v'.pending_calls = v.pending_calls
      ∧ v'.request_counter = v.request_counter
      ∧ v'.do_dispatch = v.do_dispatch := by
  cases hl : t.lookup id with
  | none =>
    refine ⟨{ v with requests := some ((id, p) :: t) }, ?_, rfl, ?_, hp, ?_, rfl, rfl, rfl⟩
    · simp only [g_hash_table_insert, hr, hl]
    · simp only [World.registry, Option.getD_some, lookup_cons_self]
    · intro s _
      rfl
  | some old =>
    have hmem : (id, old) ∈ t := mem_of_lookup id old t hl
    obtain ⟨hne, hlv⟩ := hlive (id, old) hmem
    obtain ⟨j, hj⟩ := Option.ne_none_iff_exists'.mp hlv
    have hjm : (old, j) ∈ v.heap := mem_of_lookup old j v.heap hj
    by_cases hz : j.idle_id ≠ 0
    · refine ⟨{ g_free (g_source_remove v j.idle_id) old with
          requests := some ((id, p) :: remove_key id t) }, ?_, rfl, ?_, ?_, ?_, rfl, rfl, rfl⟩
      · simp only [g_hash_table_insert, hr, hl, dispatcher_info_free, hj, if_pos hz]
      · simp only [World.registry, Option.getD_some, lookup_cons_self]
      · simp only [g_free, g_source_remove]
        rw [lookup_filter_of_ne old p v.heap (fun h => hne h.symm)]
        exact hp
      · intro s hs
        have hsj : s ≠ j.idle_id := fun h => hs (old, j) hjm hne h.symm
        simp only [g_free, g_source_remove, remove_key]
        exact lookup_filter_of_ne j.idle_id s v.idle_sources hsj
    · refine ⟨{ g_free v old with requests := some ((id, p) :: remove_key id t) },
        ?_, rfl, ?_, ?_, ?_, rfl, rfl, rfl⟩
      · simp only [g_hash_table_insert, hr, hl, dispatcher_info_free, hj, if_neg hz]
      · simp only [World.registry, Option.getD_some, lookup_cons_self]
      · simp only [g_free]
        rw [lookup_filter_of_ne old p v.heap (fun h => hne h.symm)]
        exact hp
      · intro s _
        rfl

lemma requests_of_registry_lookup (v : World) (id p : Nat)
    (h : v.registry.lookup id = some p) :
    ∃ t, v.requests = some t ∧ t.lookup id = some p := by
  unfold World.registry at h
  cases hr : v.requests with
  | none => rw [hr] at h; simp [List.lookup] at h
  | some t => rw [hr] at h; exact ⟨t, rfl, h⟩

/-- The idle turn of a registered record: `dispatcher_idle_cb` invokes the record's
callback, if any, once, removes the record from the registry and frees it, and the
idle source is gone afterwards. -/
lemma idle_dispatch_spec (v : World) (s p : Nat) (i : DispatchInfo)
    (hs : v.idle_sources.lookup s = some p)
    (hp : v.heap.lookup p = some i)
    (ht : v.registry.lookup i.request_id = some p) :
    ∃ v', idle_dispatch v s = some v'
      ∧ v'.trace = v.trace ++ callback_events i
      ∧ v'.registry.lookup i.request_id = none
      ∧ v'.idle_sources.lookup s = none
      ∧ v'.heap.lookup p = none
      ∧ v'.pending_calls = v.pending_calls := by
  obtain ⟨t, hr, ht'⟩ := requests_of_registry_lookup v _ p ht
  exact idle_dispatch_spec_aux v s p i t hs hp hr ht'

/-- An idle source that is not registered does not run. -/
lemma idle_dispatch_of_absent (v : World) (s : Nat) (hs : v.idle_sources.lookup s = none) :
    idle_dispatch v s = some v := by
  simp only [idle_dispatch, hs]

lemma wf_live (w : World) (hwf : w.wf) (e : Nat × Nat) (he : e ∈ w.registry) :
    e.2 < w.next_ptr ∧ w.heap.lookup e.2 ≠ none := by
  have hlv := hwf.1 e he
  cases hj : w.heap.lookup e.2 with
  | none => rw [hj] at hlv; cases hlv
  | some j => exact ⟨(hwf.2.1 (e.2, j) (mem_of_lookup e.2 j w.heap hj)).1, Option.some_ne_none j⟩

/-- The disabled path of `_dispatcher_call` with a tracked request: the call returns
TRUE, logs twice, and leaves a record with the next identifier, registered and bound
to a new idle source. -/
lemma dispatcher_call_disabled_tracked (env : DBusEnv) (w : World)
    (action : DispatcherAction) (connection : Option Nat)
    (device : Option NMDevice) (vpn_iface : Option String)
    (vpn_ip4_config vpn_ip6_config : Option Nat) (callback : Option Nat) (user_data : Nat)
    (out_call_id : Option Nat)
    (hwf : w.wf) (hoff : w.do_dispatch = false)
    (hdev : ¬ (action ≠ DISPATCHER_ACTION_HOSTNAME ∧ device = none))
    (hvpn : ¬ (action = DISPATCHER_ACTION_VPN_UP ∧ vpn_ip4_config = none))
    (htrack : out_call_id ≠ none ∨ callback ≠ none) :
    ∃ w', _dispatcher_call env w action false connection device vpn_iface vpn_ip4_config
          vpn_ip6_config callback user_data out_call_id
        = some (true, out_call_id.map (fun _ => w.request_counter), w')
      ∧ w'.trace = w.trace ++ [.log_dbg_dispatching
          (if action = DISPATCHER_ACTION_HOSTNAME then none else device.map (fun d => d.iface))
          (action_to_string action), .log_dbg_ignoring]
      ∧ w'.registry.lookup w.request_counter = some w.next_ptr
      ∧ w'.heap.lookup w.next_ptr = some
          { request_id := w.request_counter, callback := callback, user_data := user_data,
            idle_id := w.next_source }
      ∧ w'.idle_sources.lookup w.next_source = some w.next_ptr
      ∧ w'.pending_calls = w.pending_calls
      ∧ w'.request_counter = (w.request_counter + 1) % 2 ^ 32
      ∧ w'.do_dispatch = w.do_dispatch := by
  have hassert : ¬ ((false : Bool) = true ∧ (callback ≠ none ∨ user_data ≠ 0)) := by simp
  have hoff' : ((_ensure_requests w).emit (.log_dbg_dispatching
      (if action = DISPATCHER_ACTION_HOSTNAME then none else device.map (fun d => d.iface))
      (action_to_string action))).do_dispatch = false := by
    cases h : w.requests <;> simp [World.emit, _ensure_requests, h, hoff]
  have htrack' : (false : Bool) = false ∧ (out_call_id ≠ none ∨ callback ≠ none) :=
    ⟨rfl, htrack⟩
  simp only [_dispatcher_call, if_neg hassert, if_neg hdev, if_neg hvpn, if_pos hoff',
    if_pos htrack']
  simp only [ensure_requests_eq, dispatch_info_new, g_malloc0, g_idle_add, World.store,
    World.emit, dispatcher_call_done, if_true, lookup_cons_self]
  rw [if_pos ⟨trivial, htrack⟩]
  have key : ∀ (v : World) (i : DispatchInfo) (es : List Event) (out : Option Nat),
      v.requests = some w.registry → v.heap.lookup w.next_ptr = some i →
      (∀ e ∈ w.registry, e.2 ≠ w.next_ptr ∧ v.heap.lookup e.2 ≠ none) →
      (∀ e ∈ v.heap, e.1 ≠ w.next_ptr → e.2.idle_id ≠ w.next_source) →
      v.idle_sources.lookup w.next_source = some w.next_ptr →
      v.trace = es → v.pending_calls = w.pending_calls →
      v.request_counter = (w.request_counter + 1) % 2 ^ 32 →
      v.do_dispatch = w.do_dispatch →
      ∃ w', (match g_hash_table_insert v w.request_counter w.next_ptr with
            | none => none
            | some w1 => some (true, out, w1)) = some (true, out, w')
        ∧ w'.trace = es
        ∧ w'.registry.lookup w.request_counter = some w.next_ptr
        ∧ w'.heap.lookup w.next_ptr = some i
        ∧ w'.idle_sources.lookup w.next_source = some w.next_ptr
        ∧ w'.pending_calls = w.pending_calls
        ∧ w'.request_counter = (w.request_counter + 1) % 2 ^ 32
        ∧ w'.do_dispatch = w.do_dispatch := by
    intro v i es out hr hp hlive hidle hsrc htr hpend hcnt hdd
    obtain ⟨v', hins, htr', hreg, hheap, hidle', hpend', hcnt', hdd'⟩ :=
      g_hash_table_insert_spec v w.registry w.request_counter w.next_ptr i hr hp hlive
    refine ⟨v', ?_, ?_, hreg, hheap, ?_, ?_, ?_, ?_⟩
    · rw [hins]
    · rw [htr', htr]
    · rw [hidle' w.next_source hidle, hsrc]
    · rw [hpend', hpend]
    · rw [hcnt', hcnt]
    · rw [hdd', hdd]
  refine key _ _ _ _ rfl (lookup_cons_self _ _ _) ?_ ?_ (lookup_cons_self _ _ _) ?_ rfl rfl
    rfl
  · intro e he
    obtain ⟨hlt, hlv⟩ := wf_live w hwf e he
    have hne : e.2 ≠ w.next_ptr := Nat.ne_of_lt hlt
    refine ⟨hne, ?_⟩
    rw [lookup_cons_of_ne _ _ _ _ hne, lookup_filter_of_ne _ _ _ hne,
      lookup_cons_of_ne _ _ _ _ hne]
    exact hlv
  · intro e he hne
    rcases List.mem_cons.mp he with h | h
    · exact absurd (by rw [h]) hne
    · have h2 := (List.mem_filter.mp h).1
      rcases List.mem_cons.mp h2 with h3 | h3
      · exact absurd (by rw [h3]) hne
      · exact Nat.ne_of_lt (hwf.2.1 e h3).2
  · simp only [List.append_assoc, List.singleton_append]

/-- C8: in a well-formed state with `do_dispatch` false, every call of
`_dispatcher_call` that meets the preconditions (a device unless the action is
hostname, a VPN IPv4 configuration for vpn-up, no callback or user data in blocking
mode) returns TRUE; during the call nothing is submitted to the transport, no property
bag is built and no callback is invoked.  In asynchronous mode with a callback the
request is registered under the next identifier, the idle turn `dispatcher_idle_cb`
invokes the callback exactly once with that identifier and the user data, the request
is then no longer in the registry, and the idle source is gone, so it does not run
again. -/
theorem dispatcher_call_disabled (env : DBusEnv) (w : World)
    (action : DispatcherAction) (blocking : Bool) (connection : Option Nat)
    (device : Option NMDevice) (vpn_iface : Option String)
    (vpn_ip4_config vpn_ip6_config : Option Nat) (callback : Option Nat) (user_data : Nat)
    (out_call_id : Option Nat)
    (hwf : w.wf) (hoff : w.do_dispatch = false)
    (hassert : ¬ (blocking = true ∧ (callback ≠ none ∨ user_data ≠ 0)))
    (hdev : ¬ (action ≠ DISPATCHER_ACTION_HOSTNAME ∧ device = none))
    (hvpn : ¬ (action = DISPATCHER_ACTION_VPN_UP ∧ vpn_ip4_config = none)) :
    ∃ out' w', _dispatcher_call env w action blocking connection device vpn_iface
          vpn_ip4_config vpn_ip6_config callback user_data out_call_id
        = some (true, out', w')
      ∧ (∃ es, w'.trace = w.trace ++ es ∧ ∀ e ∈ es,
          e.is_transport = false ∧ e.is_property_bag = false ∧ e.is_callback = false)
      ∧ ∀ cb, blocking = false → callback = some cb →
          w'.registry.lookup w.request_counter ≠ none
          ∧ ∃ w'', idle_dispatch w' w.next_source = some w''
            ∧ w''.trace = w'.trace ++ [.callback cb w.request_counter user_data]
            ∧ w''.registry.lookup w.request_counter = none
            ∧ w''.idle_sources.lookup w.next_source = none
            ∧ idle_dispatch w'' w.next_source = some w'' := by
  by_cases htrack : blocking = false ∧ (out_call_id ≠ none ∨ callback ≠ none)
  · obtain ⟨hb, htr⟩ := htrack
    subst hb
    obtain ⟨w', hcall, htrace, hreg, hheap, hidle, _⟩ :=
      dispatcher_call_disabled_tracked env w action connection device vpn_iface
        vpn_ip4_config vpn_ip6_config callback user_data out_call_id hwf hoff hdev hvpn htr
    refine ⟨_, w', hcall, ⟨_, htrace, ?_⟩, ?_⟩
    · intro e he
      simp only [List.mem_cons, List.mem_singleton, List.not_mem_nil, or_false] at he
      rcases he with h | h <;> subst h <;> exact ⟨rfl, rfl, rfl⟩
    · intro cb _ hcb
      subst hcb
      refine ⟨by rw [hreg]; exact Option.some_ne_none _, ?_⟩
      obtain ⟨w'', hrun, htr2, hreg2, hsrc2, _, _⟩ :=
        idle_dispatch_spec w' w.next_source w.next_ptr _ hidle hheap hreg
      exact ⟨w'', hrun, htr2, hreg2, hsrc2, idle_dispatch_of_absent w'' _ hsrc2⟩
  · have hoff' : ((_ensure_requests w).emit (.log_dbg_dispatching
        (if action = DISPATCHER_ACTION_HOSTNAME then none else device.map (fun d => d.iface))
        (action_to_string action))).do_dispatch = false := by
      cases h : w.requests <;> simp [World.emit, _ensure_requests, h, hoff]
    refine ⟨out_call_id.map (fun _ => 0), ((_ensure_requests w).emit (.log_dbg_dispatching
        (if action = DISPATCHER_ACTION_HOSTNAME then none else device.map (fun d => d.iface))
        (action_to_string action))).emit .log_dbg_ignoring, ?_, ⟨[.log_dbg_dispatching
        (if action = DISPATCHER_ACTION_HOSTNAME then none else device.map (fun d => d.iface))
        (action_to_string action), .log_dbg_ignoring], ?_, ?_⟩, ?_⟩
    · simp only [_dispatcher_call, if_neg hassert, if_neg hdev, if_neg hvpn, if_pos hoff',
        if_neg htrack, dispatcher_call_done]
    · simp only [ensure_requests_eq, World.emit, List.append_assoc, List.singleton_append]
    · intro e he
      simp only [List.mem_cons, List.mem_singleton, List.not_mem_nil, or_false] at he
      rcases he with h | h <;> subst h <;> exact ⟨rfl, rfl, rfl⟩
    · intro cb hb hcb
      exact absurd ⟨hb, Or.inr (by rw [hcb]; exact Option.some_ne_none _)⟩ htrack

/-- Instance of C8: an asynchronous up request with a callback while `do_dispatch` is
false. -/
theorem dispatcher_call_disabled_witness :
    ∃ out' w', _dispatcher_call { proxy := some 1, reply := .results [] }
          { do_dispatch := false } DISPATCHER_ACTION_UP false (some 1)
          (some { iface := "eth0" }) none none none (some 7) 9 (some 55)
        = some (true, out', w')
      ∧ (∃ es, w'.trace = ({ do_dispatch := false } : World).trace ++ es ∧ ∀ e ∈ es,
          e.is_transport = false ∧ e.is_property_bag = false ∧ e.is_callback = false)
      ∧ ∀ cb, false = false → some 7 = some cb →
          w'.registry.lookup ({ do_dispatch := false } : World).request_counter ≠ none
          ∧ ∃ w'', idle_dispatch w' ({ do_dispatch := false } : World).next_source = some w''
            ∧ w''.trace = w'.trace
                ++ [.callback cb ({ do_dispatch := false } : World).request_counter 9]
            ∧ w''.registry.lookup ({ do_dispatch := false } : World).request_counter = none
            ∧ w''.idle_sources.lookup ({ do_dispatch := false } : World).next_source = none
            ∧ idle_dispatch w'' ({ do_dispatch := false } : World).next_source = some w'' :=
  dispatcher_call_disabled { proxy := some 1, reply := .results [] } { do_dispatch := false }
    DISPATCHER_ACTION_UP false (some 1) (some { iface := "eth0" }) none none none (some 7) 9
    (some 55) (by decide) rfl (by decide) (by decide) (by decide)

/-- Cancelling a registered request clears the callback of its record and changes
nothing else: the registry, the idle sources, the calls in flight and the trace are as
before. -/
lemma nm_dispatcher_call_cancel_spec (v : World) (id p : Nat) (i : DispatchInfo)
    (hreg : v.registry.lookup id = some p) (hp : v.heap.lookup p = some i) :
    ∃ v', nm_dispatcher_call_cancel v id = some v'
      ∧ v'.registry = v.registry
      ∧ v'.heap.lookup p = some { i with callback := none }
      ∧ (∀ q, q ≠ p → v'.heap.lookup q = v.heap.lookup q)
      ∧ v'.idle_sources = v.idle_sources
      ∧ v'.pending_calls = v.pending_calls
      ∧ v'.trace = v.trace
      ∧ v'.request_counter = v.request_counter := by
  refine ⟨(_ensure_requests v).store p { i with callback := none }, ?_, ?_, ?_, ?_, ?_, ?_, ?_,
    ?_⟩
  · simp only [nm_dispatcher_call_cancel, registry_ensure_requests, hreg]
    have hp' : (_ensure_requests v).heap.lookup p = some i := by
      rw [ensure_requests_eq]
      exact hp
    simp only [hp']
  · simp only [ensure_requests_eq, World.store, World.registry, Option.getD_some]
  · simp only [ensure_requests_eq, World.store, lookup_cons_self]
  · intro q hq
    simp only [ensure_requests_eq, World.store]
    rw [lookup_cons_of_ne _ _ _ _ hq, lookup_filter_of_ne _ _ _ hq]
  all_goals simp only [ensure_requests_eq, World.store]

/-- Cancelling an identifier that is not registered reports the violation and
changes nothing else. -/
lemma nm_dispatcher_call_cancel_unknown (v : World) (id : Nat)
    (hreg : v.registry.lookup id = none) :
    nm_dispatcher_call_cancel v id
      = some ((_ensure_requests v).emit (.critical "g_return_if_reached")) := by
  simp only [nm_dispatcher_call_cancel, registry_ensure_requests, hreg]

/-- Source `dispatcher_info_cleanup` on an allocated, registered record: the record is
removed from the registry and freed; the trace and the calls in flight are as before. -/
lemma dispatcher_info_cleanup_spec (v : World) (p : Nat) (i : DispatchInfo)
    (hp : v.heap.lookup p = some i)
    (hreg : v.registry.lookup i.request_id = some p) :
    ∃ v', dispatcher_info_cleanup v p = some v'
      ∧ v'.trace = v.trace
      ∧ v'.registry.lookup i.request_id = none
      ∧ v'.heap.lookup p = none
      ∧ v'.pending_calls = v.pending_calls := by
  obtain ⟨t, hr, ht⟩ := requests_of_registry_lookup v _ p hreg
  by_cases hz : i.idle_id ≠ 0
  · refine ⟨{ g_free (g_source_remove v i.idle_id) p with
        requests := some (remove_key i.request_id t) }, ?_, rfl, ?_, ?_, rfl⟩
    · simp only [dispatcher_info_cleanup, hp, g_hash_table_remove, hr, ht,
        dispatcher_info_free, if_pos hz]
    · simp only [World.registry, Option.getD_some, remove_key, lookup_filter_self]
    · simp only [g_free, g_source_remove, lookup_filter_self]
  · refine ⟨{ g_free v p with requests := some (remove_key i.request_id t) },
      ?_, rfl, ?_, ?_, rfl⟩
    · simp only [dispatcher_info_cleanup, hp, g_hash_table_remove, hr, ht,
        dispatcher_info_free, if_neg hz]
    · simp only [World.registry, Option.getD_some, remove_key, lookup_filter_self]
    · simp only [g_free, lookup_filter_self]

/-- Source `dispatcher_done_cb` on an allocated record and a reply whose processing
returns: the reply is logged and the record's callback, if any, is invoked once;
nothing else changes. -/
lemma dispatcher_done_cb_spec (v : World) (p : Nat) (i : DispatchInfo) (reply : CallReply)
    (es : List Event)
    (hp : v.heap.lookup p = some i)
    (hreply : reply_events reply = some es) :
    dispatcher_done_cb v p reply
      = some { v with trace := v.trace ++ es ++ callback_events i } := by
  cases reply with
  | results items =>
    have hproc : dispatcher_results_process items = some es := hreply
    cases hc : i.callback with
    | none =>
      simp [dispatcher_done_cb, hproc, World.emit_all, hp, hc, callback_events]
    | some f =>
      simp [dispatcher_done_cb, hproc, World.emit_all, World.emit, hp, hc, callback_events]
  | error code message =>
    have hes : es = [.log_warn_dispatcher_failed code message] := by
      simp only [reply_events, Option.some.injEq] at hreply
      exact hreply.symm
    subst hes
    cases hc : i.callback with
    | none =>
      simp [dispatcher_done_cb, World.emit, hp, hc, callback_events]
    | some f =>
      simp [dispatcher_done_cb, World.emit, hp, hc, callback_events]

/-- Completion of an asynchronous call whose record is allocated and registered, on a
reply whose processing returns: `dispatcher_done_cb` logs the reply and invokes the
record's callback, if any, once, while the record is still registered; the destroy
notification then removes the record from the registry and frees it, and the call is
no longer in flight. -/
lemma proxy_call_complete_spec (v : World) (p : Nat) (i : DispatchInfo) (reply : CallReply)
    (es : List Event)
    (hpend : p ∈ v.pending_calls)
    (hp : v.heap.lookup p = some i)
    (hreg : v.registry.lookup i.request_id = some p)
    (hreply : reply_events reply = some es) :
    (∃ v1, dispatcher_done_cb v p reply = some v1
      ∧ v1.trace = v.trace ++ es ++ callback_events i
      ∧ v1.registry.lookup i.request_id = some p)
    ∧ ∃ v', proxy_call_complete v p reply = some v'
      ∧ v'.trace = v.trace ++ es ++ callback_events i
      ∧ v'.registry.lookup i.request_id = none
      ∧ v'.heap.lookup p = none
      ∧ p ∉ v'.pending_calls := by
  have hdone := dispatcher_done_cb_spec v p i reply es hp hreply
  refine ⟨⟨_, hdone, rfl, hreg⟩, ?_⟩
  obtain ⟨v2, hclean, htr, hreg2, hheap2, _⟩ :=
    dispatcher_info_cleanup_spec { v with trace := v.trace ++ es ++ callback_events i } p i
      hp hreg
  refine ⟨{ v2 with pending_calls := v2.pending_calls.filter (fun q => decide (q ≠ p)) },
    ?_, htr, hreg2, hheap2, ?_⟩
  · simp only [proxy_call_complete, if_pos hpend, hdone, hclean]
  · simp [List.mem_filter]

lemma property_bag_events_all (action : DispatcherAction) (connection : Option Nat)
    (vpn_ip4_config vpn_ip6_config : Option Nat) :
    (property_bag_events action connection vpn_ip4_config vpn_ip6_config).all
      (fun e => e.is_property_bag && !e.is_callback && !e.is_transport) = true := by
  cases action <;> cases connection <;> cases vpn_ip4_config <;> cases vpn_ip6_config <;> rfl

lemma property_bag_events_not_callback (action : DispatcherAction) (connection : Option Nat)
    (vpn_ip4_config vpn_ip6_config : Option Nat) :
    ∀ e ∈ property_bag_events action connection vpn_ip4_config vpn_ip6_config,
      e.is_callback = false := by
  intro e he
  have h := List.all_eq_true.mp
    (property_bag_events_all action connection vpn_ip4_config vpn_ip6_config) e he
  simp only [Bool.and_eq_true, Bool.not_eq_true'] at h
  exact h.1.2

/-- The enabled asynchronous path of `_dispatcher_call`: with a proxy available the
call returns TRUE, invokes no callback, and leaves a record with the next identifier,
registered and bound to a call in flight. -/
lemma dispatcher_call_enabled_async (env : DBusEnv) (w : World)
    (action : DispatcherAction) (connection : Option Nat)
    (device : Option NMDevice) (vpn_iface : Option String)
    (vpn_ip4_config vpn_ip6_config : Option Nat) (callback : Option Nat) (user_data : Nat)
    (out_call_id : Option Nat) (proxy : Nat)
    (hwf : w.wf) (hon : w.do_dispatch = true) (hproxy : env.proxy = some proxy)
    (hdev : ¬ (action ≠ DISPATCHER_ACTION_HOSTNAME ∧ device = none))
    (hvpn : ¬ (action = DISPATCHER_ACTION_VPN_UP ∧ vpn_ip4_config = none)) :
    ∃ w', _dispatcher_call env w action false connection device vpn_iface vpn_ip4_config
          vpn_ip6_config callback user_data out_call_id
        = some (true, out_call_id.map (fun _ => w.request_counter), w')
      ∧ (∃ es, w'.trace = w.trace ++ es ∧ ∀ e ∈ es, e.is_callback = false)
      ∧ w'.registry.lookup w.request_counter = some w.next_ptr
      ∧ w'.heap.lookup w.next_ptr = some
          { request_id := w.request_counter, callback := callback, user_data := user_data,
            idle_id := 0 }
      ∧ w.next_ptr ∈ w'.pending_calls
      ∧ w'.request_counter = (w.request_counter + 1) % 2 ^ 32
      ∧ w'.do_dispatch = w.do_dispatch := by
  have hassert : ¬ ((false : Bool) = true ∧ (callback ≠ none ∨ user_data ≠ 0)) := by simp
  have hoff' : ¬ (((_ensure_requests w).emit (.log_dbg_dispatching
      (if action = DISPATCHER_ACTION_HOSTNAME then none else device.map (fun d => d.iface))
      (action_to_string action))).do_dispatch = false) := by
    cases h : w.requests <;> simp [World.emit, _ensure_requests, h, hon]
  simp only [_dispatcher_call, if_neg hassert, if_neg hdev, if_neg hvpn, if_neg hoff', hproxy]
  simp only [ensure_requests_eq, dispatch_info_new, g_malloc0, World.store,
    World.emit, World.emit_all, dispatcher_call_done, lookup_cons_self, Bool.false_eq_true,
    if_false]
  have key : ∀ (v : World) (i : DispatchInfo) (es : List Event) (out : Option Nat),
      v.requests = some w.registry → v.heap.lookup w.next_ptr = some i →
      (∀ e ∈ w.registry, e.2 ≠ w.next_ptr ∧ v.heap.lookup e.2 ≠ none) →
      v.trace = w.trace ++ es → (∀ e ∈ es, e.is_callback = false) →
      w.next_ptr ∈ v.pending_calls →
      v.request_counter = (w.request_counter + 1) % 2 ^ 32 →
      v.do_dispatch = w.do_dispatch →
      ∃ w', (match g_hash_table_insert v w.request_counter w.next_ptr with
            | none => none
            | some w1 => some (true, out, w1)) = some (true, out, w')
        ∧ (∃ es, w'.trace = w.trace ++ es ∧ ∀ e ∈ es, e.is_callback = false)
        ∧ w'.registry.lookup w.request_counter = some w.next_ptr
        ∧ w'.heap.lookup w.next_ptr = some i
        ∧ w.next_ptr ∈ w'.pending_calls
        ∧ w'.request_counter = (w.request_counter + 1) % 2 ^ 32
        ∧ w'.do_dispatch = w.do_dispatch := by
    intro v i es out hr hp hlive htr hes hpend hcnt hdd
    obtain ⟨v', hins, htr', hreg, hheap, _, hpend', hcnt', hdd'⟩ :=
      g_hash_table_insert_spec v w.registry w.request_counter w.next_ptr i hr hp hlive
    refine ⟨v', ?_, ⟨es, ?_, hes⟩, hreg, hheap, ?_, ?_, ?_⟩
    · rw [hins]
    · rw [htr', htr]
    · rw [hpend']
      exact hpend
    · rw [hcnt', hcnt]
    · rw [hdd', hdd]
  refine key _ _ ([.log_dbg_dispatching
      (if action = DISPATCHER_ACTION_HOSTNAME then none else device.map (fun d => d.iface))
      (action_to_string action)]
      ++ property_bag_events action connection vpn_ip4_config vpn_ip6_config
      ++ [.proxy_begin_call (action_to_string action) (vpn_iface.getD "") w.next_ptr])
    _ rfl (lookup_cons_self _ _ _) ?_ ?_ ?_ ?_ rfl rfl
  · intro e he
    obtain ⟨hlt, hlv⟩ := wf_live w hwf e he
    have hne : e.2 ≠ w.next_ptr := Nat.ne_of_lt hlt
    refine ⟨hne, ?_⟩
    rw [lookup_cons_of_ne _ _ _ _ hne, lookup_filter_of_ne _ _ _ hne,
      lookup_cons_of_ne _ _ _ _ hne]
    exact hlv
  · simp only [List.append_assoc]
  · intro e he
    simp only [List.mem_append, List.mem_singleton] at he
    rcases he with (h | h) | h
    · subst h; rfl
    · exact property_bag_events_not_callback _ _ _ _ e h
    · subst h; rfl
  · exact List.mem_cons_self _ _

lemma results_process_item_not_callback (n : Nat) (item : List GValue) (e : Event)
    (h : dispatcher_results_process_item n item = some e) : e.is_callback = false := by
  unfold dispatcher_results_process_item at h
  split at h
  · split at h
    · split at h
      · split at h
        · split_ifs at h
          · cases h; rfl
          · split at h
            · cases h; rfl
            · cases h
        · cases h; rfl
      · cases h; rfl
    · cases h; rfl
  · cases h; rfl

lemma results_process_from_not_callback (items : List (List GValue)) :
    ∀ (n : Nat) (es : List Event), dispatcher_results_process_from n items = some es →
      ∀ e ∈ es, e.is_callback = false := by
  induction items with
  | nil =>
    intro n es h e he
    simp only [dispatcher_results_process_from, Option.some.injEq] at h
    subst h
    cases he
  | cons item rest ih =>
    intro n es h e he
    simp only [dispatcher_results_process_from] at h
    cases h1 : dispatcher_results_process_item n item with
    | none => simp [h1] at h
    | some e1 =>
      cases h2 : dispatcher_results_process_from (n + 1) rest with
      | none => simp [h1, h2] at h
      | some es2 =>
        simp only [h1, h2, Option.some.injEq] at h
        subst h
        rcases List.mem_cons.mp he with h3 | h3
        · rw [h3]
          exact results_process_item_not_callback n item e1 h1
        · exact ih (n + 1) es2 h2 e h3

lemma reply_events_not_callback (reply : CallReply) (es : List Event)
    (h : reply_events reply = some es) : ∀ e ∈ es, e.is_callback = false := by
  cases reply with
  | results items => exact results_process_from_not_callback items 0 es h
  | error code message =>
    simp only [reply_events, Option.some.injEq] at h
    subst h
    intro e he
    rw [List.mem_singleton.mp he]
    rfl

/-- Asynchronous completion on a reply whose processing returns.  In a well-formed
state with `do_dispatch` true and a proxy available, an asynchronous call with a
callback is accepted without invoking the callback; when the transport then signals
completion with a result list that is processed to the end, or with an error,
`dispatcher_done_cb` invokes the callback exactly once with the request's identifier
and user data while the record is still registered, the destroy notification then
removes the record, and a further completion signal for the same call does nothing. -/
theorem async_completion_invokes_callback_once (env : DBusEnv) (w : World)
    (action : DispatcherAction) (connection : Option Nat)
    (device : Option NMDevice) (vpn_iface : Option String)
    (vpn_ip4_config vpn_ip6_config : Option Nat) (cb user_data : Nat)
    (out_call_id : Option Nat) (proxy : Nat) (reply reply2 : CallReply) (es : List Event)
    (hwf : w.wf) (hon : w.do_dispatch = true) (hproxy : env.proxy = some proxy)
    (hdev : ¬ (action ≠ DISPATCHER_ACTION_HOSTNAME ∧ device = none))
    (hvpn : ¬ (action = DISPATCHER_ACTION_VPN_UP ∧ vpn_ip4_config = none))
    (hreply : reply_events reply = some es) :
    ∃ w', _dispatcher_call env w action false connection device vpn_iface vpn_ip4_config
          vpn_ip6_config (some cb) user_data out_call_id
        = some (true, out_call_id.map (fun _ => w.request_counter), w')
      ∧ (∃ es0, w'.trace = w.trace ++ es0 ∧ ∀ e ∈ es0, e.is_callback = false)
      ∧ (∀ e ∈ es, e.is_callback = false)
      ∧ (∃ w1, dispatcher_done_cb w' w.next_ptr reply = some w1
          ∧ w1.trace = w'.trace ++ es ++ [.callback cb w.request_counter user_data]
          ∧ w1.registry.lookup w.request_counter ≠ none)
      ∧ ∃ w'', proxy_call_complete w' w.next_ptr reply = some w''
          ∧ w''.trace = w'.trace ++ es ++ [.callback cb w.request_counter user_data]
          ∧ w''.registry.lookup w.request_counter = none
          ∧ proxy_call_complete w'' w.next_ptr reply2 = some w'' := by
  obtain ⟨w', hcall, htrace, hreg, hheap, hpend, _⟩ :=
    dispatcher_call_enabled_async env w action connection device vpn_iface vpn_ip4_config
      vpn_ip6_config (some cb) user_data out_call_id proxy hwf hon hproxy hdev hvpn
  obtain ⟨⟨w1, hdone, htr1, hreg1⟩, w'', hcomp, htr2, hreg2, _, hpend2⟩ :=
    proxy_call_complete_spec w' w.next_ptr _ reply es hpend hheap hreg hreply
  refine ⟨w', hcall, htrace, reply_events_not_callback reply es hreply,
    ⟨w1, hdone, htr1, by rw [hreg1]; exact Option.some_ne_none _⟩,
    w'', hcomp, htr2, hreg2, ?_⟩
  simp only [proxy_call_complete, if_neg hpend2]

/-- Instance: an asynchronous up request in the initial state, completed with one
successful script result. -/
theorem async_completion_invokes_callback_once_witness :
    ∃ w', _dispatcher_call { proxy := some 1, reply := .results [] } {}
          DISPATCHER_ACTION_UP false (some 1) (some { iface := "eth0" }) none none none
          (some 7) 9 (some 55)
        = some (true, (some 55).map (fun _ => ({} : World).request_counter), w')
      ∧ (∃ es0, w'.trace = ({} : World).trace ++ es0 ∧ ∀ e ∈ es0, e.is_callback = false)
      ∧ (∀ e ∈ [Event.log_dbg_succeeded "s"], e.is_callback = false)
      ∧ (∃ w1, dispatcher_done_cb w' ({} : World).next_ptr
            (.results [[.string "s", .uint 1, .string ""]]) = some w1
          ∧ w1.trace = w'.trace ++ [Event.log_dbg_succeeded "s"]
              ++ [.callback 7 ({} : World).request_counter 9]
          ∧ w1.registry.lookup ({} : World).request_counter ≠ none)
      ∧ ∃ w'', proxy_call_complete w' ({} : World).next_ptr
            (.results [[.string "s", .uint 1, .string ""]]) = some w''
          ∧ w''.trace = w'.trace ++ [Event.log_dbg_succeeded "s"]
              ++ [.callback 7 ({} : World).request_counter 9]
          ∧ w''.registry.lookup ({} : World).request_counter = none
          ∧ proxy_call_complete w'' ({} : World).next_ptr (.error 4 "timeout") = some w'' :=
  async_completion_invokes_callback_once { proxy := some 1, reply := .results [] } {}
    DISPATCHER_ACTION_UP (some 1) (some { iface := "eth0" }) none none none 7 9
    (some 55) 1 (.results [[.string "s", .uint 1, .string ""]]) (.error 4 "timeout")
    [Event.log_dbg_succeeded "s"] (by decide) rfl rfl (by decide) (by decide) rfl

/-- Cancellation suppresses the callback.  For a registered, allocated record the
cancel returns without a diagnostic, clears only the callback and leaves the registry,
the calls in flight, the idle sources and the trace as they were; a later completion on
a reply whose processing returns, or the later idle turn, invokes no callback and
removes the record from the registry. -/
theorem cancel_suppresses_callback (v : World) (id p : Nat) (i : DispatchInfo)
    (hreg : v.registry.lookup id = some p) (hp : v.heap.lookup p = some i)
    (hid : i.request_id = id) :
    ∃ vc, nm_dispatcher_call_cancel v id = some vc
      ∧ vc.registry = v.registry
      ∧ vc.pending_calls = v.pending_calls
      ∧ vc.idle_sources = v.idle_sources
      ∧ vc.trace = v.trace
      ∧ (∀ reply es, p ∈ v.pending_calls → reply_events reply = some es →
          (∀ e ∈ es, e.is_callback = false)
          ∧ ∃ vd, proxy_call_complete vc p reply = some vd
            ∧ vd.trace = v.trace ++ es
            ∧ vd.registry.lookup id = none)
      ∧ (∀ s, v.idle_sources.lookup s = some p →
          ∃ vd, idle_dispatch vc s = some vd
            ∧ vd.trace = v.trace
            ∧ vd.registry.lookup id = none) := by
  obtain ⟨vc, hcancel, hregc, hheapc, _, hidlec, hpendc, htrc, _⟩ :=
    nm_dispatcher_call_cancel_spec v id p i hreg hp
  have hregc' : vc.registry.lookup ({ i with callback := none } : DispatchInfo).request_id
      = some p := by
    rw [hregc]
    show v.registry.lookup i.request_id = some p
    rw [hid]
    exact hreg
  refine ⟨vc, hcancel, hregc, hpendc, hidlec, htrc, ?_, ?_⟩
  · intro reply es hpend hreply
    obtain ⟨_, vd, hcomp, htr, hreg2, _, _⟩ :=
      proxy_call_complete_spec vc p _ reply es (by rw [hpendc]; exact hpend) hheapc hregc'
        hreply
    refine ⟨reply_events_not_callback reply es hreply, vd, hcomp, ?_, ?_⟩
    · rw [htr, htrc]
      simp [callback_events]
    · rw [← hid]
      exact hreg2
  · intro s hs
    obtain ⟨vd, hrun, htr, hreg2, _, _, _⟩ :=
      idle_dispatch_spec vc s p _ (by rw [hidlec]; exact hs) hheapc hregc'
    refine ⟨vd, hrun, ?_, ?_⟩
    · rw [htr, htrc]
      simp [callback_events]
    · rw [← hid]
      exact hreg2

/-- Instance: the request of identifier 1, in flight with callback 7, is cancelled and
then completed with a transport error. -/
theorem cancel_suppresses_callback_witness :
    ∃ vc, nm_dispatcher_call_cancel
          (World.mk true (some [(1, 1)]) 2 [(1, DispatchInfo.mk 1 (some 7) 9 0)] 2 [] 1 [1] []
            initial_monitors) 1
        = some vc
      ∧ vc.registry
        = (World.mk true (some [(1, 1)]) 2 [(1, DispatchInfo.mk 1 (some 7) 9 0)] 2 [] 1 [1] []
            initial_monitors).registry
      ∧ vc.pending_calls
        = (World.mk true (some [(1, 1)]) 2 [(1, DispatchInfo.mk 1 (some 7) 9 0)] 2 [] 1 [1] []
            initial_monitors).pending_calls
      ∧ vc.idle_sources
        = (World.mk true (some [(1, 1)]) 2 [(1, DispatchInfo.mk 1 (some 7) 9 0)] 2 [] 1 [1] []
            initial_monitors).idle_sources
      ∧ vc.trace
        = (World.mk true (some [(1, 1)]) 2 [(1, DispatchInfo.mk 1 (some 7) 9 0)] 2 [] 1 [1] []
            initial_monitors).trace
      ∧ (∀ reply es,
          1 ∈ (World.mk true (some [(1, 1)]) 2 [(1, DispatchInfo.mk 1 (some 7) 9 0)] 2 [] 1 [1] []
            initial_monitors).pending_calls →
          reply_events reply = some es →
          (∀ e ∈ es, e.is_callback = false)
          ∧ ∃ vd, proxy_call_complete vc 1 reply = some vd
            ∧ vd.trace
              = (World.mk true (some [(1, 1)]) 2 [(1, DispatchInfo.mk 1 (some 7) 9 0)] 2 [] 1 [1] []
            initial_monitors).trace
                ++ es
            ∧ vd.registry.lookup 1 = none)
      ∧ (∀ s,
          (World.mk true (some [(1, 1)]) 2 [(1, DispatchInfo.mk 1 (some 7) 9 0)] 2 [] 1 [1] []
            initial_monitors).idle_sources.lookup
            s = some 1 →
          ∃ vd, idle_dispatch vc s = some vd
            ∧ vd.trace
              = (World.mk true (some [(1, 1)]) 2 [(1, DispatchInfo.mk 1 (some 7) 9 0)] 2 [] 1 [1] []
            initial_monitors).trace
            ∧ vd.registry.lookup 1 = none) :=
  cancel_suppresses_callback
    (World.mk true (some [(1, 1)]) 2 [(1, DispatchInfo.mk 1 (some 7) 9 0)] 2 [] 1 [1] []
            initial_monitors) 1 1
    { request_id := 1, callback := some 7, user_data := 9, idle_id := 0 } rfl rfl rfl

/-- C10 at a failing input: an asynchronous up request with a callback is accepted
with identifier 1 on the enabled path; the transport then completes the call
successfully with one well-typed result tuple whose outcome code is 7.  Processing the
reply reaches the `g_assert_not_reached` of `dispatch_result_to_string`, so
`dispatcher_done_cb` does not return: the callback is not invoked and the record stays
registered. -/
theorem async_completion_aborts_on_unknown_outcome :
    ∃ w', _dispatcher_call { proxy := some 1, reply := .results [] } {}
          DISPATCHER_ACTION_UP false (some 1) (some { iface := "eth0" }) none none none
          (some 7) 9 (some 0) = some (true, some 1, w')
      ∧ w'.registry.lookup 1 = some 1
      ∧ w'.heap.lookup 1
          = some { request_id := 1, callback := some 7, user_data := 9, idle_id := 0 }
      ∧ w'.pending_calls = [1]
      ∧ (∀ e ∈ w'.trace, e.is_callback = false)
      ∧ dispatch_result_to_string 7 = none
      ∧ dispatcher_done_cb w' 1 (.results [[.string "s", .uint 7, .string ""]]) = none
      ∧ proxy_call_complete w' 1 (.results [[.string "s", .uint 7, .string ""]]) = none :=
  ⟨_, rfl, rfl, rfl, rfl, by decide, rfl, rfl, rfl⟩

/-- C9 at a failing input: the request of identifier 1 is accepted on the enabled path
and cancelled; the transport then completes the call successfully with one well-typed
result tuple whose outcome code is 7.  The completion does not return, so the record,
which the cancel left in the registry, is not removed by it. -/
theorem cancelled_completion_aborts_on_unknown_outcome :
    ∃ w' wc, _dispatcher_call { proxy := some 1, reply := .results [] } {}
          DISPATCHER_ACTION_UP false (some 1) (some { iface := "eth0" }) none none none
          (some 7) 9 (some 0) = some (true, some 1, w')
      ∧ nm_dispatcher_call_cancel w' 1 = some wc
      ∧ wc.registry.lookup 1 = some 1
      ∧ wc.heap.lookup 1
          = some { request_id := 1, callback := none, user_data := 9, idle_id := 0 }
      ∧ wc.pending_calls = [1]
      ∧ proxy_call_complete wc 1 (.results [[.string "s", .uint 7, .string ""]]) = none :=
  ⟨_, _, rfl, rfl, rfl, rfl, rfl, rfl⟩

/-! ### Well-formedness is an invariant -/

lemma wf_of_fields (w w' : World) (hwf : w.wf) (hr : w'.registry = w.registry)
    (hh : w'.heap = w.heap) (hp : w'.next_ptr = w.next_ptr)
    (hs : w'.next_source = w.next_source) : w'.wf := by
  unfold World.wf
  rw [hr, hh, hp, hs]
  exact hwf

lemma wf_ensure_requests (w : World) (hwf : w.wf) : (_ensure_requests w).wf :=
  wf_of_fields w _ hwf (registry_ensure_requests w) (by rw [ensure_requests_eq])
    (by rw [ensure_requests_eq]) (by rw [ensure_requests_eq])

lemma wf_emit (w : World) (e : Event) (hwf : w.wf) : (w.emit e).wf :=
  wf_of_fields w _ hwf rfl rfl rfl rfl

lemma wf_emit_all (w : World) (es : List Event) (hwf : w.wf) : (w.emit_all es).wf :=
  wf_of_fields w _ hwf rfl rfl rfl rfl

lemma wf_g_source_remove (w : World) (s : Nat) (hwf : w.wf) : (g_source_remove w s).wf :=
  wf_of_fields w _ hwf rfl rfl rfl rfl

lemma request_id_of_registry (w : World) (hwf : w.wf) (k q : Nat) (j : DispatchInfo)
    (hk : (k, q) ∈ w.registry) (hq : w.heap.lookup q = some j) : j.request_id = k := by
  have h := hwf.1 (k, q) hk
  rw [show ((k, q) : Nat × Nat).2 = q from rfl, hq] at h
  simpa using h

/-- Freeing the record stored under a key while the key leaves or changes its value
keeps the other entries of the registry valid. -/
lemma wf_free (w : World) (hwf : w.wf) (k q : Nat) (hk : (k, q) ∈ w.registry)
    (w' : World)
    (hreg : ∀ e ∈ w'.registry, (e ∈ w.registry ∧ e.1 ≠ k)
      ∨ (w'.heap.lookup e.2).map (fun i => i.request_id) = some e.1)
    (hheap : ∀ q', q' ≠ q → w'.heap.lookup q' = w.heap.lookup q')
    (hsub : ∀ e ∈ w'.heap, e ∈ w.heap)
    (hp : w'.next_ptr = w.next_ptr) (hs : w'.next_source = w.next_source) : w'.wf := by
  refine ⟨?_, ?_, ?_⟩
  · intro e he
    rcases hreg e he with ⟨hmem, hne⟩ | h
    · have hold := hwf.1 e hmem
      have hneq : e.2 ≠ q := by
        intro heq
        cases hj : w.heap.lookup q with
        | none =>
          rw [heq, hj] at hold
          cases hold
        | some j =>
          have h1 := request_id_of_registry w hwf k q j hk hj
          rw [heq, hj] at hold
          simp only [Option.map_some', Option.some.injEq] at hold
          exact hne (by rw [← hold, h1])
      rw [hheap e.2 hneq]
      exact hold
    · exact h
  · intro e he
    rw [hp, hs]
    exact hwf.2.1 e (hsub e he)
  · rw [hs]
    exact hwf.2.2

lemma mem_remove_key (k : Nat) (l : List (Nat × Nat)) (e : Nat × Nat)
    (h : e ∈ remove_key k l) : e ∈ l ∧ e.1 ≠ k := by
  unfold remove_key at h
  obtain ⟨h1, h2⟩ := List.mem_filter.mp h
  exact ⟨h1, by simpa using h2⟩

lemma wf_g_hash_table_remove (v : World) (hwf : v.wf) (k : Nat) (v' : World)
    (h : g_hash_table_remove v k = some v') : v'.wf := by
  unfold g_hash_table_remove at h
  cases hr : v.requests with
  | none =>
    simp only [hr, Option.some.injEq] at h
    subst h
    exact wf_emit v _ hwf
  | some t =>
    simp only [hr] at h
    cases hl : t.lookup k with
    | none =>
      simp only [hl, Option.some.injEq] at h
      subst h
      exact hwf
    | some q =>
      simp only [hl, dispatcher_info_free] at h
      have hreg : v.registry = t := by simp [World.registry, hr]
      have hk : (k, q) ∈ v.registry := by
        rw [hreg]
        exact mem_of_lookup k q t hl
      cases hj : v.heap.lookup q with
      | none => simp [hj] at h
      | some j =>
        simp only [hj, Option.some.injEq] at h
        subst h
        refine wf_free v hwf k q hk _ ?_ ?_ ?_ ?_ ?_
        · intro e he
          left
          have he' : e ∈ remove_key k t := by
            simpa [World.registry] using he
          rw [hreg]
          exact mem_remove_key k t e he'
        · intro q' hq'
          by_cases hz : j.idle_id ≠ 0
          · simp only [if_pos hz, g_free, g_source_remove]
            exact lookup_filter_of_ne q q' v.heap hq'
          · simp only [if_neg hz, g_free]
            exact lookup_filter_of_ne q q' v.heap hq'
        · intro e he
          by_cases hz : j.idle_id ≠ 0
          · simp only [if_pos hz, g_free, g_source_remove] at he
            exact (List.mem_filter.mp he).1
          · simp only [if_neg hz, g_free] at he
            exact (List.mem_filter.mp he).1
        · by_cases hz : j.idle_id ≠ 0
          · simp only [if_pos hz, g_free, g_source_remove]
          · simp only [if_neg hz, g_free]
        · by_cases hz : j.idle_id ≠ 0
          · simp only [if_pos hz, g_free, g_source_remove]
          · simp only [if_neg hz, g_free]

lemma wf_dispatcher_info_cleanup (v : World) (hwf : v.wf) (p : Nat) (v' : World)
    (h : dispatcher_info_cleanup v p = some v') : v'.wf := by
  unfold dispatcher_info_cleanup at h
  cases hj : v.heap.lookup p with
  | none => simp [hj] at h
  | some j =>
    simp only [hj] at h
    exact wf_g_hash_table_remove v hwf _ v' h

/-- Overwriting an allocated record keeps the state well-formed when the identifier
is kept and the idle source is kept or cleared. -/
lemma wf_store (v : World) (hwf : v.wf) (p : Nat) (i i' : DispatchInfo)
    (hp : v.heap.lookup p = some i) (hid : i'.request_id = i.request_id)
    (hidle : i'.idle_id < v.next_source) : (v.store p i').wf := by
  have hmem : (p, i) ∈ v.heap := mem_of_lookup p i v.heap hp
  refine ⟨?_, ?_, hwf.2.2⟩
  · intro e he
    have hold := hwf.1 e he
    by_cases hq : e.2 = p
    · rw [hq, hp] at hold
      simp only [World.store, hq, lookup_cons_self, Option.map_some', hid]
      simpa using hold
    · simp only [World.store]
      rw [lookup_cons_of_ne _ _ _ _ hq, lookup_filter_of_ne _ _ _ hq]
      exact hold
  · intro e he
    simp only [World.store] at he
    rcases List.mem_cons.mp he with h | h
    · rw [h]
      exact ⟨(hwf.2.1 (p, i) hmem).1, hidle⟩
    · exact hwf.2.1 e (List.mem_filter.mp h).1

lemma wf_g_hash_table_insert (v : World) (hwf : v.wf) (id p : Nat) (i : DispatchInfo)
    (hp : v.heap.lookup p = some i) (hid : i.request_id = id)
    (hfresh : ∀ e ∈ v.registry, e.2 ≠ p) (v' : World)
    (h : g_hash_table_insert v id p = some v') : v'.wf := by
  unfold g_hash_table_insert at h
  cases hr : v.requests with
  | none =>
    simp only [hr, Option.some.injEq] at h
    subst h
    exact wf_emit v _ hwf
  | some t =>
    simp only [hr] at h
    have hreg : v.registry = t := by simp [World.registry, hr]
    cases hl : t.lookup id with
    | none =>
      simp only [hl, Option.some.injEq] at h
      subst h
      refine ⟨?_, hwf.2.1, hwf.2.2⟩
      intro e he
      have he' : e ∈ (id, p) :: t := by simpa [World.registry] using he
      rcases List.mem_cons.mp he' with h1 | h1
      · rw [h1]
        show (v.heap.lookup p).map (fun i => i.request_id) = some id
        rw [hp]
        simp [hid]
      · exact hwf.1 e (by rw [hreg]; exact h1)
    | some old =>
      simp only [hl, dispatcher_info_free] at h
      have hk : (id, old) ∈ v.registry := by
        rw [hreg]
        exact mem_of_lookup id old t hl
      have hne : p ≠ old := fun heq => hfresh (id, old) hk heq.symm
      cases hj : v.heap.lookup old with
      | none => simp [hj] at h
      | some j =>
        simp only [hj, Option.some.injEq] at h
        subst h
        have hheap : ∀ q', q' ≠ old →
            (g_free (if j.idle_id ≠ 0 then g_source_remove v j.idle_id else v) old).heap.lookup q'
              = v.heap.lookup q' := by
          intro q' hq'
          by_cases hz : j.idle_id ≠ 0
          · simp only [if_pos hz, g_free, g_source_remove]
            exact lookup_filter_of_ne old q' v.heap hq'
          · simp only [if_neg hz, g_free]
            exact lookup_filter_of_ne old q' v.heap hq'
        refine wf_free v hwf id old hk _ ?_ hheap ?_ ?_ ?_
        · intro e he
          have he' : e ∈ (id, p) :: remove_key id t := by simpa [World.registry] using he
          rcases List.mem_cons.mp he' with h1 | h1
          · right
            rw [h1]
            show ((g_free (if j.idle_id ≠ 0 then g_source_remove v j.idle_id else v)
              old).heap.lookup p).map (fun i => i.request_id) = some id
            rw [hheap p hne, hp]
            simp [hid]
          · left
            rw [hreg]
            exact mem_remove_key id t e h1
        · intro e he
          by_cases hz : j.idle_id ≠ 0
          · simp only [if_pos hz, g_free, g_source_remove] at he
            exact (List.mem_filter.mp he).1
          · simp only [if_neg hz, g_free] at he
            exact (List.mem_filter.mp he).1
        · by_cases hz : j.idle_id ≠ 0
          · simp only [if_pos hz, g_free, g_source_remove]
          · simp only [if_neg hz, g_free]
        · by_cases hz : j.idle_id ≠ 0
          · simp only [if_pos hz, g_free, g_source_remove]
          · simp only [if_neg hz, g_free]

/-- The allocation of a record keeps the state well-formed; the record is at the
address that was the next fresh one, carries the identifier that was next, and no
entry of the registry points to it. -/
lemma wf_dispatch_info_new (w : World) (hwf : w.wf) (callback : Option Nat)
    (user_data : Nat) (idle : Bool) :
    (dispatch_info_new w callback user_data idle).2.wf
    ∧ (dispatch_info_new w callback user_data idle).1 = w.next_ptr
    ∧ (dispatch_info_new w callback user_data idle).2.registry = w.registry
    ∧ (∃ i, (dispatch_info_new w callback user_data idle).2.heap.lookup w.next_ptr = some i
        ∧ i.request_id = w.request_counter)
    ∧ ∀ e ∈ w.registry, e.2 ≠ w.next_ptr := by
  have hfresh : ∀ e ∈ w.registry, e.2 ≠ w.next_ptr := fun e he =>
    Nat.ne_of_lt (wf_live w hwf e he).1
  have hreg : ∀ (h info : DispatchInfo),
      ∀ e ∈ w.registry,
        (((w.next_ptr, info) :: List.filter (fun e => decide (e.1 ≠ w.next_ptr))
          ((w.next_ptr, h) :: w.heap)).lookup e.2).map (fun i => i.request_id) = some e.1 := by
    intro h info e he
    have hne := hfresh e he
    rw [lookup_cons_of_ne _ _ _ _ hne, lookup_filter_of_ne _ _ _ hne,
      lookup_cons_of_ne _ _ _ _ hne]
    exact hwf.1 e he
  cases idle with
  | true =>
    refine ⟨⟨?_, ?_, ?_⟩, rfl, rfl, ⟨_, lookup_cons_self _ _ _, rfl⟩, hfresh⟩
    · exact hreg _ _
    · intro e he
      simp only [dispatch_info_new, g_malloc0, g_idle_add, World.store, if_true] at he ⊢
      rcases List.mem_cons.mp he with h | h
      · rw [h]
        exact ⟨Nat.lt_succ_self _, Nat.lt_succ_self _⟩
      · have h2 := (List.mem_filter.mp h).1
        rcases List.mem_cons.mp h2 with h3 | h3
        · rw [h3]
          exact ⟨Nat.lt_succ_self _, Nat.succ_pos _⟩
        · have hb := hwf.2.1 e h3
          exact ⟨Nat.lt_succ_of_lt hb.1, Nat.lt_succ_of_lt hb.2⟩
    · exact Nat.succ_pos _
  | false =>
    refine ⟨⟨?_, ?_, ?_⟩, rfl, rfl, ⟨_, lookup_cons_self _ _ _, rfl⟩, hfresh⟩
    · exact hreg _ _
    · intro e he
      simp only [dispatch_info_new, g_malloc0, World.store, Bool.false_eq_true, if_false]
        at he ⊢
      rcases List.mem_cons.mp he with h | h
      · rw [h]
        exact ⟨Nat.lt_succ_self _, hwf.2.2⟩
      · have h2 := (List.mem_filter.mp h).1
        rcases List.mem_cons.mp h2 with h3 | h3
        · rw [h3]
          exact ⟨Nat.lt_succ_self _, hwf.2.2⟩
        · have hb := hwf.2.1 e h3
          exact ⟨Nat.lt_succ_of_lt hb.1, hb.2⟩
    · exact hwf.2.2

lemma wf_nm_dispatcher_call_cancel (w : World) (hwf : w.wf) (call_id : Nat) (w' : World)
    (h : nm_dispatcher_call_cancel w call_id = some w') : w'.wf := by
  have hwf1 := wf_ensure_requests w hwf
  simp only [nm_dispatcher_call_cancel] at h
  cases hl : (_ensure_requests w).registry.lookup call_id with
  | none =>
    simp only [hl, Option.some.injEq] at h
    subst h
    exact wf_emit _ _ hwf1
  | some p =>
    simp only [hl] at h
    cases hj : (_ensure_requests w).heap.lookup p with
    | none => simp [hj] at h
    | some i =>
      simp only [hj, Option.some.injEq] at h
      subst h
      exact wf_store _ hwf1 p i _ hj rfl
        (hwf1.2.1 (p, i) (mem_of_lookup p i _ hj)).2

lemma wf_dispatcher_idle_cb (w : World) (hwf : w.wf) (p : Nat) (keep : Bool) (w' : World)
    (h : dispatcher_idle_cb w p = some (keep, w')) : w'.wf := by
  simp only [dispatcher_idle_cb] at h
  cases hj : w.heap.lookup p with
  | none => simp [hj] at h
  | some i =>
    simp only [hj] at h
    have hwf1 : (w.store p { i with idle_id := 0 }).wf :=
      wf_store w hwf p i _ hj rfl hwf.2.2
    have hwf2 : (match i.callback with
        | some func => (w.store p { i with idle_id := 0 }).emit
            (.callback func i.request_id i.user_data)
        | none => w.store p { i with idle_id := 0 }).wf := by
      obtain ⟨rid, cb, ud, idl⟩ := i
      cases cb with
      | none => exact hwf1
      | some f => exact wf_emit _ _ hwf1
    cases hc : dispatcher_info_cleanup (match i.callback with
        | some func => (w.store p { i with idle_id := 0 }).emit
            (.callback func i.request_id i.user_data)
        | none => w.store p { i with idle_id := 0 }) p with
    | none => simp [hc] at h
    | some w3 =>
      simp only [hc, Option.some.injEq, Prod.mk.injEq] at h
      rw [← h.2]
      exact wf_dispatcher_info_cleanup _ hwf2 p w3 hc

lemma wf_idle_dispatch (w : World) (hwf : w.wf) (source : Nat) (w' : World)
    (h : idle_dispatch w source = some w') : w'.wf := by
  simp only [idle_dispatch] at h
  cases hl : w.idle_sources.lookup source with
  | none =>
    simp only [hl, Option.some.injEq] at h
    subst h
    exact hwf
  | some p =>
    simp only [hl] at h
    cases hc : dispatcher_idle_cb w p with
    | none => simp [hc] at h
    | some r =>
      obtain ⟨keep, w1⟩ := r
      simp only [hc, Option.some.injEq] at h
      have hwf1 := wf_dispatcher_idle_cb w hwf p keep w1 hc
      subst h
      cases keep with
      | true => exact hwf1
      | false => exact wf_g_source_remove _ _ hwf1

lemma wf_dispatcher_done_cb (w : World) (hwf : w.wf) (p : Nat) (reply : CallReply)
    (w' : World) (h : dispatcher_done_cb w p reply = some w') : w'.wf := by
  have key : ∀ w1 : World, w1.wf →
      (match w1.heap.lookup p with
        | none => none
        | some i =>
          match i.callback with
          | some func => some (w1.emit (.callback func i.request_id i.user_data))
          | none => some w1) = some w' → w'.wf := by
    intro w1 hwf1 h1
    cases hj : w1.heap.lookup p with
    | none => simp [hj] at h1
    | some i =>
      simp only [hj] at h1
      cases hc : i.callback with
      | none =>
        simp only [hc, Option.some.injEq] at h1
        subst h1
        exact hwf1
      | some f =>
        simp only [hc, Option.some.injEq] at h1
        subst h1
        exact wf_emit _ _ hwf1
  simp only [dispatcher_done_cb] at h
  cases reply with
  | results items =>
    cases hproc : dispatcher_results_process items with
    | none => simp [hproc] at h
    | some es =>
      simp only [hproc] at h
      exact key _ (wf_emit_all w es hwf) h
  | error code message =>
    simp only at h
    exact key _ (wf_emit w _ hwf) h

lemma wf_proxy_call_complete (w : World) (hwf : w.wf) (p : Nat) (reply : CallReply)
    (w' : World) (h : proxy_call_complete w p reply = some w') : w'.wf := by
  simp only [proxy_call_complete] at h
  by_cases hpend : p ∈ w.pending_calls
  · simp only [if_pos hpend] at h
    cases hd : dispatcher_done_cb w p reply with
    | none => simp [hd] at h
    | some w1 =>
      simp only [hd] at h
      have hwf1 := wf_dispatcher_done_cb w hwf p reply w1 hd
      cases hc : dispatcher_info_cleanup w1 p with
      | none => simp [hc] at h
      | some w2 =>
        simp only [hc, Option.some.injEq] at h
        subst h
        exact wf_of_fields w2 _ (wf_dispatcher_info_cleanup w1 hwf1 p w2 hc) rfl rfl rfl rfl
  · simp only [if_neg hpend, Option.some.injEq] at h
    subst h
    exact hwf

lemma wf_dispatcher_call_done (v : World) (hwf : v.wf) (success : Bool) (info : Option Nat)
    (out : Option Nat) (hinfo : ∀ p, info = some p → ∀ e ∈ v.registry, e.2 ≠ p)
    (r : Bool × Option Nat × World)
    (h : dispatcher_call_done v success info out = some r) : r.2.2.wf := by
  unfold dispatcher_call_done at h
  cases success with
  | false =>
    simp only [Option.some.injEq] at h
    subst h
    exact hwf
  | true =>
    cases info with
    | none =>
      simp only [Option.some.injEq] at h
      subst h
      exact hwf
    | some p =>
      simp only at h
      cases hj : v.heap.lookup p with
      | none => simp [hj] at h
      | some i =>
        simp only [hj] at h
        cases hi : g_hash_table_insert v i.request_id p with
        | none => simp [hi] at h
        | some w1 =>
          simp only [hi, Option.some.injEq] at h
          subst h
          exact wf_g_hash_table_insert v hwf i.request_id p i hj rfl (hinfo p rfl) w1 hi

lemma wf_async_submit (wb : World) (hwfb : wb.wf) (callback : Option Nat) (user_data : Nat)
    (ev : Nat → Event) (out_call_id : Option Nat) (r : Bool × Option Nat × World)
    (h : dispatcher_call_done
      { (dispatch_info_new wb callback user_data false).2.emit
          (ev (dispatch_info_new wb callback user_data false).1) with
        pending_calls := (dispatch_info_new wb callback user_data false).1
          :: ((dispatch_info_new wb callback user_data false).2.emit
            (ev (dispatch_info_new wb callback user_data false).1)).pending_calls }
      true (some (dispatch_info_new wb callback user_data false).1) out_call_id = some r) :
    r.2.2.wf := by
  obtain ⟨hwfn, hp1, hregn, _, hfresh⟩ := wf_dispatch_info_new wb hwfb callback user_data false
  refine wf_dispatcher_call_done _ ?_ true _ _ ?_ r h
  · exact wf_of_fields ((dispatch_info_new wb callback user_data false).2.emit
      (ev (dispatch_info_new wb callback user_data false).1)) _
      (wf_emit _ _ hwfn) rfl rfl rfl rfl
  · intro p hp e he
    rw [← Option.some.inj hp, hp1]
    exact hfresh e (by rw [← hregn]; exact he)

lemma wf_dispatcher_call (env : DBusEnv) (w : World) (hwf : w.wf)
    (action : DispatcherAction) (blocking : Bool) (connection : Option Nat)
    (device : Option NMDevice) (vpn_iface : Option String)
    (vpn_ip4_config vpn_ip6_config : Option Nat) (callback : Option Nat) (user_data : Nat)
    (out_call_id : Option Nat) (ret : Bool) (out : Option Nat) (w' : World)
    (h : _dispatcher_call env w action blocking connection device vpn_iface vpn_ip4_config
      vpn_ip6_config callback user_data out_call_id = some (ret, out, w')) : w'.wf := by
  simp only [_dispatcher_call] at h
  by_cases hassert : blocking = true ∧ (callback ≠ none ∨ user_data ≠ 0)
  · simp only [if_pos hassert] at h
    cases h
  simp only [if_neg hassert] at h
  have hwf1 := wf_ensure_requests w hwf
  by_cases hdev : action ≠ DISPATCHER_ACTION_HOSTNAME ∧ device = none
  · simp only [if_pos hdev, Option.some.injEq, Prod.mk.injEq] at h
    rw [← h.2.2]
    exact wf_emit _ _ hwf1
  simp only [if_neg hdev] at h
  have hwfa := wf_emit (_ensure_requests w) (.log_dbg_dispatching
    (if action = DISPATCHER_ACTION_HOSTNAME then none else device.map (fun d => d.iface))
    (action_to_string action)) hwf1
  by_cases hvpn : action = DISPATCHER_ACTION_VPN_UP ∧ vpn_ip4_config = none
  · simp only [if_pos hvpn, Option.some.injEq, Prod.mk.injEq] at h
    rw [← h.2.2]
    exact wf_emit _ _ hwfa
  simp only [if_neg hvpn] at h
  have hnew : ∀ idle, ∀ v : World,
      v.registry = (dispatch_info_new ((_ensure_requests w).emit (.log_dbg_dispatching
        (if action = DISPATCHER_ACTION_HOSTNAME then none else device.map (fun d => d.iface))
        (action_to_string action))) callback user_data idle).2.registry →
      ∀ p, some (dispatch_info_new ((_ensure_requests w).emit (.log_dbg_dispatching
        (if action = DISPATCHER_ACTION_HOSTNAME then none else device.map (fun d => d.iface))
        (action_to_string action))) callback user_data idle).1 = some p →
      ∀ e ∈ v.registry, e.2 ≠ p := by
    intro idle v hv p hp e he
    obtain ⟨_, hp1, hregn, _, hfresh⟩ := wf_dispatch_info_new _ hwfa callback user_data idle
    rw [hv, hregn] at he
    rw [← Option.some.inj hp, hp1]
    exact hfresh e he
  by_cases hoff : ((_ensure_requests w).emit (.log_dbg_dispatching
      (if action = DISPATCHER_ACTION_HOSTNAME then none else device.map (fun d => d.iface))
      (action_to_string action))).do_dispatch = false
  · simp only [if_pos hoff] at h
    by_cases htrack : blocking = false ∧ (out_call_id ≠ none ∨ callback ≠ none)
    · simp only [if_pos htrack] at h
      exact wf_dispatcher_call_done _
        (wf_emit _ _ (wf_dispatch_info_new _ hwfa callback user_data true).1) true _ _
        (hnew true _ rfl) _ h
    · simp only [if_neg htrack] at h
      exact wf_dispatcher_call_done _ (wf_emit _ _ hwfa) true none _
        (fun p hp => by cases hp) _ h
  simp only [if_neg hoff] at h
  cases hproxy : env.proxy with
  | none =>
    simp only [hproxy, Option.some.injEq, Prod.mk.injEq] at h
    rw [← h.2.2]
    exact wf_emit _ _ hwfa
  | some px =>
    simp only [hproxy] at h
    have hwfb := wf_emit_all _
      (property_bag_events action connection vpn_ip4_config vpn_ip6_config) hwfa
    by_cases hb : blocking = true
    · simp only [if_pos hb] at h
      have hwfc := wf_emit _
        (.proxy_call (action_to_string action) (vpn_iface.getD "")) hwfb
      cases hreply : env.reply with
      | results items =>
        simp only [hreply] at h
        cases hproc : dispatcher_results_process items with
        | none => simp [hproc] at h
        | some es =>
          simp only [hproc] at h
          exact wf_dispatcher_call_done _ (wf_emit_all _ es hwfc) true none _
            (fun p hp => by cases hp) _ h
      | error code message =>
        simp only [hreply] at h
        exact wf_dispatcher_call_done _ (wf_emit _ _ hwfc) false none _
          (fun p hp => by cases hp) _ h
    · simp only [if_neg hb] at h
      exact wf_async_submit _ hwfb callback user_data
        (fun p => .proxy_begin_call (action_to_string action) (vpn_iface.getD "") p)
        out_call_id _ h

lemma same_requests_refl (w : World) : w.same_requests w :=
  ⟨rfl, rfl, rfl, rfl, rfl, rfl, rfl, rfl⟩

lemma same_requests_trans (w w1 w2 : World) (h1 : w.same_requests w1)
    (h2 : w1.same_requests w2) : w.same_requests w2 := by
  obtain ⟨a1, a2, a3, a4, a5, a6, a7, a8⟩ := h1
  obtain ⟨b1, b2, b3, b4, b5, b6, b7, b8⟩ := h2
  exact ⟨b1.trans a1, b2.trans a2, b3.trans a3, b4.trans a4, b5.trans a5, b6.trans a6,
    b7.trans a7, b8.trans a8⟩

lemma wf_of_same_requests (w w1 : World) (hwf : w.wf) (h : w.same_requests w1) : w1.wf := by
  obtain ⟨a1, _, a3, a4, _, a6, _, _⟩ := h
  exact wf_of_fields w w1 hwf (by unfold World.registry; rw [a1]) a3 a4 a6

lemma same_requests_dispatcher_dir_changed (fs : FsEnv) (w : World) (i : Nat) :
    w.same_requests (dispatcher_dir_changed fs w i) := by
  unfold dispatcher_dir_changed
  cases w.monitors.get? i with
  | none => exact same_requests_refl w
  | some item => exact ⟨rfl, rfl, rfl, rfl, rfl, rfl, rfl, rfl⟩

lemma same_requests_nm_dispatcher_init_step (fs : FsEnv) (w : World) (i : Nat) :
    w.same_requests (nm_dispatcher_init_step fs w i) := by
  unfold nm_dispatcher_init_step
  cases w.monitors.get? i with
  | none => exact same_requests_refl w
  | some item =>
    dsimp only
    cases fs.file_monitor item.dir with
    | none => exact ⟨rfl, rfl, rfl, rfl, rfl, rfl, rfl, rfl⟩
    | some m =>
      exact same_requests_trans w _ _ ⟨rfl, rfl, rfl, rfl, rfl, rfl, rfl, rfl⟩
        (same_requests_dispatcher_dir_changed fs _ i)

lemma same_requests_foldl_init_step (fs : FsEnv) (l : List Nat) (w : World) :
    w.same_requests (l.foldl (nm_dispatcher_init_step fs) w) := by
  induction l generalizing w with
  | nil => exact same_requests_refl w
  | cons i rest ih =>
    rw [List.foldl_cons]
    exact same_requests_trans w _ _ (same_requests_nm_dispatcher_init_step fs w i) (ih _)

lemma same_requests_nm_dispatcher_init (fs : FsEnv) (w : World) :
    w.same_requests (nm_dispatcher_init fs w) :=
  same_requests_foldl_init_step fs _ w

/-- Every state the dispatcher reaches from a well-formed state, in particular from
the initial state, is well-formed. -/
theorem wf_of_reachable (w0 w : World) (h0 : w0.wf) (h : Reachable w0 w) : w.wf := by
  induction h with
  | init => exact h0
  | step w1 w2 _ hstep ih =>
    cases hstep with
    | call env _ action blocking connection device vpn_iface vpn4 vpn6 callback user_data
        out_call_id ret out _ hc =>
      exact wf_dispatcher_call env w1 ih action blocking connection device vpn_iface vpn4 vpn6
        callback user_data out_call_id ret out w2 hc
    | cancel _ call_id _ hc => exact wf_nm_dispatcher_call_cancel w1 ih call_id w2 hc
    | idle _ source _ hc => exact wf_idle_dispatch w1 ih source w2 hc
    | complete _ info reply _ hc => exact wf_proxy_call_complete w1 ih info reply w2 hc
    | dir_changed fs _ i =>
      exact wf_of_same_requests w1 _ ih (same_requests_dispatcher_dir_changed fs w1 i)
    | init fs _ =>
      exact wf_of_same_requests w1 _ ih (same_requests_nm_dispatcher_init fs w1)

/-- The initial state is well-formed. -/
theorem wf_of_reachable_witness : ({} : World).wf :=
  wf_of_reachable {} {} (by decide) Reachable.init

/-! ### Reply processing -/

/-- The loop body returns for every tuple that is not a well-typed tuple with an outcome
code outside the five known values. -/
lemma results_process_item_returns (i : Nat) (item : List GValue)
    (h : ∀ s r e, item = [.string s, .uint r, .string e] → r ≤ 4) :
    ∃ ev, dispatcher_results_process_item i item = some ev := by
  rcases item with _ | ⟨v0, _ | ⟨v1, _ | ⟨v2, _ | ⟨v3, rest⟩⟩⟩⟩
  · exact ⟨_, rfl⟩
  · exact ⟨_, rfl⟩
  · exact ⟨_, rfl⟩
  · cases v0 with
    | string s =>
      cases v1 with
      | uint r =>
        cases v2 with
        | string e =>
          have hr : r ≤ 4 := h s r e rfl
          interval_cases r <;> exact ⟨_, rfl⟩
        | uint _ => exact ⟨_, rfl⟩
        | other _ => exact ⟨_, rfl⟩
      | string _ => exact ⟨_, rfl⟩
      | other _ => exact ⟨_, rfl⟩
    | uint _ => exact ⟨_, rfl⟩
    | other _ => exact ⟨_, rfl⟩
  · exact ⟨_, rfl⟩

/-- On a result list without an unknown outcome code the loop returns one log entry per
tuple, in list order: the entry at position `k` is the one the loop body produces for
the tuple at position `k`. -/
lemma results_process_from_in_order (items : List (List GValue)) (i : Nat)
    (h : ∀ item ∈ items, ∀ s r e, item = [.string s, .uint r, .string e] → r ≤ 4) :
    ∃ es, dispatcher_results_process_from i items = some es
      ∧ es.length = items.length
      ∧ ∀ k item, items.get? k = some item →
          ∃ ev, es.get? k = some ev ∧ dispatcher_results_process_item (i + k) item = some ev := by
  induction items generalizing i with
  | nil =>
    refine ⟨[], rfl, rfl, ?_⟩
    intro k item hk
    cases hk
  | cons item rest ih =>
    obtain ⟨ev, hev⟩ := results_process_item_returns i item (h item (List.mem_cons_self _ _))
    obtain ⟨es, hes, hlen, hord⟩ :=
      ih (i + 1) (fun it hit => h it (List.mem_cons_of_mem _ hit))
    refine ⟨ev :: es, ?_, ?_, ?_⟩
    · simp only [dispatcher_results_process_from, hev, hes]
    · simp only [List.length_cons, hlen]
    · intro k it hk
      cases k with
      | zero =>
        simp only [List.get?_cons_zero, Option.some.injEq] at hk
        subst hk
        exact ⟨ev, rfl, hev⟩
      | succ k =>
        simp only [List.get?_cons_succ] at hk
        obtain ⟨ev2, h1, h2⟩ := hord k it hk
        refine ⟨ev2, ?_, ?_⟩
        · simp only [List.get?_cons_succ, h1]
        · rw [← h2]
          congr 1
          omega

/-- The log entry of a tuple with a field count other than three. -/
lemma results_process_item_count (i : Nat) (item : List GValue) (h : item.length ≠ 3) :
    dispatcher_results_process_item i item = some (.log_dbg_unexpected_count item.length) := by
  rcases item with _ | ⟨v0, _ | ⟨v1, _ | ⟨v2, _ | ⟨v3, rest⟩⟩⟩⟩
  · rfl
  · rfl
  · rfl
  · exact absurd rfl h
  · rfl

/-- The log entry of a well-typed tuple whose outcome is success. -/
lemma results_process_item_success (i : Nat) (script err : String) :
    dispatcher_results_process_item i [.string script, .uint DISPATCH_RESULT_SUCCESS, .string err]
      = some (.log_dbg_succeeded script) := rfl

/-- The log entry of a well-typed tuple with a known outcome other than success. -/
lemma results_process_item_failure (i : Nat) (script err name : String) (r : Nat)
    (hr : r ≠ DISPATCH_RESULT_SUCCESS) (hname : dispatch_result_to_string r = some name) :
    dispatcher_results_process_item i [.string script, .uint r, .string err]
      = some (.log_warn_script_failed script name err) := by
  simp only [dispatcher_results_process_item, if_neg hr, hname]

/-- C12 (failing input): on the result list whose one tuple is the well-typed
`("s", 7, "")`, with an outcome code outside the five known values,
`dispatcher_results_process` does not return: `dispatch_result_to_string` reaches its
`g_assert_not_reached` while the warning is built. -/
theorem results_process_aborts_on_unknown_outcome :
    dispatcher_results_process [[.string "s", .uint 7, .string ""]] = none := by
  rfl

/-- C13 (failing input): on the result list `("s", 7, "")`, a one-field tuple,
`("t", 1, "")` the loop aborts at the first tuple, so the malformed tuple produces no
log entry and the well-formed successful tuple after it is not reported, although the
last two tuples on their own produce the diagnostic entry and the success report. -/
theorem results_after_unknown_outcome_not_reported :
    dispatcher_results_process
        [[.string "s", .uint 7, .string ""], [.uint 1], [.string "t", .uint 1, .string ""]]
      = none
    ∧ dispatcher_results_process [[.uint 1], [.string "t", .uint 1, .string ""]]
      = some [.log_dbg_unexpected_count 1, .log_dbg_succeeded "t"] := by
  exact ⟨rfl, rfl⟩

/-! ### Cancellation -/

/-- C16: in a well-formed state, `nm_dispatcher_call_cancel` with a `call_id` that is
not a key of the registry returns after reporting `g_return_if_reached`, and leaves the
registry, every record (so every stored callback), the idle sources, the calls in
flight and the counter as they were; with a `call_id` registered for the record at `p`
it returns without a report, the record at `p` differs from before only in its
callback, which is NULL, and the registry and every other record are as they were. -/
theorem cancel_unknown_reports_violation (w : World) (call_id : Nat) (hwf : w.wf) :
    (w.registry.lookup call_id = none →
      ∃ w', nm_dispatcher_call_cancel w call_id = some w'
        ∧ w'.trace = w.trace ++ [.critical "g_return_if_reached"]
        ∧ w'.registry = w.registry
        ∧ w'.heap = w.heap
        ∧ w'.idle_sources = w.idle_sources
        ∧ w'.pending_calls = w.pending_calls
        ∧ w'.request_counter = w.request_counter)
    ∧ (∀ p, w.registry.lookup call_id = some p →
      ∃ i w', w.heap.lookup p = some i
        ∧ nm_dispatcher_call_cancel w call_id = some w'
        ∧ w'.trace = w.trace
        ∧ w'.registry = w.registry
        ∧ w'.heap.lookup p = some { i with callback := none }
        ∧ (∀ q, q ≠ p → w'.heap.lookup q = w.heap.lookup q)
        ∧ w'.idle_sources = w.idle_sources
        ∧ w'.pending_calls = w.pending_calls
        ∧ w'.request_counter = w.request_counter) := by
  constructor
  · intro hreg
    refine ⟨_, nm_dispatcher_call_cancel_unknown w call_id hreg, ?_, ?_, ?_, ?_, ?_, ?_⟩
    · simp only [World.emit, ensure_requests_eq]
    · exact registry_ensure_requests w
    all_goals simp only [World.emit, ensure_requests_eq]
  · intro p hreg
    have hmem : (call_id, p) ∈ w.registry := mem_of_lookup call_id p w.registry hreg
    obtain ⟨_, hlv⟩ := wf_live w hwf (call_id, p) hmem
    obtain ⟨i, hi⟩ := Option.ne_none_iff_exists'.mp hlv
    obtain ⟨w', hc, h1, h2, h3, h4, h5, h6, h7⟩ :=
      nm_dispatcher_call_cancel_spec w call_id p i hreg hi
    exact ⟨i, w', hi, hc, h6, h1, h2, h3, h4, h5, h7⟩

/-- Instance of C16: cancelling the identifier 0 in the initial state, where nothing is
registered. -/
theorem cancel_unknown_reports_violation_witness :
    ({} : World).wf
    ∧ ((({} : World).registry.lookup 0 = none →
      ∃ w', nm_dispatcher_call_cancel {} 0 = some w'
        ∧ w'.trace = ({} : World).trace ++ [.critical "g_return_if_reached"]
        ∧ w'.registry = ({} : World).registry
        ∧ w'.heap = ({} : World).heap
        ∧ w'.idle_sources = ({} : World).idle_sources
        ∧ w'.pending_calls = ({} : World).pending_calls
        ∧ w'.request_counter = ({} : World).request_counter)
    ∧ (∀ p, ({} : World).registry.lookup 0 = some p →
      ∃ i w', ({} : World).heap.lookup p = some i
        ∧ nm_dispatcher_call_cancel {} 0 = some w'
        ∧ w'.trace = ({} : World).trace
        ∧ w'.registry = ({} : World).registry
        ∧ w'.heap.lookup p = some { i with callback := none }
        ∧ (∀ q, q ≠ p → w'.heap.lookup q = ({} : World).heap.lookup q)
        ∧ w'.idle_sources = ({} : World).idle_sources
        ∧ w'.pending_calls = ({} : World).pending_calls
        ∧ w'.request_counter = ({} : World).request_counter)) :=
  ⟨by decide, cancel_unknown_reports_violation {} 0 (by decide)⟩

/-! ### Script directories -/

/-- One directory-change notification on an array of three monitors: the array after
the notification, entry by entry, and the recomputed flag. -/
lemma dispatcher_dir_changed_spec (fs : FsEnv) (w : World) (m0 m1 m2 : Monitor) (i : Nat)
    (hm : w.monitors = [m0, m1, m2]) (hi : i < 3) :
    ∃ item n0 n1 n2, [m0, m1, m2].get? i = some item
      ∧ (dispatcher_dir_changed fs w i).monitors = [n0, n1, n2]
      ∧ (dispatcher_dir_changed fs w i).do_dispatch
          = (n0.has_scripts || n1.has_scripts || n2.has_scripts)
      ∧ [n0, n1, n2].get? i = some { item with
            has_scripts := match fs.list_dir item.dir with
              | some names => !names.isEmpty
              | none => true }
      ∧ ∀ j, j ≠ i → [n0, n1, n2].get? j = [m0, m1, m2].get? j := by
  have h3 : i = 0 ∨ i = 1 ∨ i = 2 := by omega
  rcases h3 with h | h | h <;> subst h
  · cases hl : fs.list_dir m0.dir with
    | none =>
      refine ⟨m0, { m0 with has_scripts := true }, m1, m2, rfl, ?_, ?_, by rw [hl]; rfl, ?_⟩
      · simp only [dispatcher_dir_changed, hm, List.get?_cons_zero, hl, List.set_cons_zero]
      · simp only [dispatcher_dir_changed, hm, List.get?_cons_zero, hl, List.set_cons_zero,
          List.foldl_cons, List.foldl_nil, Bool.false_or]
      · intro j hj
        rcases j with _ | j
        · exact absurd rfl hj
        · rfl
    | some names =>
      refine ⟨m0, { m0 with has_scripts := !names.isEmpty }, m1, m2, rfl, ?_, ?_, by rw [hl]; rfl, ?_⟩
      · simp only [dispatcher_dir_changed, hm, List.get?_cons_zero, hl, List.set_cons_zero]
      · simp only [dispatcher_dir_changed, hm, List.get?_cons_zero, hl, List.set_cons_zero,
          List.foldl_cons, List.foldl_nil, Bool.false_or]
      · intro j hj
        rcases j with _ | j
        · exact absurd rfl hj
        · rfl
  · cases hl : fs.list_dir m1.dir with
    | none =>
      refine ⟨m1, m0, { m1 with has_scripts := true }, m2, rfl, ?_, ?_, by rw [hl]; rfl, ?_⟩
      · simp only [dispatcher_dir_changed, hm, List.get?_cons_succ, List.get?_cons_zero, hl,
          List.set_cons_succ, List.set_cons_zero]
      · simp only [dispatcher_dir_changed, hm, List.get?_cons_succ, List.get?_cons_zero, hl,
          List.set_cons_succ, List.set_cons_zero, List.foldl_cons, List.foldl_nil,
          Bool.false_or]
      · intro j hj
        rcases j with _ | _ | j
        · rfl
        · exact absurd rfl hj
        · rfl
    | some names =>
      refine ⟨m1, m0, { m1 with has_scripts := !names.isEmpty }, m2, rfl, ?_, ?_, by rw [hl]; rfl, ?_⟩
      · simp only [dispatcher_dir_changed, hm, List.get?_cons_succ, List.get?_cons_zero, hl,
          List.set_cons_succ, List.set_cons_zero]
      · simp only [dispatcher_dir_changed, hm, List.get?_cons_succ, List.get?_cons_zero, hl,
          List.set_cons_succ, List.set_cons_zero, List.foldl_cons, List.foldl_nil,
          Bool.false_or]
      · intro j hj
        rcases j with _ | _ | j
        · rfl
        · exact absurd rfl hj
        · rfl
  · cases hl : fs.list_dir m2.dir with
    | none =>
      refine ⟨m2, m0, m1, { m2 with has_scripts := true }, rfl, ?_, ?_, by rw [hl]; rfl, ?_⟩
      · simp only [dispatcher_dir_changed, hm, List.get?_cons_succ, List.get?_cons_zero, hl,
          List.set_cons_succ, List.set_cons_zero]
      · simp only [dispatcher_dir_changed, hm, List.get?_cons_succ, List.get?_cons_zero, hl,
          List.set_cons_succ, List.set_cons_zero, List.foldl_cons, List.foldl_nil,
          Bool.false_or]
      · intro j hj
        rcases j with _ | _ | _ | j
        · rfl
        · rfl
        · exact absurd rfl hj
        · rfl
    | some names =>
      refine ⟨m2, m0, m1, { m2 with has_scripts := !names.isEmpty }, rfl, ?_, ?_, by rw [hl]; rfl, ?_⟩
      · simp only [dispatcher_dir_changed, hm, List.get?_cons_succ, List.get?_cons_zero, hl,
          List.set_cons_succ, List.set_cons_zero]
      · simp only [dispatcher_dir_changed, hm, List.get?_cons_succ, List.get?_cons_zero, hl,
          List.set_cons_succ, List.set_cons_zero, List.foldl_cons, List.foldl_nil,
          Bool.false_or]
      · intro j hj
        rcases j with _ | _ | _ | j
        · rfl
        · rfl
        · exact absurd rfl hj
        · rfl

/-- C14: in the initial state `do_dispatch` is the disjunction of the three
`has_scripts` flags, and so it is after a directory-change notification for the
directory at index `i` of an array of three monitors; the notification leaves the flag
of that directory true exactly when the directory cannot be listed or its listing has
an entry, and leaves the other two monitors as they were. -/
theorem do_dispatch_is_or_of_flags (fs : FsEnv) (w : World) (m0 m1 m2 : Monitor) (i : Nat)
    (hm : w.monitors = [m0, m1, m2]) (hi : i < 3) :
    (∃ a b c, ({} : World).monitors = [a, b, c]
      ∧ ({} : World).do_dispatch = (a.has_scripts || b.has_scripts || c.has_scripts))
    ∧ ∃ item n0 n1 n2 flag, [m0, m1, m2].get? i = some item
      ∧ (dispatcher_dir_changed fs w i).monitors = [n0, n1, n2]
      ∧ (dispatcher_dir_changed fs w i).do_dispatch
          = (n0.has_scripts || n1.has_scripts || n2.has_scripts)
      ∧ [n0, n1, n2].get? i = some { item with has_scripts := flag }
      ∧ (flag = true ↔ (fs.list_dir item.dir = none
            ∨ ∃ names, fs.list_dir item.dir = some names ∧ names ≠ []))
      ∧ ∀ j, j ≠ i → [n0, n1, n2].get? j = [m0, m1, m2].get? j := by
  refine ⟨⟨_, _, _, rfl, rfl⟩, ?_⟩
  obtain ⟨item, n0, n1, n2, h1, h2, h3, h4, h5⟩ := dispatcher_dir_changed_spec fs w m0 m1 m2 i hm hi
  refine ⟨item, n0, n1, n2, _, h1, h2, h3, h4, ?_, h5⟩
  cases hl : fs.list_dir item.dir with
  | none => simp
  | some names =>
    cases names with
    | nil => simp
    | cons a rest => simp

/-- Instance of C14: in the initial state a notification for the second directory, all
directories being empty. -/
theorem do_dispatch_is_or_of_flags_witness :
    ({} : World).monitors
        = [⟨NMD_SCRIPT_DIR, none, true⟩, ⟨NMD_PRE_UP_DIR, none, true⟩,
            ⟨NMD_PRE_DOWN_DIR, none, true⟩]
    ∧ 1 < 3
    ∧ (∃ a b c, ({} : World).monitors = [a, b, c]
      ∧ ({} : World).do_dispatch = (a.has_scripts || b.has_scripts || c.has_scripts))
    ∧ ∃ item n0 n1 n2 flag,
      [(⟨NMD_SCRIPT_DIR, none, true⟩ : Monitor), ⟨NMD_PRE_UP_DIR, none, true⟩,
          ⟨NMD_PRE_DOWN_DIR, none, true⟩].get? 1 = some item
      ∧ (dispatcher_dir_changed ⟨fun _ => some [], fun _ => some 1⟩ {} 1).monitors = [n0, n1, n2]
      ∧ (dispatcher_dir_changed ⟨fun _ => some [], fun _ => some 1⟩ {} 1).do_dispatch
          = (n0.has_scripts || n1.has_scripts || n2.has_scripts)
      ∧ [n0, n1, n2].get? 1 = some { item with has_scripts := flag }
      ∧ (flag = true ↔ ((fun _ => some []: String → Option (List String)) item.dir = none
            ∨ ∃ names, (fun _ => some [] : String → Option (List String)) item.dir = some names
                ∧ names ≠ []))
      ∧ ∀ j, j ≠ 1 → [n0, n1, n2].get? j
          = [(⟨NMD_SCRIPT_DIR, none, true⟩ : Monitor), ⟨NMD_PRE_UP_DIR, none, true⟩,
              ⟨NMD_PRE_DOWN_DIR, none, true⟩].get? j :=
  ⟨rfl, by decide,
    do_dispatch_is_or_of_flags ⟨fun _ => some [], fun _ => some 1⟩ {} _ _ _ 1 rfl (by decide)⟩

/-- Source `nm_dispatcher_init` on an array of three monitors whose directories are all
empty and for each of which a file monitor is created: every directory is listed, every
flag is false afterwards and so is `do_dispatch`. -/
lemma nm_dispatcher_init_all_empty (fs : FsEnv) (w : World) (m0 m1 m2 : Monitor)
    (hm : w.monitors = [m0, m1, m2])
    (hmon : ∀ m ∈ [m0, m1, m2], fs.file_monitor m.dir ≠ none)
    (hempty : ∀ m ∈ [m0, m1, m2], fs.list_dir m.dir = some []) :
    (nm_dispatcher_init fs w).do_dispatch = false
    ∧ (nm_dispatcher_init fs w).monitors
        = [{ m0 with monitor := fs.file_monitor m0.dir, has_scripts := false },
            { m1 with monitor := fs.file_monitor m1.dir, has_scripts := false },
            { m2 with monitor := fs.file_monitor m2.dir, has_scripts := false }] := by
  obtain ⟨a0, h0⟩ := Option.ne_none_iff_exists'.mp (hmon m0 (by simp))
  obtain ⟨a1, h1⟩ := Option.ne_none_iff_exists'.mp (hmon m1 (by simp))
  obtain ⟨a2, h2⟩ := Option.ne_none_iff_exists'.mp (hmon m2 (by simp))
  have e0 : fs.list_dir m0.dir = some [] := hempty m0 (by simp)
  have e1 : fs.list_dir m1.dir = some [] := hempty m1 (by simp)
  have e2 : fs.list_dir m2.dir = some [] := hempty m2 (by simp)
  have hr : List.range 3 = [0, 1, 2] := rfl
  simp only [nm_dispatcher_init, hm, List.length_cons, List.length_nil, Nat.zero_add,
    Nat.reduceAdd, hr, List.foldl_cons, List.foldl_nil, nm_dispatcher_init_step,
    dispatcher_dir_changed, List.get?_cons_zero, List.get?_cons_succ, List.set_cons_zero,
    List.set_cons_succ, h0, h1, h2, e0, e1, e2, List.isEmpty_nil, Bool.not_true,
    Bool.or_false, and_self]

/-- With `do_dispatch` false, a call of `_dispatcher_call` that meets the preconditions
returns TRUE and adds only log entries to the trace. -/
lemma dispatcher_call_disabled_returns (env : DBusEnv) (w : World)
    (action : DispatcherAction) (blocking : Bool) (connection : Option Nat)
    (device : Option NMDevice) (vpn_iface : Option String)
    (vpn_ip4_config vpn_ip6_config : Option Nat) (callback : Option Nat) (user_data : Nat)
    (out_call_id : Option Nat)
    (hwf : w.wf) (hoff : w.do_dispatch = false)
    (hassert : ¬ (blocking = true ∧ (callback ≠ none ∨ user_data ≠ 0)))
    (hdev : ¬ (action ≠ DISPATCHER_ACTION_HOSTNAME ∧ device = none))
    (hvpn : ¬ (action = DISPATCHER_ACTION_VPN_UP ∧ vpn_ip4_config = none)) :
    ∃ out w', _dispatcher_call env w action blocking connection device vpn_iface
          vpn_ip4_config vpn_ip6_config callback user_data out_call_id
        = some (true, out, w')
      ∧ w'.trace = w.trace ++ [.log_dbg_dispatching
          (if action = DISPATCHER_ACTION_HOSTNAME then none else device.map (fun d => d.iface))
          (action_to_string action), .log_dbg_ignoring] := by
  by_cases htrack : blocking = false ∧ (out_call_id ≠ none ∨ callback ≠ none)
  · obtain ⟨hb, htr⟩ := htrack
    subst hb
    obtain ⟨w', hcall, htrace, _⟩ :=
      dispatcher_call_disabled_tracked env w action connection device vpn_iface
        vpn_ip4_config vpn_ip6_config callback user_data out_call_id hwf hoff hdev hvpn htr
    exact ⟨_, w', hcall, htrace⟩
  · have hoff' : ((_ensure_requests w).emit (.log_dbg_dispatching
        (if action = DISPATCHER_ACTION_HOSTNAME then none else device.map (fun d => d.iface))
        (action_to_string action))).do_dispatch = false := by
      cases h : w.requests <;> simp [World.emit, _ensure_requests, h, hoff]
    refine ⟨out_call_id.map (fun _ => 0), ((_ensure_requests w).emit (.log_dbg_dispatching
        (if action = DISPATCHER_ACTION_HOSTNAME then none else device.map (fun d => d.iface))
        (action_to_string action))).emit .log_dbg_ignoring, ?_, ?_⟩
    · simp only [_dispatcher_call, if_neg hassert, if_neg hdev, if_neg hvpn, if_pos hoff',
        if_neg htrack, dispatcher_call_done]
    · simp only [ensure_requests_eq, World.emit, List.append_assoc, List.singleton_append]

/-- C15 (amended): when `nm_dispatcher_init` runs on a well-formed state with three
monitors, all three directories can be listed and are empty, and
`g_file_monitor_directory` returns a monitor for each of them, `do_dispatch` is false
once `nm_dispatcher_init` has returned, and the next dispatch of the up action with a
connection and a device, asynchronous or blocking, returns TRUE after the two log
entries of the disabled path, with nothing submitted to the transport. -/
theorem init_with_empty_directories_disables_dispatch (fs : FsEnv) (w : World)
    (m0 m1 m2 : Monitor) (hwf : w.wf) (hm : w.monitors = [m0, m1, m2])
    (hmon : ∀ m ∈ [m0, m1, m2], fs.file_monitor m.dir ≠ none)
    (hempty : ∀ m ∈ [m0, m1, m2], fs.list_dir m.dir = some []) :
    (nm_dispatcher_init fs w).do_dispatch = false
    ∧ ∀ (env : DBusEnv) (connection : Nat) (device : NMDevice) (callback : Option Nat)
        (user_data : Nat) (out_call_id : Option Nat),
      (∃ out w', nm_dispatcher_call env (nm_dispatcher_init fs w) DISPATCHER_ACTION_UP
            (some connection) (some device) callback user_data out_call_id
          = some (true, out, w')
        ∧ (∃ es, w'.trace = (nm_dispatcher_init fs w).trace ++ es
            ∧ ∀ e ∈ es, e.is_transport = false ∧ e.is_property_bag = false))
      ∧ (∃ out w', nm_dispatcher_call_sync env (nm_dispatcher_init fs w) DISPATCHER_ACTION_UP
            (some connection) (some device)
          = some (true, out, w')
        ∧ (∃ es, w'.trace = (nm_dispatcher_init fs w).trace ++ es
            ∧ ∀ e ∈ es, e.is_transport = false ∧ e.is_property_bag = false)) := by
  have hoff := (nm_dispatcher_init_all_empty fs w m0 m1 m2 hm hmon hempty).1
  have hwf' : (nm_dispatcher_init fs w).wf :=
    wf_of_same_requests w _ hwf (same_requests_nm_dispatcher_init fs w)
  refine ⟨hoff, ?_⟩
  intro env connection device callback user_data out_call_id
  have hlog : ∀ e ∈ [Event.log_dbg_dispatching
      (if DISPATCHER_ACTION_UP = DISPATCHER_ACTION_HOSTNAME then none
        else (some device).map (fun d => d.iface))
      (action_to_string DISPATCHER_ACTION_UP), Event.log_dbg_ignoring],
      e.is_transport = false ∧ e.is_property_bag = false := by
    intro e he
    simp only [List.mem_cons, List.mem_singleton, List.not_mem_nil, or_false] at he
    rcases he with h | h <;> subst h <;> exact ⟨rfl, rfl⟩
  constructor
  · obtain ⟨out, w', hcall, htrace⟩ :=
      dispatcher_call_disabled_returns env (nm_dispatcher_init fs w) DISPATCHER_ACTION_UP
        false (some connection) (some device) none none none callback user_data out_call_id
        hwf' hoff (by simp) (by simp) (by simp)
    exact ⟨out, w', hcall, _, htrace, hlog⟩
  · obtain ⟨out, w', hcall, htrace⟩ :=
      dispatcher_call_disabled_returns env (nm_dispatcher_init fs w) DISPATCHER_ACTION_UP
        true (some connection) (some device) none none none none 0 none
        hwf' hoff (by simp) (by simp) (by simp)
    exact ⟨out, w', hcall, _, htrace, hlog⟩

/-- Instance of C15 (amended): the initial state, all directories empty, every monitor
created. -/
theorem init_with_empty_directories_disables_dispatch_witness :
    ({} : World).wf
    ∧ ({} : World).monitors
        = [⟨NMD_SCRIPT_DIR, none, true⟩, ⟨NMD_PRE_UP_DIR, none, true⟩,
            ⟨NMD_PRE_DOWN_DIR, none, true⟩]
    ∧ (nm_dispatcher_init ⟨fun _ => some [], fun _ => some 1⟩ {}).do_dispatch = false
    ∧ ∀ (env : DBusEnv) (connection : Nat) (device : NMDevice) (callback : Option Nat)
        (user_data : Nat) (out_call_id : Option Nat),
      (∃ out w', nm_dispatcher_call env
            (nm_dispatcher_init ⟨fun _ => some [], fun _ => some 1⟩ {}) DISPATCHER_ACTION_UP
            (some connection) (some device) callback user_data out_call_id
          = some (true, out, w')
        ∧ (∃ es, w'.trace
              = (nm_dispatcher_init ⟨fun _ => some [], fun _ => some 1⟩ {}).trace ++ es
            ∧ ∀ e ∈ es, e.is_transport = false ∧ e.is_property_bag = false))
      ∧ (∃ out w', nm_dispatcher_call_sync env
            (nm_dispatcher_init ⟨fun _ => some [], fun _ => some 1⟩ {}) DISPATCHER_ACTION_UP
            (some connection) (some device)
          = some (true, out, w')
        ∧ (∃ es, w'.trace
              = (nm_dispatcher_init ⟨fun _ => some [], fun _ => some 1⟩ {}).trace ++ es
            ∧ ∀ e ∈ es, e.is_transport = false ∧ e.is_property_bag = false)) :=
  ⟨by decide, rfl,
    init_with_empty_directories_disables_dispatch ⟨fun _ => some [], fun _ => some 1⟩ {} _ _ _
      (by decide) rfl (by simp) (by simp)⟩

/-- C15 (counterexample): all three directories exist and are empty, but
`g_file_monitor_directory` returns NULL for each of them; `nm_dispatcher_init` then
lists no directory, `do_dispatch` is still true when it has returned, and the next
dispatch of the up action with a connection and a device submits a call to the
transport. -/
theorem init_without_monitor_keeps_dispatch_enabled :
    (∀ m ∈ ({} : World).monitors,
      (fun _ => some [] : String → Option (List String)) m.dir = some [])
    ∧ (nm_dispatcher_init ⟨fun _ => some [], fun _ => none⟩ {}).do_dispatch = true
    ∧ ∃ w', nm_dispatcher_call ⟨some 1, .results []⟩
          (nm_dispatcher_init ⟨fun _ => some [], fun _ => none⟩ {}) DISPATCHER_ACTION_UP
          (some 1) (some ⟨"eth0"⟩) none 0 none
        = some (true, none, w')
      ∧ Event.proxy_begin_call "up" "" 1 ∈ w'.trace := by
  refine ⟨fun _ _ => rfl, rfl, _, rfl, ?_⟩
  decide

/-! ### Request identifiers -/

/-- In a well-formed state nothing is allocated at the next fresh address. -/
lemma heap_lookup_next_ptr (w : World) (hwf : w.wf) : w.heap.lookup w.next_ptr = none := by
  cases h : w.heap.lookup w.next_ptr with
  | none => rfl
  | some j =>
    exact absurd (hwf.2.1 (w.next_ptr, j) (mem_of_lookup w.next_ptr j w.heap h)).1
      (Nat.lt_irrefl _)

/-- Every asynchronous call of `_dispatcher_call` in a well-formed state returns. Either
it returns TRUE with a record allocated for the request: the record carries the value
of `request_counter` before the call, is registered under it, `*out_call_id` is that
value, and the counter has advanced by one modulo `2 ^ 32`. Or it allocates nothing and
leaves the counter as it was; then, when the call returned TRUE, `out_call_id` and the
callback are NULL, and when it returned FALSE, `*out_call_id` is as before the call. -/
lemma dispatcher_call_async_outcome (env : DBusEnv) (w : World) (hwf : w.wf)
    (action : DispatcherAction) (connection : Option Nat)
    (device : Option NMDevice) (vpn_iface : Option String)
    (vpn_ip4_config vpn_ip6_config : Option Nat) (callback : Option Nat) (user_data : Nat)
    (out_call_id : Option Nat) :
    ∃ ret out w', _dispatcher_call env w action false connection device vpn_iface
          vpn_ip4_config vpn_ip6_config callback user_data out_call_id = some (ret, out, w')
      ∧ w'.wf ∧ w'.do_dispatch = w.do_dispatch
      ∧ ((ret = true
          ∧ out = out_call_id.map (fun _ => w.request_counter)
          ∧ w'.registry.lookup w.request_counter = some w.next_ptr
          ∧ (w'.heap.lookup w.next_ptr).map (fun i => i.request_id) = some w.request_counter
          ∧ w'.request_counter = (w.request_counter + 1) % 2 ^ 32)
        ∨ (w'.heap.lookup w.next_ptr = none
          ∧ w'.request_counter = w.request_counter
          ∧ (ret = true → out_call_id = none ∧ callback = none ∧ out = none)
          ∧ (ret = false → out = out_call_id))) := by
  have hassert : ¬ ((false : Bool) = true ∧ (callback ≠ none ∨ user_data ≠ 0)) := by simp
  have hfresh := heap_lookup_next_ptr w hwf
  have main : ∀ ret out w', _dispatcher_call env w action false connection device vpn_iface
        vpn_ip4_config vpn_ip6_config callback user_data out_call_id = some (ret, out, w') →
      w'.do_dispatch = w.do_dispatch →
      ((ret = true
          ∧ out = out_call_id.map (fun _ => w.request_counter)
          ∧ w'.registry.lookup w.request_counter = some w.next_ptr
          ∧ (w'.heap.lookup w.next_ptr).map (fun i => i.request_id) = some w.request_counter
          ∧ w'.request_counter = (w.request_counter + 1) % 2 ^ 32)
        ∨ (w'.heap.lookup w.next_ptr = none
          ∧ w'.request_counter = w.request_counter
          ∧ (ret = true → out_call_id = none ∧ callback = none ∧ out = none)
          ∧ (ret = false → out = out_call_id))) →
      ∃ ret out w', _dispatcher_call env w action false connection device vpn_iface
          vpn_ip4_config vpn_ip6_config callback user_data out_call_id = some (ret, out, w')
      ∧ w'.wf ∧ w'.do_dispatch = w.do_dispatch
      ∧ ((ret = true
          ∧ out = out_call_id.map (fun _ => w.request_counter)
          ∧ w'.registry.lookup w.request_counter = some w.next_ptr
          ∧ (w'.heap.lookup w.next_ptr).map (fun i => i.request_id) = some w.request_counter
          ∧ w'.request_counter = (w.request_counter + 1) % 2 ^ 32)
        ∨ (w'.heap.lookup w.next_ptr = none
          ∧ w'.request_counter = w.request_counter
          ∧ (ret = true → out_call_id = none ∧ callback = none ∧ out = none)
          ∧ (ret = false → out = out_call_id))) := by
    intro ret out w' h hd hcase
    exact ⟨ret, out, w', h, wf_dispatcher_call env w hwf action false connection device
      vpn_iface vpn_ip4_config vpn_ip6_config callback user_data out_call_id ret out w' h,
      hd, hcase⟩
  by_cases hdev : action ≠ DISPATCHER_ACTION_HOSTNAME ∧ device = none
  · refine main false out_call_id
      ((_ensure_requests w).emit (.critical "NM_IS_DEVICE (device)")) ?_ ?_
      (Or.inr ⟨?_, ?_, ?_, ?_⟩)
    · simp only [_dispatcher_call, if_neg hassert, if_pos hdev]
    · simp only [ensure_requests_eq, World.emit]
    · simp only [ensure_requests_eq, World.emit]
      exact hfresh
    · simp only [ensure_requests_eq, World.emit]
    · intro h
      cases h
    · intro _
      rfl
  by_cases hvpn : action = DISPATCHER_ACTION_VPN_UP ∧ vpn_ip4_config = none
  · refine main false out_call_id
      (((_ensure_requests w).emit (.log_dbg_dispatching
          (if action = DISPATCHER_ACTION_HOSTNAME then none else device.map (fun d => d.iface))
          (action_to_string action))).emit (.critical "vpn_ip4_config != NULL")) ?_ ?_
      (Or.inr ⟨?_, ?_, ?_, ?_⟩)
    · simp only [_dispatcher_call, if_neg hassert, if_neg hdev, if_pos hvpn]
    · simp only [ensure_requests_eq, World.emit]
    · simp only [ensure_requests_eq, World.emit]
      exact hfresh
    · simp only [ensure_requests_eq, World.emit]
    · intro h
      cases h
    · intro _
      rfl
  by_cases hoff : w.do_dispatch = false
  · by_cases htrack : out_call_id ≠ none ∨ callback ≠ none
    · obtain ⟨w', hcall, _, hreg, hheap, _, _, hcnt, hdd⟩ :=
        dispatcher_call_disabled_tracked env w action connection device vpn_iface
          vpn_ip4_config vpn_ip6_config callback user_data out_call_id hwf hoff hdev hvpn
          htrack
      exact main true _ w' hcall hdd (Or.inl ⟨rfl, rfl, hreg, by rw [hheap]; rfl, hcnt⟩)
    · have hoff' : ((_ensure_requests w).emit (.log_dbg_dispatching
          (if action = DISPATCHER_ACTION_HOSTNAME then none else device.map (fun d => d.iface))
          (action_to_string action))).do_dispatch = false := by
        cases h : w.requests <;> simp [World.emit, _ensure_requests, h, hoff]
      refine main true (out_call_id.map (fun _ => 0))
        (((_ensure_requests w).emit (.log_dbg_dispatching
          (if action = DISPATCHER_ACTION_HOSTNAME then none else device.map (fun d => d.iface))
          (action_to_string action))).emit .log_dbg_ignoring) ?_ ?_
        (Or.inr ⟨?_, ?_, ?_, ?_⟩)
      · simp only [_dispatcher_call, if_neg hassert, if_neg hdev, if_neg hvpn, if_pos hoff',
          dispatcher_call_done]
        rw [if_neg (fun h => htrack h.2)]
      · simp only [ensure_requests_eq, World.emit]
      · simp only [ensure_requests_eq, World.emit]
        exact hfresh
      · simp only [ensure_requests_eq, World.emit]
      · intro _
        cases out_call_id with
        | some v => exact absurd (Or.inl (Option.some_ne_none v)) htrack
        | none =>
          cases callback with
          | some c => exact absurd (Or.inr (Option.some_ne_none c)) htrack
          | none => exact ⟨rfl, rfl, rfl⟩
      · intro h
        cases h
  · have hon : w.do_dispatch = true := by
      cases hd : w.do_dispatch with
      | true => rfl
      | false => exact absurd hd hoff
    cases hproxy : env.proxy with
    | none =>
      have hoff' : ¬ (((_ensure_requests w).emit (.log_dbg_dispatching
          (if action = DISPATCHER_ACTION_HOSTNAME then none else device.map (fun d => d.iface))
          (action_to_string action))).do_dispatch = false) := by
        cases h : w.requests <;> simp [World.emit, _ensure_requests, h, hon]
      refine main false out_call_id
        (((_ensure_requests w).emit (.log_dbg_dispatching
          (if action = DISPATCHER_ACTION_HOSTNAME then none else device.map (fun d => d.iface))
          (action_to_string action))).emit .log_err_no_proxy) ?_ ?_
        (Or.inr ⟨?_, ?_, ?_, ?_⟩)
      · simp only [_dispatcher_call, if_neg hassert, if_neg hdev, if_neg hvpn, if_neg hoff',
          hproxy]
      · simp only [ensure_requests_eq, World.emit]
      · simp only [ensure_requests_eq, World.emit]
        exact hfresh
      · simp only [ensure_requests_eq, World.emit]
      · intro h
        cases h
      · intro _
        rfl
    | some proxy =>
      obtain ⟨w', hcall, _, hreg, hheap, _, hcnt, hdd⟩ :=
        dispatcher_call_enabled_async env w action connection device vpn_iface
          vpn_ip4_config vpn_ip6_config callback user_data out_call_id proxy hwf hon hproxy
          hdev hvpn
      exact main true _ w' hcall hdd (Or.inl ⟨rfl, rfl, hreg, by rw [hheap]; rfl, hcnt⟩)

/-- The counter after `k` allocations, in closed form. -/
lemma request_counter_iterate (c k : Nat) (hc : c < 2 ^ 32) :
    (fun x => (x + 1) % 2 ^ 32)^[k] c = (c + k) % 2 ^ 32 := by
  induction k with
  | zero => simp only [Function.iterate_zero, id_eq, Nat.add_zero, Nat.mod_eq_of_lt hc]
  | succ k ih =>
    rw [Function.iterate_succ_apply', ih]
    omega

/-- While the counter does not wrap, the identifiers it yields are consecutive. -/
lemma iterate_counter_eq_range' (n c : Nat) (h : c + n ≤ 2 ^ 32) :
    List.iterate (fun x => (x + 1) % 2 ^ 32) c n = List.range' c n := by
  induction n generalizing c with
  | zero => rfl
  | succ n ih =>
    rw [List.iterate, List.range'_succ]
    cases n with
    | zero => rfl
    | succ n =>
      have hc : (c + 1) % 2 ^ 32 = c + 1 := Nat.mod_eq_of_lt (by omega)
      simp only [hc]
      rw [ih (c + 1) (by omega)]

/-- Every sequence of asynchronous dispatch calls from a well-formed state returns; the
identifiers allocated are the successive values of the counter, which advances by one
modulo `2 ^ 32` with each allocation. -/
lemma dispatch_all_spec (calls : List DispatchArgs) (w : World) (hwf : w.wf) :
    ∃ ids w', dispatch_all w calls = some (ids, w')
      ∧ w'.wf
      ∧ ids = List.iterate (fun x => (x + 1) % 2 ^ 32) w.request_counter ids.length
      ∧ w'.request_counter = (fun x => (x + 1) % 2 ^ 32)^[ids.length] w.request_counter
      ∧ ids.length ≤ calls.length := by
  induction calls generalizing w with
  | nil => exact ⟨[], w, rfl, hwf, rfl, rfl, Nat.le_refl _⟩
  | cons a rest ih =>
    obtain ⟨ret, out, w1, hcall, hwf1, _, hcase⟩ :=
      dispatcher_call_async_outcome a.env w hwf a.action a.connection a.parent_device
        a.vpn_iface a.vpn_ip4_config a.vpn_ip6_config a.callback a.user_data a.out_call_id
    obtain ⟨ids, w2, hrest, hwf2, hids, hcnt, hlen⟩ := ih w1 hwf1
    rcases hcase with ⟨_, _, _, hheap, hc1⟩ | ⟨hheap, hc1, _, _⟩
    · refine ⟨w.request_counter :: ids, w2, ?_, hwf2, ?_, ?_, ?_⟩
      · simp only [dispatch_all, nm_dispatcher_call_vpn, hcall, hrest, allocated_id, hheap,
          Option.toList, List.singleton_append]
      · rw [hc1] at hids
        rw [List.length_cons, List.iterate, ← hids]
      · rw [hc1] at hcnt
        rw [List.length_cons, Function.iterate_succ_apply, hcnt]
      · simp only [List.length_cons]
        omega
    · refine ⟨ids, w2, ?_, hwf2, ?_, ?_, ?_⟩
      · simp only [dispatch_all, nm_dispatcher_call_vpn, hcall, hrest, allocated_id, hheap,
          Option.map_none', Option.toList, List.nil_append]
      · rw [hc1] at hids
        exact hids
      · rw [hc1] at hcnt
        exact hcnt
      · simp only [List.length_cons]
        omega

/-- With `do_dispatch` true, every call of a sequence of asynchronous dispatch calls
that meets the preconditions with a proxy available allocates an identifier. -/
lemma dispatch_all_enabled (calls : List DispatchArgs) (w : World) (hwf : w.wf)
    (hon : w.do_dispatch = true)
    (hok : ∀ a ∈ calls, a.env.proxy ≠ none
      ∧ ¬ (a.action ≠ DISPATCHER_ACTION_HOSTNAME ∧ a.parent_device = none)
      ∧ ¬ (a.action = DISPATCHER_ACTION_VPN_UP ∧ a.vpn_ip4_config = none)) :
    ∃ w', dispatch_all w calls
      = some (List.iterate (fun x => (x + 1) % 2 ^ 32) w.request_counter calls.length, w') := by
  induction calls generalizing w with
  | nil => exact ⟨w, rfl⟩
  | cons a rest ih =>
    obtain ⟨hproxy, hdev, hvpn⟩ := hok a (List.mem_cons_self _ _)
    obtain ⟨proxy, hproxy⟩ := Option.ne_none_iff_exists'.mp hproxy
    obtain ⟨w1, hcall, _, _, hheap, _, hcnt, hdd⟩ :=
      dispatcher_call_enabled_async a.env w a.action a.connection a.parent_device a.vpn_iface
        a.vpn_ip4_config a.vpn_ip6_config a.callback a.user_data a.out_call_id proxy hwf hon
        hproxy hdev hvpn
    have hwf1 : w1.wf := wf_dispatcher_call a.env w hwf a.action false a.connection
      a.parent_device a.vpn_iface a.vpn_ip4_config a.vpn_ip6_config a.callback a.user_data
      a.out_call_id _ _ w1 hcall
    obtain ⟨w2, hrest⟩ := ih w1 hwf1 (by rw [hdd, hon])
      (fun b hb => hok b (List.mem_cons_of_mem _ hb))
    refine ⟨w2, ?_⟩
    simp only [dispatch_all, nm_dispatcher_call_vpn, hcall, hrest, allocated_id, hheap,
      Option.map_some', Option.toList, List.singleton_append, List.length_cons, hcnt]
    rfl

/-- C11 (amended): the counter starts at 1, and every sequence of asynchronous dispatch
calls from a well-formed state with a nonzero counter that is short enough for the
32-bit counter not to wrap (the counter plus the number of calls is at most `2 ^ 32`)
returns; the identifiers it allocates are consecutive from the counter on, so each is
nonzero and strictly greater than every identifier allocated before it. -/
theorem request_ids_increase_before_wrap (calls : List DispatchArgs) (w : World)
    (hwf : w.wf) (hpos : 0 < w.request_counter)
    (hlen : w.request_counter + calls.length ≤ 2 ^ 32) :
    ({} : World).request_counter = 1
    ∧ ∃ ids w', dispatch_all w calls = some (ids, w')
      ∧ ids = List.range' w.request_counter ids.length
      ∧ (∀ id ∈ ids, id ≠ 0)
      ∧ ids.Pairwise (· < ·) := by
  refine ⟨rfl, ?_⟩
  obtain ⟨ids, w', hrun, _, hids, _, hle⟩ := dispatch_all_spec calls w hwf
  have hrange : ids = List.range' w.request_counter ids.length := by
    rw [← iterate_counter_eq_range' ids.length w.request_counter (by omega)]
    exact hids
  refine ⟨ids, w', hrun, hrange, ?_, ?_⟩
  · intro id hid
    rw [hrange, List.mem_range'_1] at hid
    omega
  · rw [hrange]
    exact List.pairwise_lt_range' _ _

/-- Instance of C11 (amended): two up requests from the initial state. -/
theorem request_ids_increase_before_wrap_witness :
    ({} : World).wf
    ∧ 0 < ({} : World).request_counter
    ∧ ({} : World).request_counter + [up_request, up_request].length ≤ 2 ^ 32
    ∧ ({} : World).request_counter = 1
    ∧ ∃ ids w', dispatch_all {} [up_request, up_request] = some (ids, w')
      ∧ ids = List.range' ({} : World).request_counter ids.length
      ∧ (∀ id ∈ ids, id ≠ 0)
      ∧ ids.Pairwise (· < ·) :=
  ⟨by decide, by decide, by decide,
    request_ids_increase_before_wrap [up_request, up_request] {} (by decide) (by decide)
      (by decide)⟩

/-- C11 (counterexample): `2 ^ 32` up requests from the initial state, each of which
allocates an identifier. The first identifier is 1, the identifier allocated by call
number `2 ^ 32 - 1` is `2 ^ 32 - 1`, and the next one is 0: it is not nonzero and not
greater than the identifiers before it. -/
theorem request_counter_wraps_to_zero :
    ∃ ids w', dispatch_all {} (List.replicate (2 ^ 32) up_request) = some (ids, w')
      ∧ ids[0]? = some 1
      ∧ ids[2 ^ 32 - 2]? = some (2 ^ 32 - 1)
      ∧ ids[2 ^ 32 - 1]? = some 0 := by
  obtain ⟨w', hrun⟩ := dispatch_all_enabled (List.replicate (2 ^ 32) up_request) {}
    (by decide) rfl (by
      intro a ha
      rw [List.eq_of_mem_replicate ha]
      exact ⟨by decide, by decide, by decide⟩)
  rw [List.length_replicate] at hrun
  have hc : ({} : World).request_counter < 2 ^ 32 := by decide
  refine ⟨_, w', hrun, ?_, ?_, ?_⟩
  · rw [List.getElem?_iterate _ _ _ _ (by norm_num), request_counter_iterate _ _ hc]
    rfl
  · rw [List.getElem?_iterate _ _ _ _ (by norm_num), request_counter_iterate _ _ hc]
    rfl
  · rw [List.getElem?_iterate _ _ _ _ (by norm_num), request_counter_iterate _ _ hc]
    rfl

/-- C17 (amended): every asynchronous call of `_dispatcher_call` with a non-NULL
`out_call_id` in a well-formed state returns, and when it returns TRUE a request is
tracked and `*out_call_id` is the identifier under which the request is stored in the
registry: the value of `request_counter` before the call, which the record of the
request carries. -/
theorem out_call_id_of_tracked_request (env : DBusEnv) (w : World) (hwf : w.wf)
    (action : DispatcherAction) (connection : Option Nat)
    (device : Option NMDevice) (vpn_iface : Option String)
    (vpn_ip4_config vpn_ip6_config : Option Nat) (callback : Option Nat) (user_data : Nat)
    (before : Nat) :
    ∃ ret out w', _dispatcher_call env w action false connection device vpn_iface
          vpn_ip4_config vpn_ip6_config callback user_data (some before)
        = some (ret, out, w')
      ∧ (ret = true →
          out = some w.request_counter
          ∧ w'.registry.lookup w.request_counter = some w.next_ptr
          ∧ (w'.heap.lookup w.next_ptr).map (fun i => i.request_id)
              = some w.request_counter) := by
  obtain ⟨ret, out, w', hcall, _, _, hcase⟩ :=
    dispatcher_call_async_outcome env w hwf action connection device vpn_iface
      vpn_ip4_config vpn_ip6_config callback user_data (some before)
  refine ⟨ret, out, w', hcall, ?_⟩
  intro hret
  rcases hcase with ⟨_, hout, hreg, hheap, _⟩ | ⟨_, _, htrue, _⟩
  · exact ⟨hout, hreg, hheap⟩
  · exact absurd (htrue hret).1 (Option.some_ne_none before)

/-- Instance of C17 (amended): an up request in the initial state. -/
theorem out_call_id_of_tracked_request_witness :
    ({} : World).wf
    ∧ ∃ ret out w', _dispatcher_call { proxy := some 1, reply := .results [] } {}
          DISPATCHER_ACTION_UP false (some 1) (some { iface := "eth0" }) none none none
          (some 7) 9 (some 55)
        = some (ret, out, w')
      ∧ (ret = true →
          out = some ({} : World).request_counter
          ∧ w'.registry.lookup ({} : World).request_counter = some ({} : World).next_ptr
          ∧ (w'.heap.lookup ({} : World).next_ptr).map (fun i => i.request_id)
              = some ({} : World).request_counter) :=
  ⟨by decide,
    out_call_id_of_tracked_request { proxy := some 1, reply := .results [] } {} (by decide)
      DISPATCHER_ACTION_UP (some 1) (some { iface := "eth0" }) none none none (some 7) 9 55⟩

/-- C17 (counterexample): with `*out_call_id` holding 55 before the call, an up request
without a device, a vpn-up request without a VPN IPv4 configuration and an up request
while there is no dispatcher proxy each return FALSE with `*out_call_id` still 55; and
in a state whose counter has wrapped to 0 an up request returns TRUE with the request
stored in the registry under the identifier 0, which `*out_call_id` then holds. -/
theorem out_call_id_untouched_on_early_failure :
    (∃ w', _dispatcher_call { proxy := some 1, reply := .results [] } {}
          DISPATCHER_ACTION_UP false (some 1) none none none none (some 7) 9 (some 55)
        = some (false, some 55, w'))
    ∧ (∃ w', _dispatcher_call { proxy := some 1, reply := .results [] } {}
          DISPATCHER_ACTION_VPN_UP false (some 1) (some { iface := "eth0" }) (some "tun0")
          none none (some 7) 9 (some 55)
        = some (false, some 55, w'))
    ∧ (∃ w', _dispatcher_call { proxy := none, reply := .results [] } {}
          DISPATCHER_ACTION_UP false (some 1) (some { iface := "eth0" }) none none none
          (some 7) 9 (some 55)
        = some (false, some 55, w'))
    ∧ (∃ w', _dispatcher_call { proxy := some 1, reply := .results [] }
          { request_counter := 0 }
          DISPATCHER_ACTION_UP false (some 1) (some { iface := "eth0" }) none none none
          (some 7) 9 (some 55)
        = some (true, some 0, w')
      ∧ w'.registry.lookup 0 = some 1) := by
  exact ⟨⟨_, rfl⟩, ⟨_, rfl⟩, ⟨_, rfl⟩, ⟨_, rfl, rfl⟩⟩

/-! ### Steps that allocate no identifier -/

lemma same_counter_refl (w : World) : w.same_counter w := ⟨rfl, rfl, rfl, rfl⟩

lemma same_counter_trans (w w1 w2 : World) (h1 : w.same_counter w1)
    (h2 : w1.same_counter w2) : w.same_counter w2 := by
  obtain ⟨a1, a2, a3, a4⟩ := h1
  obtain ⟨b1, b2, b3, b4⟩ := h2
  exact ⟨b1.trans a1, b2.trans a2, b3.trans a3, b4.trans a4⟩

lemma same_counter_dispatcher_info_free (v : World) (p : Nat) (v' : World)
    (h : dispatcher_info_free v p = some v') : v.same_counter v' := by
  unfold dispatcher_info_free at h
  cases hj : v.heap.lookup p with
  | none => simp [hj] at h
  | some j =>
    simp only [hj, Option.some.injEq] at h
    subst h
    by_cases hz : j.idle_id ≠ 0
    · simp only [if_pos hz]
      exact ⟨rfl, rfl, rfl, rfl⟩
    · simp only [if_neg hz]
      exact ⟨rfl, rfl, rfl, rfl⟩

lemma same_counter_g_hash_table_remove (v : World) (k : Nat) (v' : World)
    (h : g_hash_table_remove v k = some v') : v.same_counter v' := by
  unfold g_hash_table_remove at h
  cases hr : v.requests with
  | none =>
    simp only [hr, Option.some.injEq] at h
    subst h
    exact ⟨rfl, rfl, rfl, rfl⟩
  | some t =>
    simp only [hr] at h
    cases hl : t.lookup k with
    | none =>
      simp only [hl, Option.some.injEq] at h
      subst h
      exact same_counter_refl v
    | some q =>
      simp only [hl] at h
      cases hf : dispatcher_info_free v q with
      | none => simp [hf] at h
      | some v1 =>
        simp only [hf, Option.some.injEq] at h
        subst h
        exact same_counter_trans v v1 _ (same_counter_dispatcher_info_free v q v1 hf)
          ⟨rfl, rfl, rfl, rfl⟩

lemma same_counter_dispatcher_info_cleanup (v : World) (p : Nat) (v' : World)
    (h : dispatcher_info_cleanup v p = some v') : v.same_counter v' := by
  unfold dispatcher_info_cleanup at h
  cases hj : v.heap.lookup p with
  | none => simp [hj] at h
  | some j =>
    simp only [hj] at h
    exact same_counter_g_hash_table_remove v _ v' h

lemma same_counter_dispatcher_done_cb (v : World) (p : Nat) (reply : CallReply) (v' : World)
    (h : dispatcher_done_cb v p reply = some v') : v.same_counter v' := by
  unfold dispatcher_done_cb at h
  have key : ∀ v1 : World, v.same_counter v1 →
      (match v1.heap.lookup p with
        | none => none
        | some i =>
          match i.callback with
          | some func => some (v1.emit (.callback func i.request_id i.user_data))
          | none => some v1) = some v' → v.same_counter v' := by
    intro v1 h1 h2
    cases hj : v1.heap.lookup p with
    | none => simp [hj] at h2
    | some j =>
      simp only [hj] at h2
      cases hc : j.callback with
      | none =>
        simp only [hc, Option.some.injEq] at h2
        subst h2
        exact h1
      | some func =>
        simp only [hc, Option.some.injEq] at h2
        subst h2
        exact same_counter_trans v v1 _ h1 ⟨rfl, rfl, rfl, rfl⟩
  cases reply with
  | results items =>
    simp only at h
    cases hp : dispatcher_results_process items with
    | none => simp [hp] at h
    | some es =>
      simp only [hp] at h
      exact key (v.emit_all es) ⟨rfl, rfl, rfl, rfl⟩ h
  | error code message =>
    simp only at h
    exact key (v.emit (.log_warn_dispatcher_failed code message)) ⟨rfl, rfl, rfl, rfl⟩ h

lemma same_counter_idle_dispatch (v : World) (s : Nat) (v' : World)
    (h : idle_dispatch v s = some v') : v.same_counter v' := by
  unfold idle_dispatch at h
  cases hs : v.idle_sources.lookup s with
  | none =>
    simp only [hs, Option.some.injEq] at h
    subst h
    exact same_counter_refl v
  | some p =>
    simp only [hs, dispatcher_idle_cb] at h
    cases hj : v.heap.lookup p with
    | none => simp [hj] at h
    | some j =>
      simp only [hj] at h
      cases hc : dispatcher_info_cleanup
          (match j.callback with
            | some func => (v.store p { j with idle_id := 0 }).emit
                (.callback func j.request_id j.user_data)
            | none => v.store p { j with idle_id := 0 }) p with
      | none => simp [hc] at h
      | some v3 =>
        simp only [hc, Option.some.injEq, Bool.false_eq_true, if_false] at h
        subst h
        have h0 : v.same_counter
            (match j.callback with
              | some func => (v.store p { j with idle_id := 0 }).emit
                  (.callback func j.request_id j.user_data)
              | none => v.store p { j with idle_id := 0 }) := by
          cases j.callback <;> exact ⟨rfl, rfl, rfl, rfl⟩
        exact same_counter_trans v _ _
          (same_counter_trans v _ v3 h0 (same_counter_dispatcher_info_cleanup _ p v3 hc))
          ⟨rfl, rfl, rfl, rfl⟩

lemma same_counter_proxy_call_complete (v : World) (p : Nat) (reply : CallReply)
    (v' : World) (h : proxy_call_complete v p reply = some v') : v.same_counter v' := by
  unfold proxy_call_complete at h
  by_cases hp : p ∈ v.pending_calls
  · simp only [if_pos hp] at h
    cases hd : dispatcher_done_cb v p reply with
    | none => simp [hd] at h
    | some v1 =>
      simp only [hd] at h
      cases hc : dispatcher_info_cleanup v1 p with
      | none => simp [hc] at h
      | some v2 =>
        simp only [hc, Option.some.injEq] at h
        subst h
        exact same_counter_trans v v2 _
          (same_counter_trans v v1 v2 (same_counter_dispatcher_done_cb v p reply v1 hd)
            (same_counter_dispatcher_info_cleanup v1 p v2 hc))
          ⟨rfl, rfl, rfl, rfl⟩
  · simp only [if_neg hp, Option.some.injEq] at h
    subst h
    exact same_counter_refl v

lemma same_counter_nm_dispatcher_call_cancel (v : World) (id : Nat) (v' : World)
    (h : nm_dispatcher_call_cancel v id = some v') : v.same_counter v' := by
  unfold nm_dispatcher_call_cancel at h
  have he : v.same_counter (_ensure_requests v) := by
    rw [ensure_requests_eq]
    exact ⟨rfl, rfl, rfl, rfl⟩
  cases hl : (_ensure_requests v).registry.lookup id with
  | none =>
    simp only [hl, Option.some.injEq] at h
    subst h
    exact same_counter_trans v _ _ he ⟨rfl, rfl, rfl, rfl⟩
  | some p =>
    simp only [hl] at h
    cases hj : (_ensure_requests v).heap.lookup p with
    | none => simp [hj] at h
    | some j =>
      simp only [hj, Option.some.injEq] at h
      subst h
      exact same_counter_trans v _ _ he ⟨rfl, rfl, rfl, rfl⟩

lemma same_counter_dispatcher_call_blocking (env : DBusEnv) (w : World)
    (action : DispatcherAction) (connection : Option Nat)
    (device : Option NMDevice) (vpn_iface : Option String)
    (vpn_ip4_config vpn_ip6_config : Option Nat) (callback : Option Nat) (user_data : Nat)
    (out_call_id : Option Nat) (ret : Bool) (out : Option Nat) (w' : World)
    (h : _dispatcher_call env w action true connection device vpn_iface vpn_ip4_config
      vpn_ip6_config callback user_data out_call_id = some (ret, out, w')) :
    w.same_counter w' := by
  simp only [_dispatcher_call] at h
  by_cases hassert : True ∧ (callback ≠ none ∨ user_data ≠ 0)
  · rw [if_pos hassert] at h
    cases h
  rw [if_neg hassert] at h
  have he : w.same_counter (_ensure_requests w) := by
    rw [ensure_requests_eq]
    exact ⟨rfl, rfl, rfl, rfl⟩
  by_cases hdev : action ≠ DISPATCHER_ACTION_HOSTNAME ∧ device = none
  · simp only [if_pos hdev, Option.some.injEq, Prod.mk.injEq] at h
    rw [← h.2.2]
    exact same_counter_trans w _ _ he ⟨rfl, rfl, rfl, rfl⟩
  simp only [if_neg hdev] at h
  have ha : w.same_counter ((_ensure_requests w).emit (.log_dbg_dispatching
      (if action = DISPATCHER_ACTION_HOSTNAME then none else device.map (fun d => d.iface))
      (action_to_string action))) :=
    same_counter_trans w _ _ he ⟨rfl, rfl, rfl, rfl⟩
  by_cases hvpn : action = DISPATCHER_ACTION_VPN_UP ∧ vpn_ip4_config = none
  · simp only [if_pos hvpn, Option.some.injEq, Prod.mk.injEq] at h
    rw [← h.2.2]
    exact same_counter_trans w _ _ ha ⟨rfl, rfl, rfl, rfl⟩
  simp only [if_neg hvpn] at h
  have htrack : ¬ ((true : Bool) = false ∧ (out_call_id ≠ none ∨ callback ≠ none)) := by
    simp
  by_cases hoff : ((_ensure_requests w).emit (.log_dbg_dispatching
      (if action = DISPATCHER_ACTION_HOSTNAME then none else device.map (fun d => d.iface))
      (action_to_string action))).do_dispatch = false
  · rw [if_pos hoff, if_neg htrack] at h
    simp only [dispatcher_call_done, Option.some.injEq, Prod.mk.injEq] at h
    rw [← h.2.2]
    exact same_counter_trans w _ _ ha ⟨rfl, rfl, rfl, rfl⟩
  rw [if_neg hoff] at h
  cases hproxy : env.proxy with
  | none =>
    simp only [hproxy, Option.some.injEq, Prod.mk.injEq] at h
    rw [← h.2.2]
    exact same_counter_trans w _ _ ha ⟨rfl, rfl, rfl, rfl⟩
  | some px =>
    simp only [hproxy, if_true] at h
    cases hreply : env.reply with
    | results items =>
      simp only [hreply] at h
      cases hproc : dispatcher_results_process items with
      | none => simp [hproc] at h
      | some es =>
        simp only [hproc, dispatcher_call_done, Option.some.injEq, Prod.mk.injEq] at h
        rw [← h.2.2]
        exact same_counter_trans w _ _ ha ⟨rfl, rfl, rfl, rfl⟩
    | error code message =>
      simp only [hreply, dispatcher_call_done, Option.some.injEq, Prod.mk.injEq] at h
      rw [← h.2.2]
      exact same_counter_trans w _ _ ha ⟨rfl, rfl, rfl, rfl⟩

/-- One step from a well-formed state: either it allocates the identifier the counter
holds and advances the counter by one modulo `2 ^ 32`, or it allocates nothing and
leaves the counter as it was. -/
lemma step_allocation (w w1 : World) (hwf : w.wf) (hs : Step w w1) :
    w1.wf
    ∧ ((allocated_id w w1 = some w.request_counter
          ∧ w1.request_counter = (w.request_counter + 1) % 2 ^ 32)
      ∨ (allocated_id w w1 = none ∧ w1.request_counter = w.request_counter)) := by
  have hwf1 : w1.wf := wf_of_reachable w w1 hwf (Reachable.step w w1 Reachable.init hs)
  refine ⟨hwf1, ?_⟩
  have of_same : w.same_counter w1 →
      allocated_id w w1 = none ∧ w1.request_counter = w.request_counter := by
    intro hsame
    refine ⟨?_, hsame.1⟩
    unfold allocated_id
    rw [← hsame.2.1, heap_lookup_next_ptr w1 hwf1]
    rfl
  cases hs with
  | call env _ action blocking connection device vpn_iface vpn4 vpn6 callback user_data
      out_call_id ret out _ hc =>
    cases blocking with
    | true =>
      exact Or.inr (of_same (same_counter_dispatcher_call_blocking env w action connection
        device vpn_iface vpn4 vpn6 callback user_data out_call_id ret out w1 hc))
    | false =>
      obtain ⟨ret2, out2, w2, hcall, _, _, hcase⟩ :=
        dispatcher_call_async_outcome env w hwf action connection device vpn_iface vpn4 vpn6
          callback user_data out_call_id
      rw [hcall] at hc
      simp only [Option.some.injEq, Prod.mk.injEq] at hc
      obtain ⟨_, _, hw⟩ := hc
      subst hw
      rcases hcase with ⟨_, _, _, hheap, hcnt⟩ | ⟨hheap, hcnt, _, _⟩
      · exact Or.inl ⟨hheap, hcnt⟩
      · refine Or.inr ⟨?_, hcnt⟩
        unfold allocated_id
        rw [hheap]
        rfl
  | cancel _ call_id _ hc =>
    exact Or.inr (of_same (same_counter_nm_dispatcher_call_cancel w call_id w1 hc))
  | idle _ source _ hc => exact Or.inr (of_same (same_counter_idle_dispatch w source w1 hc))
  | complete _ info reply _ hc =>
    exact Or.inr (of_same (same_counter_proxy_call_complete w info reply w1 hc))
  | dir_changed fs _ i =>
    obtain ⟨_, h2, _, h4, _⟩ := same_requests_dispatcher_dir_changed fs w i
    refine Or.inr ⟨?_, h2⟩
    unfold allocated_id
    rw [← h4, heap_lookup_next_ptr _ hwf1]
    rfl
  | init fs _ =>
    obtain ⟨_, h2, _, h4, _⟩ := same_requests_nm_dispatcher_init fs w
    refine Or.inr ⟨?_, h2⟩
    unfold allocated_id
    rw [← h4, heap_lookup_next_ptr _ hwf1]
    rfl

/-- Along every run from a well-formed state, whatever steps it interleaves (dispatch
calls, cancellations, idle turns, completions, directory notifications), the
identifiers allocated are the successive values of the counter. -/
theorem run_allocates_successive_counters (w0 w : World) (ids : List Nat) (h0 : w0.wf)
    (h : Run w0 ids w) :
    w.wf
    ∧ ids = List.iterate (fun x => (x + 1) % 2 ^ 32) w0.request_counter ids.length
    ∧ w.request_counter = (fun x => (x + 1) % 2 ^ 32)^[ids.length] w0.request_counter := by
  induction h with
  | init => exact ⟨h0, rfl, rfl⟩
  | step ids w1 w2 _ hstep ih =>
    obtain ⟨hwf1, hids, hcnt⟩ := ih
    obtain ⟨hwf2, hcase⟩ := step_allocation w1 w2 hwf1 hstep
    refine ⟨hwf2, ?_⟩
    rcases hcase with ⟨ha, hc⟩ | ⟨ha, hc⟩
    · rw [ha]
      simp only [Option.toList, List.length_append, List.length_singleton]
      constructor
      · rw [List.iterate_add, ← hids, ← hcnt]
        rfl
      · rw [hc, hcnt, Function.iterate_succ_apply']
    · rw [ha]
      simp only [Option.toList, List.append_nil]
      exact ⟨hids, by rw [hc, hcnt]⟩

/-- Instance: the empty run from the initial state. -/
theorem run_allocates_successive_counters_witness :
    ({} : World).wf
    ∧ ([] : List Nat)
        = List.iterate (fun x => (x + 1) % 2 ^ 32) ({} : World).request_counter
            ([] : List Nat).length
    ∧ ({} : World).request_counter
        = (fun x => (x + 1) % 2 ^ 32)^[([] : List Nat).length] ({} : World).request_counter :=
  run_allocates_successive_counters {} {} [] (by decide) Run.init

end NetworkManager
